import Mathlib

/-!
# DirectXPlus.h / DirectXWidget.cxx: reference-counted COM wrappers

A shallow embedding of the wrapper layer of `DirectXPlus.h` and of the widget
of `DirectXWidget.cxx`.

* A raw interface pointer is a `Handle` (a natural number, `0` is `nullptr`).
* The native side is a `World`: the reference count of every handle and the
  chronological list of native calls issued so far.  `AddRef` and `Release` are
  the two `IUnknown` methods the wrappers call; with the default
  `DEBUG_REF(exp) (exp)` they are issued as written.
* C++ objects live at addresses of a type `α`; `World.mem a` is the value of the
  member `m_##C` of the wrapper object at address `a`.  References
  (`const C &c`, `C &&c`, `this`) are addresses, so the guard `this != &c` is a
  comparison of addresses.
-/

namespace dx

/-- A raw COM interface pointer (`I *`); `0` is `nullptr`. -/
abbrev Handle := Nat

/-- The null interface pointer. -/
def nullptr : Handle := 0

/-- The status code `HRESULT`, a signed 32-bit integer. -/
abbrev HRESULT := Int

/-- The members of `D3D11_TEXTURE2D_DESC`, in declaration order (`SampleDesc` flattened). -/
structure TEXTURE2D_DESC where
  Width : Nat
  Height : Nat
  MipLevels : Nat
  ArraySize : Nat
  Format : Nat
  SampleCount : Nat
  SampleQuality : Nat
  Usage : Nat
  BindFlags : Nat
  CPUAccessFlags : Nat
  MiscFlags : Nat
  deriving DecidableEq, Repr

/-- The native calls issued by the wrapper layer, with the receiver first. -/
inductive Call where
  | AddRef (p : Handle)
  | Release (p : Handle)
  | CreateDXGIFactory
  | EnumAdapters (factory : Handle) (id : Nat)
  | D3D11CreateDevice (adapter : Handle) (driverType : Nat) (flags : Nat)
  | CreateSwapChain (factory : Handle) (device : Handle) (hwnd : Nat)
  | ResizeBuffers (swapchain : Handle) (bufferCount width height format flags : Nat)
  | GetBuffer (swapchain : Handle) (bufferId : Nat)
  | Present (swapchain : Handle) (syncInterval flags : Nat)
  | GetDesc (texture : Handle)
  | CreateTexture2D (device : Handle) (desc : TEXTURE2D_DESC)
  | CreateRenderTargetView (device : Handle) (texture : Handle)
  | CreateDepthStencilView (device : Handle) (texture : Handle) (format viewDimension mipSlice : Nat)
  | OMSetRenderTargets (context : Handle) (views : List Handle) (depthStencil : Handle)
  | RSSetViewports (context : Handle) (width height : Int)
  | ClearRenderTargetView (context : Handle) (view : Handle)
  | ClearDepthStencilView (context : Handle) (view : Handle) (clearFlags : Nat) (stencil : Nat)
  deriving DecidableEq, Repr

/-- The native side together with the wrapper objects of the program:
`refs p` is the reference count of the COM object behind `p`, `trace` the
native calls issued so far (oldest first), `mem a` the pointer held by the
wrapper object at address `a`. -/
structure World (α : Type) where
  refs : Handle → Nat
  trace : List Call
  mem : α → Handle

namespace World

variable {α : Type} [DecidableEq α]

/-- Source: `p->AddRef()`: the count of `p` goes up by one. -/
def AddRef (s : World α) (p : Handle) : World α :=
  { s with refs := Function.update s.refs p (s.refs p + 1), trace := s.trace ++ [Call.AddRef p] }

/-- Source: `p->Release()`: the count of `p` goes down by one. -/
def Release (s : World α) (p : Handle) : World α :=
  { s with refs := Function.update s.refs p (s.refs p - 1), trace := s.trace ++ [Call.Release p] }

/-- Assignment `m_##C = p` to the pointer member of the wrapper at `a`. -/
def store (s : World α) (a : α) (p : Handle) : World α :=
  { s with mem := Function.update s.mem a p }

/-- A native call that neither returns a reference nor a status is only recorded. -/
def emit (s : World α) (c : Call) : World α :=
  { s with trace := s.trace ++ [c] }

/-- A native creation call stores a pointer in its out-parameter; a non-null
pointer carries one reference that now belongs to the caller. -/
def handout (s : World α) (p : Handle) : World α :=
  if nullptr ≠ p then { s with refs := Function.update s.refs p (s.refs p + 1) } else s

end World

/-! ## `INJECT_COMOBJ_CONCEPT(C, I)` -/

section comobj

variable {α : Type} [DecidableEq α]

/-- Source: `void reclaim()`. -/
def reclaim (this : α) (s : World α) : World α :=
  if nullptr ≠ s.mem this then s.AddRef (s.mem this) else s

/-- Source: `void release()`. -/
def release (this : α) (s : World α) : World α :=
  if nullptr ≠ s.mem this then (s.Release (s.mem this)).store this nullptr else s

/-- The default constructor `C() {}`: the member initialiser `I *m_##C = nullptr`. -/
def default_ctor (this : α) (s : World α) : World α :=
  s.store this nullptr

/-- Source: `explicit C(I *p##C) : m_##C(p##C) { reclaim(); }`. -/
def ctor (this : α) (p : Handle) (s : World α) : World α :=
  reclaim this (s.store this p)

/-- Source: `C(const C &c) { release(); m_##C = c.m_##C; reclaim(); }`, after the
default member initialiser. -/
def copy_ctor (this c : α) (s : World α) : World α :=
  let s := s.store this nullptr
  let s := release this s
  let s := s.store this (s.mem c)
  reclaim this s

/-- Source: `C(C &&c) { release(); m_##C = c.m_##C; c.m_##C = nullptr; }`, after the
default member initialiser. -/
def move_ctor (this c : α) (s : World α) : World α :=
  let s := s.store this nullptr
  let s := release this s
  let s := s.store this (s.mem c)
  s.store c nullptr

/-- Source: `~C() { release(); }`. -/
def dtor (this : α) (s : World α) : World α :=
  release this s

/-- Source: `C &operator= (const C &c)`. -/
def copy_assign (this c : α) (s : World α) : World α :=
  if this ≠ c then
    let s := release this s
    let s := s.store this (s.mem c)
    reclaim this s
  else s

/-- Source: `C &operator= (C &&c)`. -/
def move_assign (this c : α) (s : World α) : World α :=
  if this ≠ c then
    let s := release this s
    let s := s.store this (s.mem c)
    s.store c nullptr
  else s

/-- Source: `bool is_valid() const`. -/
def is_valid (this : α) (s : World α) : Bool :=
  decide (nullptr ≠ s.mem this)

/-- Source: `I *winapi() const`. -/
def winapi (this : α) (s : World α) : Handle :=
  s.mem this

/-- Source: `template<typename T, typename P> T make_comobj(P ptr)`: the local `r` is
constructed from `ptr`, the pointer is released once, and `r` is returned by
value: the returned object at `ret` is move-constructed from `r`, which is then
destroyed. -/
def make_comobj (ret r : α) (ptr : Handle) (s : World α) : World α :=
  let s := ctor r ptr s
  let s := if nullptr ≠ ptr then s.Release ptr else s
  let s := move_ctor ret r s
  dtor r s

end comobj

/-! ## `d3d11::device`: the wrapper pattern written out by hand, with a second member -/

/-- Where the two members of a `d3d11::device` object live: the raw pointer
`m_device` and the wrapper sub-object `m_context`. -/
structure device (α : Type) where
  m_device : α
  m_context : α
  deriving DecidableEq

namespace device

variable {α : Type} [DecidableEq α]

/-- Source: `void reclaim()`. -/
def reclaim (this : device α) (s : World α) : World α :=
  if nullptr ≠ s.mem this.m_device then s.AddRef (s.mem this.m_device) else s

/-- Source: `void release()`. -/
def release (this : device α) (s : World α) : World α :=
  if nullptr ≠ s.mem this.m_device then
    (s.Release (s.mem this.m_device)).store this.m_device nullptr
  else s

/-- Source: `device() {}`: `m_device = nullptr`, then `m_context` is default-constructed. -/
def default_ctor (this : device α) (s : World α) : World α :=
  dx.default_ctor this.m_context (s.store this.m_device nullptr)

/-- Source: `device(const device &c) : m_context(c.m_context) { release(); m_device = c.m_device; reclaim(); }`. -/
def copy_ctor (this c : device α) (s : World α) : World α :=
  let s := s.store this.m_device nullptr
  let s := dx.copy_ctor this.m_context c.m_context s
  let s := release this s
  let s := s.store this.m_device (s.mem c.m_device)
  reclaim this s

/-- Source: `device(device &&c) : m_context(std::move(c.m_context)) { release(); m_device = c.m_device; c.m_device = nullptr; }`. -/
def move_ctor (this c : device α) (s : World α) : World α :=
  let s := s.store this.m_device nullptr
  let s := dx.move_ctor this.m_context c.m_context s
  let s := release this s
  let s := s.store this.m_device (s.mem c.m_device)
  s.store c.m_device nullptr

/-- Source: `~device() { release(); }`, followed by the destructor of the member `m_context`. -/
def dtor (this : device α) (s : World α) : World α :=
  dx.dtor this.m_context (release this s)

/-- Source: `device &operator= (const device &c)`. -/
def copy_assign (this c : device α) (s : World α) : World α :=
  if this ≠ c then
    let s := release this s
    let s := s.store this.m_device (s.mem c.m_device)
    reclaim this s
  else s

/-- Source: `device &operator= (device &&c)`. -/
def move_assign (this c : device α) (s : World α) : World α :=
  if this ≠ c then
    let s := release this s
    let s := s.store this.m_device (s.mem c.m_device)
    let s := s.store c.m_device nullptr
    dx.move_assign this.m_context c.m_context s
  else s

/-- Source: `bool is_valid() const`. -/
def is_valid (this : device α) (s : World α) : Bool :=
  decide (nullptr ≠ s.mem this.m_device)

/-- Source: `ID3D11Device *winapi() const`. -/
def winapi (this : device α) (s : World α) : Handle :=
  s.mem this.m_device

/-- Source: `devicecontext &immediate_context()`: a reference to the member `m_context`. -/
def immediate_context (this : device α) : α :=
  this.m_context

end device

/-! ## Error translation -/

/-- A pointer to characters (`LPSTR`): null, or the address of a text. -/
inductive LPSTR where
  | null
  | text (t : String)
  deriving DecidableEq, Repr

/-- The fifth argument `lpBuffer` of `FormatMessageA`, as seen from `to_string`:
either the value of a character pointer, or the address of the local variable
`errorText`. -/
inductive BufferArg where
  | value (p : LPSTR)
  | addressOf_errorText
  deriving DecidableEq, Repr

/-- The results of the native calls: what the platform answers to each call, as
a function of the call's arguments.  Creation calls answer with a status and
the pointer stored in the out-parameter. -/
structure Native where
  /-- The text of the system message table for a status code, when it has one. -/
  message : HRESULT → Option String
  CreateDXGIFactory : HRESULT × Handle
  EnumAdapters : Handle → Nat → HRESULT × Handle
  /-- Answers with the status, the device and the immediate context. -/
  D3D11CreateDevice : Handle → Nat → Nat → HRESULT × Handle × Handle
  CreateSwapChain : Handle → Handle → Nat → HRESULT × Handle
  ResizeBuffers : Handle → Nat → Nat → Nat → Nat → Nat → HRESULT
  GetBuffer : Handle → Nat → HRESULT × Handle
  Present : Handle → Nat → Nat → HRESULT
  GetDesc : Handle → TEXTURE2D_DESC
  CreateTexture2D : Handle → TEXTURE2D_DESC → HRESULT × Handle
  CreateRenderTargetView : Handle → Handle → HRESULT × Handle
  CreateDepthStencilView : Handle → Handle → Nat → Nat → Nat → HRESULT × Handle

/-- The platform call `FormatMessageA` with `FORMAT_MESSAGE_FROM_SYSTEM |
FORMAT_MESSAGE_ALLOCATE_BUFFER | FORMAT_MESSAGE_IGNORE_INSERTS`: `lpBuffer` is
read as the address of an `LPSTR` variable, in which the address of the
allocated message text is stored.  The result is the value of the caller's
variable `errorText` after the call: an argument passed by value cannot change
it. -/
def FormatMessageA (nat : Native) (dwMessageId : HRESULT) (lpBuffer : BufferArg)
    (errorText : LPSTR) : LPSTR :=
  match lpBuffer with
  | BufferArg.value _ => errorText
  | BufferArg.addressOf_errorText =>
    match nat.message dwMessageId with
    | some t => LPSTR.text t
    | none => errorText

/-- Source: `std::string to_string(HRESULT hr)`. -/
def to_string (nat : Native) (hr : HRESULT) : String :=
  let result := ""
  let errorText := LPSTR.null
  let errorText := FormatMessageA nat hr (BufferArg.value errorText) errorText
  match errorText with
  | LPSTR.text t => t
  | LPSTR.null => result

/-- Source: `class runtime_error : public std::runtime_error`: the message of the base
class and the member `m_hr`. -/
structure runtime_error where
  what : String
  m_hr : HRESULT
  deriving DecidableEq, Repr

/-- Source: `runtime_error(HRESULT hr) : std::runtime_error(to_string(hr)), m_hr(hr)`. -/
def runtime_error.ctor (nat : Native) (hr : HRESULT) : runtime_error :=
  { what := to_string nat hr, m_hr := hr }

/-- Source: `HRESULT hr() const`. -/
def runtime_error.hr (e : runtime_error) : HRESULT :=
  e.m_hr

/-- The platform's `FAILED(hr)`, `((HRESULT)(hr)) < 0`. -/
def FAILED (hr : HRESULT) : Bool :=
  decide (hr < 0)

/-- Source: `void throw_if_failed(HRESULT hr)`: `Except.error e` is `throw e`. -/
def throw_if_failed (nat : Native) (hr : HRESULT) : Except runtime_error Unit :=
  if FAILED hr then Except.error (runtime_error.ctor nat hr) else Except.ok ()

/-! ## Statements that can throw -/

/-- How a function body can end other than by returning: a thrown
`runtime_error`, or a member call through a null interface pointer, after
which the program has no defined behaviour and the run is cut off. -/
inductive Abort where
  | thrown (e : runtime_error)
  | undefined
  deriving DecidableEq, Repr

/-- A statement: from a world to its result (or the way it aborted) and the world it leaves. -/
def Exec (α β : Type) : Type :=
  World α → Except Abort β × World α

namespace Exec

variable {α β γ : Type}

/-- Return a value without touching the world. -/
def ret (b : β) : Exec α β :=
  fun s => (Except.ok b, s)

/-- Sequencing: the rest runs only when the first statement returned. -/
def seq (m : Exec α β) (f : β → Exec α γ) : Exec α γ :=
  fun s =>
    match m s with
    | (Except.ok b, s1) => f b s1
    | (Except.error e, s1) => (Except.error e, s1)

instance : Monad (Exec α) where
  pure := ret
  bind := seq

/-- A statement that cannot throw. -/
def step (f : World α → World α) : Exec α Unit :=
  fun s => (Except.ok (), f s)

/-- A native call recorded in the trace. -/
def call (c : Call) : Exec α Unit :=
  fun s => (Except.ok (), s.emit c)

/-- The receiver `m_##C->` of a member call: the held pointer, which must not be null. -/
def deref (this : α) : Exec α Handle :=
  fun s => if nullptr ≠ s.mem this then (Except.ok (s.mem this), s) else (Except.error Abort.undefined, s)

/-- The argument `c.winapi()`. -/
def read (c : α) : Exec α Handle :=
  fun s => (Except.ok (s.mem c), s)

/-- The statement `throw_if_failed(hr);`. -/
def check (nat : Native) (hr : HRESULT) : Exec α Unit :=
  fun s =>
    match throw_if_failed nat hr with
    | Except.ok _ => (Except.ok (), s)
    | Except.error e => (Except.error (Abort.thrown e), s)

/-- A block with a local object: its destructor runs when the block is left,
by falling off its end or by an exception passing through. -/
def scope (destroy : World α → World α) (body : Exec α β) : Exec α β :=
  fun s =>
    match body s with
    | (Except.error Abort.undefined, s1) => (Except.error Abort.undefined, s1)
    | (r, s1) => (r, destroy s1)

/-- A constructor body: when a thrown exception leaves it, the members, which
are fully constructed by then, are destroyed. -/
def unwind (destroy : World α → World α) (body : Exec α β) : Exec α β :=
  fun s =>
    match body s with
    | (Except.error (Abort.thrown e), s1) => (Except.error (Abort.thrown e), destroy s1)
    | (r, s1) => (r, s1)

end Exec

/-! ## SDK constants and integer conversions -/

def DXGI_FORMAT_UNKNOWN : Nat := 0
def DXGI_FORMAT_R8G8B8A8_UNORM : Nat := 28
def DXGI_FORMAT_D24_UNORM_S8_UINT : Nat := 45
def D3D11_USAGE_DEFAULT : Nat := 0
def D3D11_BIND_SHADER_RESOURCE : Nat := 8
def D3D11_BIND_DEPTH_STENCIL : Nat := 64
def D3D11_DSV_DIMENSION_TEXTURE2DMS : Nat := 5
def D3D11_CLEAR_DEPTH : Nat := 1
def D3D11_CLEAR_STENCIL : Nat := 2
def D3D_DRIVER_TYPE_HARDWARE : Nat := 1
def D3D11_CREATE_DEVICE_BGRA_SUPPORT : Nat := 32

/-- Conversion of an `UINT` to `int` (`return s.Width;` in `int width()`). -/
def toInt (u : Nat) : Int :=
  if u % 2 ^ 32 < 2 ^ 31 then ((u % 2 ^ 32 : Nat) : Int) else ((u % 2 ^ 32 : Nat) : Int) - 2 ^ 32

/-- Conversion of an `int` argument to an `unsigned int` parameter. -/
def toUInt (i : Int) : Nat :=
  (i % 2 ^ 32).toNat

/-! ## The wrapper classes used by the widget -/

section wrappers

variable {α : Type} [DecidableEq α]

/-- Source: `void dxgi::swapchain::resize(width, height, buffer_count, new_format, flags)`. -/
def swapchain.resize (nat : Native) (this : α) (width height buffer_count new_format flags : Nat) :
    Exec α Unit := do
  let p ← Exec.deref this
  Exec.call (Call.ResizeBuffers p buffer_count width height new_format flags)
  Exec.check nat (nat.ResizeBuffers p buffer_count width height new_format flags)

/-- Source: `HRESULT dxgi::swapchain::present(sync_interval, flags)`. -/
def swapchain.present (nat : Native) (this : α) (sync_interval flags : Nat) : Exec α HRESULT := do
  let p ← Exec.deref this
  Exec.call (Call.Present p sync_interval flags)
  pure (nat.Present p sync_interval flags)

/-- Source: `d3d11::texture2d dxgi::swapchain::backbuffer<d3d11::texture2d>(buffer_id)`;
the result is constructed at `ret`, `r` is the local of `make_comobj`. -/
def swapchain.backbuffer (nat : Native) (ret r : α) (this : α) (buffer_id : Nat) : Exec α Unit := do
  let p ← Exec.deref this
  Exec.call (Call.GetBuffer p buffer_id)
  let pTexture := (nat.GetBuffer p buffer_id).2
  Exec.step (fun s => s.handout pTexture)
  Exec.check nat (nat.GetBuffer p buffer_id).1
  Exec.step (make_comobj ret r pTexture)

/-- Source: `int d3d11::texture2d::width()`. -/
def texture2d.width (nat : Native) (this : α) : Exec α Int := do
  let p ← Exec.deref this
  Exec.call (Call.GetDesc p)
  pure (toInt (nat.GetDesc p).Width)

/-- Source: `int d3d11::texture2d::height()`. -/
def texture2d.height (nat : Native) (this : α) : Exec α Int := do
  let p ← Exec.deref this
  Exec.call (Call.GetDesc p)
  pure (toInt (nat.GetDesc p).Height)

/-- Source: `void d3d11::devicecontext::set_rendertarget()`: `OMSetRenderTargets(0, nullptr, nullptr)`. -/
def devicecontext.set_rendertarget (this : α) : Exec α Unit := do
  let p ← Exec.deref this
  Exec.call (Call.OMSetRenderTargets p [] nullptr)

/-- Source: `void d3d11::devicecontext::set_rendertarget(const rendertargetview &rtv, const depthstencilview &dsv)`. -/
def devicecontext.set_rendertarget2 (this : α) (rtv dsv : α) : Exec α Unit := do
  let r ← Exec.read rtv
  let p ← Exec.deref this
  let d ← Exec.read dsv
  Exec.call (Call.OMSetRenderTargets p [r] d)

/-- Source: `void d3d11::devicecontext::set_viewport(float width, float height)`, through
`set_viewport(const D3D11_VIEWPORT &)`; the extents are recorded as the integers
the widget passes. -/
def devicecontext.set_viewport (this : α) (width height : Int) : Exec α Unit := do
  let p ← Exec.deref this
  Exec.call (Call.RSSetViewports p width height)

/-- Source: `void d3d11::devicecontext::clear_rendertargetview(const rendertargetview &rtv, const float rgba[])`. -/
def devicecontext.clear_rendertargetview (this : α) (rtv : α) : Exec α Unit := do
  let p ← Exec.deref this
  let r ← Exec.read rtv
  Exec.call (Call.ClearRenderTargetView p r)

/-- Source: `void d3d11::devicecontext::clear_depthstencilview(dsv, depth, stencil, clear_depth, clear_stencil)`,
through the overload taking the flag word. -/
def devicecontext.clear_depthstencilview (this : α) (dsv : α) (stencil : Nat)
    (clear_depth clear_stencil : Bool) : Exec α Unit := do
  let flag := (if clear_depth then D3D11_CLEAR_DEPTH else 0) ||| (if clear_stencil then D3D11_CLEAR_STENCIL else 0)
  let p ← Exec.deref this
  let d ← Exec.read dsv
  Exec.call (Call.ClearDepthStencilView p d flag stencil)

/-- Source: `static dxgi::factory dxgi::factory::create()`, with its local `result`. -/
def factory.create (nat : Native) (ret result : α) : Exec α Unit := do
  Exec.step (default_ctor result)
  Exec.scope (dtor result) (do
    Exec.call Call.CreateDXGIFactory
    Exec.step (fun s => (s.store result nat.CreateDXGIFactory.2).handout nat.CreateDXGIFactory.2)
    Exec.check nat nat.CreateDXGIFactory.1
    Exec.step (move_ctor ret result))

/-- Source: `dxgi::swapchain dxgi::factory::create_swapchain(const d3d11::device &device, HWND hwnd)`. -/
def factory.create_swapchain (nat : Native) (ret r : α) (this : α) (dev : device α) (hwnd : Nat) :
    Exec α Unit := do
  let p ← Exec.deref this
  let d ← Exec.read dev.m_device
  Exec.call (Call.CreateSwapChain p d hwnd)
  let pSwapChain := (nat.CreateSwapChain p d hwnd).2
  Exec.step (fun s => s.handout pSwapChain)
  Exec.check nat (nat.CreateSwapChain p d hwnd).1
  Exec.step (make_comobj ret r pSwapChain)

/-- Source: `static d3d11::device d3d11::device::create_default_device()` (built without
`_DEBUG`), with its local `result`; `tmp` is the temporary returned by
`make_comobj` and `r` the local of `make_comobj`. -/
def device.create_default_device (nat : Native) (ret result : device α) (tmp r : α) : Exec α Unit := do
  Exec.step (device.default_ctor result)
  Exec.scope (device.dtor result) (do
    let deviceFlags := D3D11_CREATE_DEVICE_BGRA_SUPPORT
    Exec.call (Call.D3D11CreateDevice nullptr D3D_DRIVER_TYPE_HARDWARE deviceFlags)
    let out := nat.D3D11CreateDevice nullptr D3D_DRIVER_TYPE_HARDWARE deviceFlags
    let pContext := out.2.2
    Exec.step (fun s => ((s.store result.m_device out.2.1).handout out.2.1).handout pContext)
    Exec.check nat out.1
    Exec.step (make_comobj tmp r pContext)
    Exec.step (dx.move_assign result.m_context tmp)
    Exec.step (dx.dtor tmp)
    Exec.step (device.move_ctor ret result))

/-- Source: `d3d11::texture2d d3d11::device::create_texture2d(width, height, miplevels, arraysize, format, sample_count, sample_quality, usage, bind, cpu_access)`. -/
def device.create_texture2d (nat : Native) (ret r : α) (this : device α)
    (width height miplevels arraysize format sample_count sample_quality usage bind cpu_access : Nat) :
    Exec α Unit := do
  let desc : TEXTURE2D_DESC :=
    { Width := width, Height := height, MipLevels := miplevels, ArraySize := arraysize,
      Format := format, SampleCount := sample_count, SampleQuality := sample_quality,
      Usage := usage, BindFlags := bind, CPUAccessFlags := cpu_access, MiscFlags := 0 }
  let p ← Exec.deref this.m_device
  Exec.call (Call.CreateTexture2D p desc)
  let pTexture := (nat.CreateTexture2D p desc).2
  Exec.step (fun s => s.handout pTexture)
  Exec.check nat (nat.CreateTexture2D p desc).1
  Exec.step (make_comobj ret r pTexture)

/-- Source: `rendertargetview d3d11::device::create_view<rendertargetview>(const texture2d &tex)`. -/
def device.create_view_rendertargetview (nat : Native) (ret r : α) (this : device α) (tex : α) :
    Exec α Unit := do
  let p ← Exec.deref this.m_device
  let t ← Exec.read tex
  Exec.call (Call.CreateRenderTargetView p t)
  let pView := (nat.CreateRenderTargetView p t).2
  Exec.step (fun s => s.handout pView)
  Exec.check nat (nat.CreateRenderTargetView p t).1
  Exec.step (make_comobj ret r pView)

/-- Source: `depthstencilview d3d11::device::create_view<depthstencilview>(const texture2d &tex)`. -/
def device.create_view_depthstencilview (nat : Native) (ret r : α) (this : device α) (tex : α) :
    Exec α Unit := do
  let p ← Exec.deref this.m_device
  let t ← Exec.read tex
  Exec.call (Call.CreateDepthStencilView p t DXGI_FORMAT_D24_UNORM_S8_UINT D3D11_DSV_DIMENSION_TEXTURE2DMS 0)
  let pView := (nat.CreateDepthStencilView p t DXGI_FORMAT_D24_UNORM_S8_UINT D3D11_DSV_DIMENSION_TEXTURE2DMS 0).2
  Exec.step (fun s => s.handout pView)
  Exec.check nat (nat.CreateDepthStencilView p t DXGI_FORMAT_D24_UNORM_S8_UINT D3D11_DSV_DIMENSION_TEXTURE2DMS 0).1
  Exec.step (make_comobj ret r pView)

end wrappers

/-! ## `DirectXWidget` -/

/-- The wrapper objects of the widget program: the members of `DirectXWidget`
and the locals and temporaries of the functions it runs. -/
inductive Var where
  /-- The pointer member of `DirectXWidget::m_device`. -/
  | m_device
  /-- The member `m_context` of `DirectXWidget::m_device`. -/
  | m_device_context
  | m_context
  | m_swapchain
  | m_rtv
  | m_dsv
  | m_dsvbuffer
  /-- The local `factory` of `D3DInit`. -/
  | factory
  /-- The local `backbuffer` of `D3DResize`. -/
  | backbuffer
  /-- The local `result` of `factory::create` and of `create_default_device`. -/
  | result
  | result_context
  /-- The temporary device returned by `create_default_device`. -/
  | tmp_device
  | tmp_device_context
  /-- The temporary wrapper returned by a creation function. -/
  | tmp
  /-- The local `r` of `make_comobj`. -/
  | r
  deriving DecidableEq, Repr

namespace DirectXWidget

/-- The member `dx::d3d11::device m_device`. -/
def m_device : device Var :=
  { m_device := Var.m_device, m_context := Var.m_device_context }

/-- The local `device result` of `create_default_device`. -/
def result : device Var :=
  { m_device := Var.result, m_context := Var.result_context }

/-- The temporary `device` that `create_default_device` returns. -/
def tmp_device : device Var :=
  { m_device := Var.tmp_device, m_context := Var.tmp_device_context }

/-- Source: `void DirectXWidget::D3DInit()`; `winId` is the window handle `(HWND)winId()`. -/
def D3DInit (nat : Native) (winId : Nat) : Exec Var Unit := do
  factory.create nat Var.factory Var.result
  Exec.scope (dtor Var.factory) (do
    device.create_default_device nat tmp_device result Var.tmp Var.r
    Exec.step (device.move_assign m_device tmp_device)
    Exec.step (device.dtor tmp_device)
    Exec.step (copy_assign Var.m_context (device.immediate_context m_device))
    factory.create_swapchain nat Var.tmp Var.r Var.factory m_device winId
    Exec.step (move_assign Var.m_swapchain Var.tmp)
    Exec.step (dtor Var.tmp))

/-- Source: `void DirectXWidget::D3DResize()`; `width` and `height` are `QWidget::width()`
and `QWidget::height()`.  The two arguments `backbuffer.width()` and
`backbuffer.height()` each issue one `GetDesc` on the same texture, so the
order in which they are evaluated does not show in the trace. -/
def D3DResize (nat : Native) (width height : Int) : Exec Var Unit := do
  devicecontext.set_rendertarget Var.m_context
  Exec.step (release Var.m_rtv)
  Exec.step (release Var.m_dsv)
  Exec.step (release Var.m_dsvbuffer)
  swapchain.resize nat Var.m_swapchain 0 0 0 DXGI_FORMAT_UNKNOWN 0
  swapchain.backbuffer nat Var.backbuffer Var.r Var.m_swapchain 0
  Exec.scope (dtor Var.backbuffer) (do
    device.create_view_rendertargetview nat Var.tmp Var.r m_device Var.backbuffer
    Exec.step (move_assign Var.m_rtv Var.tmp)
    Exec.step (dtor Var.tmp)
    let w ← texture2d.width nat Var.backbuffer
    let h ← texture2d.height nat Var.backbuffer
    device.create_texture2d nat Var.tmp Var.r m_device (toUInt w) (toUInt h) 1 1
      DXGI_FORMAT_D24_UNORM_S8_UINT 1 0 D3D11_USAGE_DEFAULT D3D11_BIND_DEPTH_STENCIL 0
    Exec.step (move_assign Var.m_dsvbuffer Var.tmp)
    Exec.step (dtor Var.tmp)
    device.create_view_depthstencilview nat Var.tmp Var.r m_device Var.m_dsvbuffer
    Exec.step (move_assign Var.m_dsv Var.tmp)
    Exec.step (dtor Var.tmp)
    devicecontext.set_rendertarget2 Var.m_context Var.m_rtv Var.m_dsv
    devicecontext.set_viewport Var.m_context width height)

/-- Source: `void DirectXWidget::D3DDraw()`: the status returned by `present` is not used. -/
def D3DDraw (nat : Native) : Exec Var Unit := do
  devicecontext.clear_rendertargetview Var.m_context Var.m_rtv
  devicecontext.clear_depthstencilview Var.m_context Var.m_dsv 0 true false
  let _ ← swapchain.present nat Var.m_swapchain 0 0
  pure ()

/-- The members of a `DirectXWidget` before the constructor body runs: every
wrapper is default-constructed. -/
def members (s : World Var) : World Var :=
  let s := device.default_ctor m_device s
  let s := default_ctor Var.m_context s
  let s := default_ctor Var.m_swapchain s
  let s := default_ctor Var.m_rtv s
  let s := default_ctor Var.m_dsv s
  default_ctor Var.m_dsvbuffer s

/-- The destructors of the members of a `DirectXWidget`, in the reverse order of
their declaration. -/
def members_dtor (s : World Var) : World Var :=
  let s := dtor Var.m_dsvbuffer s
  let s := dtor Var.m_dsv s
  let s := dtor Var.m_rtv s
  let s := dtor Var.m_swapchain s
  let s := dtor Var.m_context s
  device.dtor m_device s

/-- Source: `DirectXWidget::DirectXWidget(QWidget *parent)`: the members, then `D3DInit()`;
an exception that leaves the constructor body destroys the members. -/
def ctor (nat : Native) (winId : Nat) : Exec Var Unit := do
  Exec.step members
  Exec.unwind members_dtor (D3DInit nat winId)

end DirectXWidget

/-! ## Sample worlds and platforms -/

/-- A world in which no COM object is referenced and no wrapper holds anything. -/
def World.empty (α : Type) : World α :=
  { refs := fun _ => 0, trace := [], mem := fun _ => nullptr }

/-- A platform on which every call succeeds: the factory is `1`, the device `2`,
its immediate context `3`, the swap chain `4`, its back buffer `5` (of 640 by
480), render-target views are `6`, textures `7`, depth-stencil views `8`. -/
def Native.sample : Native :=
  { message := fun hr =>
      if hr = 0 then some "The operation completed successfully."
      else if hr = -2147467259 then some "Unspecified error"
      else none
    CreateDXGIFactory := (0, 1)
    EnumAdapters := fun _ _ => (-2005270526, 0)
    D3D11CreateDevice := fun _ _ _ => (0, 2, 3)
    CreateSwapChain := fun _ _ _ => (0, 4)
    ResizeBuffers := fun _ _ _ _ _ _ => 0
    GetBuffer := fun _ _ => (0, 5)
    Present := fun _ _ _ => 0
    GetDesc := fun _ =>
      { Width := 640, Height := 480, MipLevels := 1, ArraySize := 1, Format := 28,
        SampleCount := 1, SampleQuality := 0, Usage := 0, BindFlags := 32,
        CPUAccessFlags := 0, MiscFlags := 0 }
    CreateTexture2D := fun _ _ => (0, 7)
    CreateRenderTargetView := fun _ _ => (0, 6)
    CreateDepthStencilView := fun _ _ _ _ _ => (0, 8) }

/-- One wrapper, at address `0`, owns the single reference of handle `7`. -/
def World.single : World Nat :=
  { refs := fun p => if p = 7 then 1 else 0
    trace := []
    mem := fun a => if a = 0 then 7 else nullptr }

/-- Two wrappers, at addresses `0` and `1`, share handle `7`, whose count is two. -/
def World.shared : World Nat :=
  { refs := fun p => if p = 7 then 2 else 0
    trace := []
    mem := fun a => if a = 0 ∨ a = 1 then 7 else nullptr }

/-- An empty `d3d11::device` at addresses `0` (pointer) and `1` (context), and a
device at addresses `2` and `3` holding the device `5` and its immediate
context `6`, each referenced once. -/
def World.devices : World Nat :=
  { refs := fun p => if p = 5 ∨ p = 6 then 1 else 0
    trace := []
    mem := fun a => if a = 2 then 5 else if a = 3 then 6 else nullptr }

/-- A widget after `D3DInit` and one `D3DResize` on `Native.sample`: the device
`2` with its context `3`, the swap chain `4`, the views `6` and `8` and the
depth buffer `7`. -/
def World.ready : World Var :=
  { refs := fun p => if p = 3 then 2 else if p = 2 ∨ p = 4 ∨ p = 6 ∨ p = 7 ∨ p = 8 then 1 else 0
    trace := []
    mem := fun a =>
      match a with
      | Var.m_device => 2
      | Var.m_device_context => 3
      | Var.m_context => 3
      | Var.m_swapchain => 4
      | Var.m_rtv => 6
      | Var.m_dsv => 8
      | Var.m_dsvbuffer => 7
      | _ => nullptr }

/-! ## Predicates used by the theorems -/

/-- The statement `m`, run in `s`, returns, and its result and the world it
leaves satisfy `Q`. -/
def Exec.Ok {α β : Type} (m : Exec α β) (s : World α) (Q : β → World α → Prop) : Prop :=
  ∃ b s1, m s = (Except.ok b, s1) ∧ Q b s1

/-- A function on worlds that only appends to the trace of native calls. -/
def Grows {α : Type} (f : World α → World α) : Prop :=
  ∀ s, ∃ l, (f s).trace = s.trace ++ l

/-- A statement that only appends to the trace of native calls, however it ends. -/
def Exec.Extends {α β : Type} (m : Exec α β) : Prop :=
  ∀ s, ∃ l, (m s).2.trace = s.trace ++ l

/-! ## `dxgi::factory::adapters` and `dxgi::factory::default_adapter` -/

/-- The SDK constant `DXGI_ERROR_NOT_FOUND` (`0x887A0002`) as a signed 32-bit integer. -/
def DXGI_ERROR_NOT_FOUND : HRESULT := -2005270526

/-- The SDK constant `DXGI_ERROR_INVALID_CALL` (`0x887A0001`) as a signed 32-bit integer. -/
def DXGI_ERROR_INVALID_CALL : HRESULT := -2005270527

/-- The statement `p->Release();` on a raw pointer: a member call, so `p` must not be null. -/
def Exec.raw_release {α : Type} [DecidableEq α] (p : Handle) : Exec α Unit :=
  fun s => if nullptr ≠ p then (Except.ok (), s.Release p) else (Except.error Abort.undefined, s)

section adapters

variable {α : Type} [DecidableEq α]

/-- Source: `adapter dxgi::factory::default_adapter()`. -/
def factory.default_adapter (nat : Native) (ret r : α) (this : α) : Exec α Unit := do
  let p ← Exec.deref this
  Exec.call (Call.EnumAdapters p 0)
  let pAdapter := (nat.EnumAdapters p 0).2
  Exec.step (fun s => s.handout pAdapter)
  Exec.check nat (nat.EnumAdapters p 0).1
  Exec.step (make_comobj ret r pAdapter)

/-- Reallocation of a `std::vector<adapter>`, first part: each of the `size`
elements of the full block `gen` is copy-constructed into the block `gen + 1`,
in index order.  The copy constructor is used because the move constructor of
the wrapper is not `noexcept` (`std::move_if_noexcept`). -/
def vector.copy_elements (elem : Nat → Nat → α) (gen size : Nat) (s : World α) : World α :=
  (List.range size).foldl (fun w i => copy_ctor (elem (gen + 1) i) (elem gen i) w) s

/-- Reallocation of a `std::vector<adapter>`, second part: the `size` elements of
the old block `gen` are destroyed, in index order. -/
def vector.destroy_elements (elem : Nat → Nat → α) (gen size : Nat) (s : World α) : World α :=
  (List.range size).foldl (fun w i => dtor (elem gen i) w) s

/-- Source: `adapter_list.emplace_back(pAdapter)` on a vector of `size` elements whose
storage is full: the new element is constructed in the new block by
`explicit adapter(IDXGIAdapter *)`, then the existing elements are copied into
the new block and the originals destroyed (the order of libstdc++ and of the
MSVC library). -/
def vector.emplace_back_reallocating (elem : Nat → Nat → α) (gen size : Nat) (p : Handle)
    (s : World α) : World α :=
  vector.destroy_elements elem gen size
    (vector.copy_elements elem gen size (ctor (elem (gen + 1) size) p s))

/-- The `while` loop of `dxgi::factory::adapters()`, run for at most `fuel` tests of its
condition; `id` is the `UINT` counter, `size` and `cap` the size and the
capacity of `adapter_list`, whose `i`-th element lives at `elem gen i`: `gen`
counts the reallocations so far, and each block of storage has addresses of
its own.  The answer `none` says that the fuel ran out.  Each test calls
`EnumAdapters(id, &pAdapter)`; the body is
`adapter_list.emplace_back(pAdapter); pAdapter->Release(); id++;`.  With room
left the element is constructed in place by `explicit adapter(IDXGIAdapter *)`;
a full vector is reallocated to the capacity `grow cap`, the growth policy of
the library. -/
def factory.adapters_loop (nat : Native) (grow : Nat → Nat) (elem : Nat → Nat → α) (this : α) :
    Nat → Nat → Nat → Nat → Nat → Exec α (Option (Nat × Nat))
  | 0, _, _, _, _ => pure none
  | fuel + 1, id, size, cap, gen => do
    let p ← Exec.deref this
    Exec.call (Call.EnumAdapters p id)
    let pAdapter := (nat.EnumAdapters p id).2
    Exec.step (fun s => s.handout pAdapter)
    if (nat.EnumAdapters p id).1 ≠ DXGI_ERROR_NOT_FOUND then
      if size < cap then do
        Exec.step (ctor (elem gen size) pAdapter)
        Exec.raw_release pAdapter
        factory.adapters_loop nat grow elem this fuel ((id + 1) % 2 ^ 32) (size + 1) cap gen
      else do
        Exec.step (vector.emplace_back_reallocating elem gen size pAdapter)
        Exec.raw_release pAdapter
        factory.adapters_loop nat grow elem this fuel ((id + 1) % 2 ^ 32) (size + 1) (grow cap)
          (gen + 1)
    else
      pure (some (size, gen))

/-- Source: `std::vector<adapter> dxgi::factory::adapters()`: the empty list, which has
no storage yet, `id = 0`, the loop, and the list returned: its size and the
block `gen` in which its elements live, at `elem gen 0`, `elem gen 1`, ... -/
def factory.adapters (nat : Native) (grow : Nat → Nat) (elem : Nat → Nat → α) (this : α)
    (fuel : Nat) : Exec α (Option (Nat × Nat)) :=
  factory.adapters_loop nat grow elem this fuel 0 0 0 0

end adapters

/-- A growth policy of `std::vector`: the capacity doubles, and the first
allocation has room for one element. -/
def vector.doubling (cap : Nat) : Nat :=
  if cap = 0 then 1 else 2 * cap

/-- A platform like `Native.sample`, with two adapters `11` and `12`. -/
def Native.two_adapters : Native :=
  { Native.sample with
    EnumAdapters := fun _ id =>
      if id = 0 then (0, 11) else if id = 1 then (0, 12) else (DXGI_ERROR_NOT_FOUND, nullptr) }

/-- A platform like `Native.sample` whose adapter enumeration fails with
`DXGI_ERROR_INVALID_CALL` and stores no adapter. -/
def Native.failing_enumeration : Native :=
  { Native.sample with EnumAdapters := fun _ _ => (DXGI_ERROR_INVALID_CALL, nullptr) }

/-- The factory `1`, referenced once, held by the wrapper at address `0`. -/
def World.factory_only : World Nat :=
  { refs := fun p => if p = 1 then 1 else 0
    trace := []
    mem := fun a => if a = 0 then 1 else nullptr }

/-- Whether a native call is an adapter enumeration. -/
def Call.isEnumAdapters : Call → Bool
  | Call.EnumAdapters _ _ => true
  | _ => false

/-- Two wrappers, at addresses `0` and `1`, hold the handles `7` and `9`, each referenced once. -/
def World.pair : World Nat :=
  { refs := fun p => if p = 7 ∨ p = 9 then 1 else 0
    trace := []
    mem := fun a => if a = 0 then 7 else if a = 1 then 9 else nullptr }

/-! ## Programs of wrapper operations -/

/-- A program state: the world and the addresses of the wrapper objects alive in it. -/
structure Program where
  world : World Nat
  live : List Nat

/-- One operation on wrappers: the adoption of a freshly created handle `p` into a
new wrapper at `ret` (`r` is the local of `make_comobj`), the construction of a
new wrapper `a` from a live wrapper `c` by copy or by move, an assignment
between live wrappers, an explicit `release()`, and the destruction of a
wrapper. -/
inductive Op where
  | adopt (ret r : Nat) (p : Handle)
  | copy_construct (a c : Nat)
  | move_construct (a c : Nat)
  | copy_assign (a c : Nat)
  | move_assign (a c : Nat)
  | release (a : Nat)
  | destroy (a : Nat)

/-- When an operation can be performed: new objects are built where no object
lives, the other operands are alive, and an adopted handle is that of a fresh
object, which nothing references before the creation call. -/
def Op.enabled : Op → Program → Prop
  | Op.adopt ret r p, h => ret ∉ h.live ∧ r ∉ h.live ∧ ret ≠ r ∧ p ≠ nullptr ∧ h.world.refs p = 0
  | Op.copy_construct a c, h => a ∉ h.live ∧ c ∈ h.live
  | Op.move_construct a c, h => a ∉ h.live ∧ c ∈ h.live
  | Op.copy_assign a c, h => a ∈ h.live ∧ c ∈ h.live
  | Op.move_assign a c, h => a ∈ h.live ∧ c ∈ h.live
  | Op.release a, h => a ∈ h.live
  | Op.destroy a, h => a ∈ h.live

/-- The world in which the wrapper code of an operation starts: for an adoption,
the creation call has handed out its one reference to `p`. -/
def Op.start : Op → Program → World Nat
  | Op.adopt _ _ p, h => h.world.handout p
  | _, h => h.world

/-- The program state after an operation. -/
def Op.run : Op → Program → Program
  | Op.adopt ret r p, h => ⟨make_comobj ret r p (h.world.handout p), ret :: h.live⟩
  | Op.copy_construct a c, h => ⟨copy_ctor a c h.world, a :: h.live⟩
  | Op.move_construct a c, h => ⟨move_ctor a c h.world, a :: h.live⟩
  | Op.copy_assign a c, h => ⟨dx.copy_assign a c h.world, h.live⟩
  | Op.move_assign a c, h => ⟨dx.move_assign a c h.world, h.live⟩
  | Op.release a, h => ⟨dx.release a h.world, h.live⟩
  | Op.destroy a, h => ⟨dtor a h.world, h.live.erase a⟩

/-- The program states reached from no wrappers by finitely many operations. -/
inductive Reachable : Program → Prop where
  | start : Reachable ⟨World.empty Nat, []⟩
  | step (h : Program) (o : Op) : Reachable h → o.enabled h → Reachable (o.run h)

/-- The number of live wrappers holding `p`. -/
def Program.holders (h : Program) (p : Handle) : Nat :=
  h.live.countP (fun a => decide (h.world.mem a = p))

/-- Reference-count conservation: no address is listed twice, and the count of
every non-null handle is the number of live wrappers holding it. -/
def Program.conserved (h : Program) : Prop :=
  h.live.Nodup ∧ ∀ p, p ≠ nullptr → h.world.refs p = h.holders p

/-- The counts after a list of native calls, replayed from the counts `refs`:
`AddRef` increments, `Release` decrements, and `none` says that a `Release` met
a count that was already zero. -/
def counts_after (refs : Handle → Nat) : List Call → Option (Handle → Nat)
  | [] => some refs
  | Call.AddRef p :: l => counts_after (Function.update refs p (refs p + 1)) l
  | Call.Release p :: l =>
    if refs p = 0 then none else counts_after (Function.update refs p (refs p - 1)) l
  | _ :: l => counts_after refs l

/-- The world `t` continues `s`: its trace extends that of `s` by calls whose
replay from the counts of `s` never decrements a zero count and ends in the
counts of `t`. -/
def Replays {α : Type} (s t : World α) : Prop :=
  ∃ l, t.trace = s.trace ++ l ∧ counts_after s.refs l = some t.refs

/-! ## Runs that end in a failure -/

/-- The statement `m`, run in `s`, ends with a result and in a world that
satisfy `R`, whether it returns or aborts. -/
def Exec.Post {α β : Type} (m : Exec α β) (s : World α)
    (R : Except Abort β → World α → Prop) : Prop :=
  R (m s).1 (m s).2

/-- The status `E_FAIL` (`0x80004005`) as a signed 32-bit integer. -/
def E_FAIL : HRESULT := -2147467259

/-- The platform of `Native.sample`, except that `CreateSwapChain` fails with
`E_FAIL` and stores no pointer. -/
def Native.failing_swapchain : Native :=
  { Native.sample with CreateSwapChain := fun _ _ _ => (E_FAIL, nullptr) }

/-- The platform of `Native.sample`, except that it refuses to create a texture
of width zero, with `E_FAIL`. -/
def Native.rejects_empty_texture : Native :=
  { Native.sample with
    CreateTexture2D := fun _ desc => if desc.Width = 0 then (E_FAIL, nullptr) else (0, 7) }

/-- The platform of `Native.sample`, except that `CreateTexture2D` fails with
`E_FAIL` and stores no pointer. -/
def Native.failing_texture : Native :=
  { Native.sample with CreateTexture2D := fun _ _ => (E_FAIL, nullptr) }

end dx

/-! # Theorems -/

namespace dx
open DirectXWidget

/-! ## What each wrapper operation does to the held pointers and to the trace -/

/-- The sequencing of the `do` blocks is `Exec.seq`. -/
theorem Exec.bind_def {α β γ : Type} (m : Exec α β) (f : β → Exec α γ) : (m >>= f) = Exec.seq m f := rfl
/-- The `pure` of the `do` blocks is `Exec.ret`. -/
theorem Exec.pure_def {α β : Type} (b : β) : (pure b : Exec α β) = Exec.ret b := rfl

section projections
set_option linter.unusedSectionVars false
variable {α : Type} [DecidableEq α]

theorem store_mem (s : World α) (a b : α) (p : Handle) :
    (s.store a p).mem b = if b = a then p else s.mem b := by
  simp [World.store, Function.update]

theorem store_trace (s : World α) (a : α) (p : Handle) : (s.store a p).trace = s.trace := rfl

theorem handout_mem (s : World α) (p : Handle) : (s.handout p).mem = s.mem := by
  by_cases h : nullptr = p <;> simp [World.handout, h]

theorem handout_trace (s : World α) (p : Handle) : (s.handout p).trace = s.trace := by
  by_cases h : nullptr = p <;> simp [World.handout, h]

theorem release_mem (s : World α) (a b : α) :
    (release a s).mem b = if b = a then nullptr else s.mem b := by
  by_cases h : nullptr = s.mem a
  · by_cases hb : b = a
    · simp [release, h.symm, hb]
    · simp [release, h.symm, hb]
  · simp [release, h, World.store, World.Release, Function.update]

theorem release_trace (s : World α) (a : α) :
    (release a s).trace = s.trace ++ (if nullptr ≠ s.mem a then [Call.Release (s.mem a)] else []) := by
  by_cases h : nullptr = s.mem a
  · simp [release, h.symm]
  · simp [release, h, World.store, World.Release]

theorem reclaim_mem (s : World α) (a : α) : (reclaim a s).mem = s.mem := by
  by_cases h : nullptr = s.mem a <;> simp [reclaim, h, World.AddRef]

theorem reclaim_trace (s : World α) (a : α) :
    (reclaim a s).trace = s.trace ++ (if nullptr ≠ s.mem a then [Call.AddRef (s.mem a)] else []) := by
  by_cases h : nullptr = s.mem a
  · simp [reclaim, h.symm]
  · simp [reclaim, h, World.AddRef]

theorem dtor_mem (s : World α) (a b : α) :
    (dtor a s).mem b = if b = a then nullptr else s.mem b := release_mem s a b

theorem dtor_trace (s : World α) (a : α) :
    (dtor a s).trace = s.trace ++ (if nullptr ≠ s.mem a then [Call.Release (s.mem a)] else []) :=
  release_trace s a

theorem default_ctor_mem (s : World α) (a b : α) :
    (default_ctor a s).mem b = if b = a then nullptr else s.mem b := store_mem s a b nullptr

theorem default_ctor_trace (s : World α) (a : α) : (default_ctor a s).trace = s.trace := rfl

theorem move_ctor_mem (s : World α) (a c b : α) :
    (move_ctor a c s).mem b = if b = c then nullptr else if b = a then s.mem c else s.mem b := by
  by_cases hc : b = c
  · simp [move_ctor, store_mem, hc]
  · by_cases ha : b = a
    · subst ha
      have hc2 : ¬ c = b := fun e => hc e.symm
      simp [move_ctor, store_mem, release_mem, hc, hc2]
    · simp [move_ctor, store_mem, release_mem, hc, ha]

theorem move_ctor_trace (s : World α) (a c : α) : (move_ctor a c s).trace = s.trace := by
  simp [move_ctor, store_trace, release_trace, store_mem]

theorem move_assign_mem (s : World α) (a c b : α) (h : a ≠ c) :
    (move_assign a c s).mem b = if b = c then nullptr else if b = a then s.mem c else s.mem b := by
  have h2 : ¬ c = a := fun e => h e.symm
  by_cases hc : b = c
  · simp [move_assign, h, store_mem, hc]
  · by_cases ha : b = a
    · simp [move_assign, h, store_mem, release_mem, hc, ha, h2]
    · simp [move_assign, h, store_mem, release_mem, hc, ha]

theorem move_assign_trace (s : World α) (a c : α) (h : a ≠ c) :
    (move_assign a c s).trace =
      s.trace ++ (if nullptr ≠ s.mem a then [Call.Release (s.mem a)] else []) := by
  simp [move_assign, h, store_trace, release_trace]

theorem copy_assign_mem (s : World α) (a c b : α) (h : a ≠ c) :
    (copy_assign a c s).mem b = if b = a then s.mem c else s.mem b := by
  have h2 : ¬ c = a := fun e => h e.symm
  by_cases ha : b = a
  · simp [copy_assign, h, reclaim_mem, store_mem, release_mem, ha, h2]
  · simp [copy_assign, h, reclaim_mem, store_mem, release_mem, ha]

theorem copy_assign_trace (s : World α) (a c : α) (h : a ≠ c) :
    (copy_assign a c s).trace =
      s.trace ++ (if nullptr ≠ s.mem a then [Call.Release (s.mem a)] else []) ++
        (if nullptr ≠ s.mem c then [Call.AddRef (s.mem c)] else []) := by
  have h2 : ¬ c = a := fun e => h e.symm
  simp [copy_assign, h, reclaim_trace, store_trace, release_trace, store_mem, release_mem, h2]

theorem make_comobj_mem (s : World α) (ret r b : α) (p : Handle) :
    (make_comobj ret r p s).mem b = if b = r then nullptr else if b = ret then p else s.mem b := by
  have hrel : ∀ t : World α, (if nullptr = p then t else t.Release p).mem = t.mem := by
    intro t
    by_cases h : nullptr = p <;> simp [h, World.Release]
  by_cases hr : b = r
  · simp [make_comobj, dtor_mem, hr]
  · by_cases hret : b = ret
    · subst hret
      simp [make_comobj, dtor_mem, move_ctor_mem, hrel, ctor, reclaim_mem, store_mem, hr]
    · simp [make_comobj, dtor_mem, move_ctor_mem, hrel, ctor, reclaim_mem, store_mem, hr, hret]

theorem make_comobj_trace (s : World α) (ret r : α) (p : Handle) :
    (make_comobj ret r p s).trace =
      s.trace ++ (if nullptr ≠ p then [Call.AddRef p, Call.Release p] else []) := by
  by_cases h : nullptr = p
  · simp [make_comobj, dtor_trace, move_ctor_trace, move_ctor_mem, ctor, reclaim_trace, reclaim_mem,
      store_mem, store_trace, h.symm]
  · simp [make_comobj, dtor_trace, move_ctor_trace, move_ctor_mem, ctor, reclaim_trace,
      store_mem, store_trace, h, World.Release]

end projections

section
set_option linter.unusedSectionVars false
variable {α : Type} [DecidableEq α]

theorem device.release_eq (this : device α) (s : World α) :
    device.release this s = dx.release this.m_device s := rfl

theorem device.reclaim_eq (this : device α) (s : World α) :
    device.reclaim this s = dx.reclaim this.m_device s := rfl

theorem check_ok (nat : Native) (hr : HRESULT) (h : 0 ≤ hr) (s : World α) :
    Exec.check nat hr s = (Except.ok (), s) := by
  simp [Exec.check, throw_if_failed, FAILED, not_lt.mpr h]

theorem deref_ok (a : α) (s : World α) (h : s.mem a ≠ nullptr) :
    Exec.deref a s = (Except.ok (s.mem a), s) := by
  have h2 : nullptr ≠ s.mem a := fun e => h e.symm
  simp [Exec.deref, h2]

end

section
set_option linter.unusedSectionVars false
variable {α : Type} [DecidableEq α]

theorem emit_mem (s : World α) (c : Call) : (s.emit c).mem = s.mem := rfl

theorem emit_trace (s : World α) (c : Call) : (s.emit c).trace = s.trace ++ [c] := rfl

theorem swapchain.resize_run (nat : Native) (this : α) (width height buffer_count new_format flags : Nat)
    (s : World α) (h : s.mem this ≠ nullptr)
    (hr : 0 ≤ nat.ResizeBuffers (s.mem this) buffer_count width height new_format flags) :
    swapchain.resize nat this width height buffer_count new_format flags s =
      (Except.ok (), s.emit (Call.ResizeBuffers (s.mem this) buffer_count width height new_format flags)) := by
  simp [swapchain.resize, Exec.bind_def, Exec.seq, deref_ok _ _ h, Exec.call, check_ok _ _ hr]

theorem swapchain.backbuffer_run (nat : Native) (ret r this : α) (buffer_id : Nat)
    (s : World α) (h : s.mem this ≠ nullptr) (hr : 0 ≤ (nat.GetBuffer (s.mem this) buffer_id).1) :
    swapchain.backbuffer nat ret r this buffer_id s =
      (Except.ok (), make_comobj ret r (nat.GetBuffer (s.mem this) buffer_id).2
        ((s.emit (Call.GetBuffer (s.mem this) buffer_id)).handout (nat.GetBuffer (s.mem this) buffer_id).2)) := by
  simp [swapchain.backbuffer, Exec.bind_def, Exec.seq, deref_ok _ _ h, Exec.call, Exec.step,
    check_ok _ _ hr]

theorem texture2d.width_run (nat : Native) (this : α) (s : World α) (h : s.mem this ≠ nullptr) :
    texture2d.width nat this s =
      (Except.ok (toInt (nat.GetDesc (s.mem this)).Width), s.emit (Call.GetDesc (s.mem this))) := by
  simp [texture2d.width, Exec.bind_def, Exec.pure_def, Exec.seq, Exec.ret, deref_ok _ _ h, Exec.call]

theorem texture2d.height_run (nat : Native) (this : α) (s : World α) (h : s.mem this ≠ nullptr) :
    texture2d.height nat this s =
      (Except.ok (toInt (nat.GetDesc (s.mem this)).Height), s.emit (Call.GetDesc (s.mem this))) := by
  simp [texture2d.height, Exec.bind_def, Exec.pure_def, Exec.seq, Exec.ret, deref_ok _ _ h, Exec.call]

theorem devicecontext.set_rendertarget_run (this : α) (s : World α) (h : s.mem this ≠ nullptr) :
    devicecontext.set_rendertarget this s =
      (Except.ok (), s.emit (Call.OMSetRenderTargets (s.mem this) [] nullptr)) := by
  simp [devicecontext.set_rendertarget, Exec.bind_def, Exec.seq, deref_ok _ _ h, Exec.call]

theorem devicecontext.set_rendertarget2_run (this rtv dsv : α) (s : World α) (h : s.mem this ≠ nullptr) :
    devicecontext.set_rendertarget2 this rtv dsv s =
      (Except.ok (), s.emit (Call.OMSetRenderTargets (s.mem this) [s.mem rtv] (s.mem dsv))) := by
  simp [devicecontext.set_rendertarget2, Exec.bind_def, Exec.seq, deref_ok _ _ h, Exec.call, Exec.read]

theorem devicecontext.set_viewport_run (this : α) (width height : Int) (s : World α)
    (h : s.mem this ≠ nullptr) :
    devicecontext.set_viewport this width height s =
      (Except.ok (), s.emit (Call.RSSetViewports (s.mem this) width height)) := by
  simp [devicecontext.set_viewport, Exec.bind_def, Exec.seq, deref_ok _ _ h, Exec.call]

theorem factory.create_run (nat : Native) (ret result : α) (s : World α)
    (hr : 0 ≤ nat.CreateDXGIFactory.1) :
    factory.create nat ret result s =
      (Except.ok (), dtor result (move_ctor ret result
        ((((default_ctor result s).emit Call.CreateDXGIFactory).store result
          nat.CreateDXGIFactory.2).handout nat.CreateDXGIFactory.2))) := by
  simp [factory.create, Exec.bind_def, Exec.seq, Exec.scope, Exec.call, Exec.step, check_ok _ _ hr]

theorem factory.create_swapchain_run (nat : Native) (ret r this : α) (dev : device α) (hwnd : Nat)
    (s : World α) (h : s.mem this ≠ nullptr)
    (hr : 0 ≤ (nat.CreateSwapChain (s.mem this) (s.mem dev.m_device) hwnd).1) :
    factory.create_swapchain nat ret r this dev hwnd s =
      (Except.ok (), make_comobj ret r (nat.CreateSwapChain (s.mem this) (s.mem dev.m_device) hwnd).2
        ((s.emit (Call.CreateSwapChain (s.mem this) (s.mem dev.m_device) hwnd)).handout
          (nat.CreateSwapChain (s.mem this) (s.mem dev.m_device) hwnd).2)) := by
  simp [factory.create_swapchain, Exec.bind_def, Exec.seq, deref_ok _ _ h, Exec.call, Exec.step,
    Exec.read, check_ok _ _ hr]

theorem device.create_default_device_run (nat : Native) (ret result : device α) (tmp r : α)
    (s : World α)
    (hr : 0 ≤ (nat.D3D11CreateDevice nullptr D3D_DRIVER_TYPE_HARDWARE D3D11_CREATE_DEVICE_BGRA_SUPPORT).1) :
    device.create_default_device nat ret result tmp r s =
      (Except.ok (), device.dtor result (device.move_ctor ret result (dx.dtor tmp
        (dx.move_assign result.m_context tmp (make_comobj tmp r
          (nat.D3D11CreateDevice nullptr D3D_DRIVER_TYPE_HARDWARE D3D11_CREATE_DEVICE_BGRA_SUPPORT).2.2
          (((((device.default_ctor result s).emit
            (Call.D3D11CreateDevice nullptr D3D_DRIVER_TYPE_HARDWARE D3D11_CREATE_DEVICE_BGRA_SUPPORT)).store
            result.m_device
            (nat.D3D11CreateDevice nullptr D3D_DRIVER_TYPE_HARDWARE D3D11_CREATE_DEVICE_BGRA_SUPPORT).2.1).handout
            (nat.D3D11CreateDevice nullptr D3D_DRIVER_TYPE_HARDWARE D3D11_CREATE_DEVICE_BGRA_SUPPORT).2.1).handout
            (nat.D3D11CreateDevice nullptr D3D_DRIVER_TYPE_HARDWARE D3D11_CREATE_DEVICE_BGRA_SUPPORT).2.2)))))) := by
  simp [device.create_default_device, Exec.bind_def, Exec.seq, Exec.scope, Exec.call, Exec.step,
    check_ok _ _ hr]

theorem device.create_texture2d_run (nat : Native) (ret r : α) (this : device α)
    (width height miplevels arraysize format sample_count sample_quality usage bind cpu_access : Nat)
    (s : World α) (desc : TEXTURE2D_DESC)
    (hdesc : desc = ⟨width, height, miplevels, arraysize, format, sample_count, sample_quality,
      usage, bind, cpu_access, 0⟩)
    (h : s.mem this.m_device ≠ nullptr)
    (hr : 0 ≤ (nat.CreateTexture2D (s.mem this.m_device) desc).1) :
    device.create_texture2d nat ret r this width height miplevels arraysize format sample_count
        sample_quality usage bind cpu_access s =
      (Except.ok (), make_comobj ret r (nat.CreateTexture2D (s.mem this.m_device) desc).2
        ((s.emit (Call.CreateTexture2D (s.mem this.m_device) desc)).handout
          (nat.CreateTexture2D (s.mem this.m_device) desc).2)) := by
  subst hdesc
  simp [device.create_texture2d, Exec.bind_def, Exec.seq, deref_ok _ _ h, Exec.call, Exec.step,
    check_ok _ _ hr]

theorem device.create_view_rendertargetview_run (nat : Native) (ret r : α) (this : device α) (tex : α)
    (s : World α) (h : s.mem this.m_device ≠ nullptr)
    (hr : 0 ≤ (nat.CreateRenderTargetView (s.mem this.m_device) (s.mem tex)).1) :
    device.create_view_rendertargetview nat ret r this tex s =
      (Except.ok (), make_comobj ret r (nat.CreateRenderTargetView (s.mem this.m_device) (s.mem tex)).2
        ((s.emit (Call.CreateRenderTargetView (s.mem this.m_device) (s.mem tex))).handout
          (nat.CreateRenderTargetView (s.mem this.m_device) (s.mem tex)).2)) := by
  simp [device.create_view_rendertargetview, Exec.bind_def, Exec.seq, deref_ok _ _ h, Exec.call,
    Exec.step, Exec.read, check_ok _ _ hr]

theorem device.create_view_depthstencilview_run (nat : Native) (ret r : α) (this : device α) (tex : α)
    (s : World α) (h : s.mem this.m_device ≠ nullptr)
    (hr : 0 ≤ (nat.CreateDepthStencilView (s.mem this.m_device) (s.mem tex)
      DXGI_FORMAT_D24_UNORM_S8_UINT D3D11_DSV_DIMENSION_TEXTURE2DMS 0).1) :
    device.create_view_depthstencilview nat ret r this tex s =
      (Except.ok (), make_comobj ret r (nat.CreateDepthStencilView (s.mem this.m_device) (s.mem tex)
          DXGI_FORMAT_D24_UNORM_S8_UINT D3D11_DSV_DIMENSION_TEXTURE2DMS 0).2
        ((s.emit (Call.CreateDepthStencilView (s.mem this.m_device) (s.mem tex)
          DXGI_FORMAT_D24_UNORM_S8_UINT D3D11_DSV_DIMENSION_TEXTURE2DMS 0)).handout
          (nat.CreateDepthStencilView (s.mem this.m_device) (s.mem tex)
            DXGI_FORMAT_D24_UNORM_S8_UINT D3D11_DSV_DIMENSION_TEXTURE2DMS 0).2)) := by
  simp [device.create_view_depthstencilview, Exec.bind_def, Exec.seq, deref_ok _ _ h, Exec.call,
    Exec.step, Exec.read, check_ok _ _ hr]

end

/-! ## Running statements -/

section symbolic
set_option linter.unusedSectionVars false
variable {α β γ : Type} [DecidableEq α]

theorem seq_assoc {δ : Type} (m : Exec α β) (g : β → Exec α γ) (f : γ → Exec α δ) :
    Exec.seq (Exec.seq m g) f = Exec.seq m (fun b => Exec.seq (g b) f) := by
  funext s
  simp only [Exec.seq]
  rcases m s with ⟨r, s1⟩
  cases r <;> rfl

theorem ret_run (b : β) (s : World α) : Exec.ret b s = (Except.ok b, s) := rfl

theorem step_run (g : World α → World α) (s : World α) : Exec.step g s = (Except.ok (), g s) := rfl

theorem call_run (c : Call) (s : World α) : (Exec.call c : Exec α Unit) s = (Except.ok (), s.emit c) := rfl

theorem read_run (a : α) (s : World α) : Exec.read a s = (Except.ok (s.mem a), s) := rfl

theorem seq_ret (b : β) (f : β → Exec α γ) (s : World α) : Exec.seq (Exec.ret b) f s = f b s := rfl

theorem seq_step (g : World α → World α) (f : Unit → Exec α γ) (s : World α) :
    Exec.seq (Exec.step g) f s = f () (g s) := rfl

theorem seq_call (c : Call) (f : Unit → Exec α γ) (s : World α) :
    Exec.seq (Exec.call c) f s = f () (s.emit c) := rfl

theorem seq_read (a : α) (f : Handle → Exec α γ) (s : World α) :
    Exec.seq (Exec.read a) f s = f (s.mem a) s := rfl

theorem seq_deref (a : α) (f : Handle → Exec α γ) (s : World α) (h : s.mem a ≠ nullptr) :
    Exec.seq (Exec.deref a) f s = f (s.mem a) s := by
  simp [Exec.seq, deref_ok a s h]

theorem seq_check (nat : Native) (hr : HRESULT) (f : Unit → Exec α γ) (s : World α) (h : 0 ≤ hr) :
    Exec.seq (Exec.check nat hr) f s = f () s := by
  simp [Exec.seq, check_ok nat hr h]

theorem seq_scope (d : World α → World α) (m : Exec α β) (f : β → Exec α γ) (s s1 : World α) (b : β)
    (h : m s = (Except.ok b, s1)) :
    Exec.seq (Exec.scope d m) f s = f b (d s1) := by
  simp [Exec.seq, Exec.scope, h]

theorem scope_ok (d : World α → World α) (m : Exec α β) (s s1 : World α) (b : β)
    (h : m s = (Except.ok b, s1)) :
    Exec.scope d m s = (Except.ok b, d s1) := by
  simp [Exec.scope, h]

end symbolic

/-! ## Statements that return -/

section hoare
set_option linter.unusedSectionVars false
variable {α β γ : Type} [DecidableEq α]

theorem ok_of_run {m : Exec α β} {s s1 : World α} {b : β} {Q : β → World α → Prop}
    (h : m s = (Except.ok b, s1)) (hQ : Q b s1) : m.Ok s Q :=
  ⟨b, s1, h, hQ⟩

theorem ok_seq {m : Exec α β} {f : β → Exec α γ} {s : World α} {P : β → World α → Prop}
    {Q : γ → World α → Prop} (hm : m.Ok s P) (hf : ∀ b s1, P b s1 → (f b).Ok s1 Q) :
    (Exec.seq m f).Ok s Q := by
  obtain ⟨b, s1, h1, hP⟩ := hm
  obtain ⟨c, s2, h2, hQ⟩ := hf b s1 hP
  exact ⟨c, s2, by simp [Exec.seq, h1, h2], hQ⟩

/-- Sequencing after a statement whose run is known. -/
theorem ok_seq_run {m : Exec α β} {f : β → Exec α γ} {s s1 : World α} {b : β}
    {Q : γ → World α → Prop} (h : m s = (Except.ok b, s1)) (hf : ∀ s2, s2 = s1 → (f b).Ok s2 Q) :
    (Exec.seq m f).Ok s Q := by
  obtain ⟨c, s2, h2, hQ⟩ := hf s1 rfl
  exact ⟨c, s2, by simp [Exec.seq, h, h2], hQ⟩

theorem ok_scope {m : Exec α β} {d : World α → World α} {s : World α} {Q : β → World α → Prop}
    (hm : m.Ok s (fun b s1 => Q b (d s1))) : (Exec.scope d m).Ok s Q := by
  obtain ⟨b, s1, h1, hQ⟩ := hm
  exact ⟨b, d s1, by simp [Exec.scope, h1], hQ⟩

theorem ok_step (g : World α → World α) (s : World α) :
    (Exec.step g).Ok s (fun _ s1 => s1 = g s) :=
  ⟨(), g s, rfl, rfl⟩

/-- What a creation function leaves behind when the native call succeeds with
the non-null pointer `p`: the wrapper at `ret` holds `p`, the local of
`make_comobj` is empty, and the trace has grown by the native call, one
`AddRef` and one `Release`. -/
theorem created_world (s : World α) (ret r : α) (p : Handle) (c : Call) (hp : p ≠ nullptr) :
    (∀ b, (make_comobj ret r p ((s.emit c).handout p)).mem b =
      if b = r then nullptr else if b = ret then p else s.mem b) ∧
    (make_comobj ret r p ((s.emit c).handout p)).trace =
      s.trace ++ [c, Call.AddRef p, Call.Release p] := by
  have hp2 : nullptr ≠ p := fun e => hp e.symm
  refine ⟨fun b => ?_, ?_⟩
  · simp [make_comobj_mem, handout_mem, emit_mem]
  · simp [make_comobj_trace, handout_trace, emit_trace, hp2]

end hoare

/-! ## Native calls are only ever appended to the trace -/

section
set_option linter.unusedSectionVars false
variable {α : Type} [DecidableEq α]

/-- Functions that only append to the trace compose. -/
theorem grows_comp {f g k : World α → World α} (hf : Grows f) (hg : Grows g)
    (hk : ∀ s, k s = g (f s)) : Grows k := by
  intro s
  obtain ⟨l1, h1⟩ := hf s
  obtain ⟨l2, h2⟩ := hg (f s)
  exact ⟨l1 ++ l2, by rw [hk, h2, h1, List.append_assoc]⟩

theorem grows_store (a : α) (p : World α → Handle) : Grows (fun s : World α => s.store a (p s)) :=
  fun s => ⟨[], by simp [World.store]⟩

theorem grows_handout (p : Handle) : Grows (fun s : World α => s.handout p) := by
  intro s
  refine ⟨[], ?_⟩
  by_cases h : nullptr = p <;> simp [World.handout, h]

theorem grows_reclaim (a : α) : Grows (reclaim a) := by
  intro s
  by_cases h : nullptr = s.mem a
  · exact ⟨[], by simp [reclaim, h.symm]⟩
  · exact ⟨[Call.AddRef (s.mem a)], by simp [reclaim, h, World.AddRef]⟩

theorem grows_release (a : α) : Grows (release a) := by
  intro s
  by_cases h : nullptr = s.mem a
  · exact ⟨[], by simp [release, h.symm]⟩
  · exact ⟨[Call.Release (s.mem a)], by simp [release, h, World.Release, World.store]⟩

theorem grows_dtor (a : α) : Grows (dtor a) := grows_release a

theorem grows_default_ctor (a : α) : Grows (default_ctor a) :=
  grows_store a (fun _ => nullptr)

theorem grows_ctor (a : α) (p : Handle) : Grows (ctor a p) :=
  grows_comp (grows_store a (fun _ => p)) (grows_reclaim a) (fun _ => rfl)

theorem grows_move_ctor (a c : α) : Grows (move_ctor a c) :=
  grows_comp (grows_comp (grows_comp (grows_store a (fun _ => nullptr)) (grows_release a)
    (fun _ => rfl)) (grows_store a (fun s => s.mem c)) (fun _ => rfl))
    (grows_store c (fun _ => nullptr)) (fun _ => rfl)

theorem grows_move_assign (a c : α) : Grows (move_assign a c) := by
  by_cases h : a = c
  · intro s
    exact ⟨[], by simp [move_assign, h]⟩
  · exact grows_comp (grows_comp (grows_release a) (grows_store a (fun s => s.mem c))
      (fun _ => rfl)) (grows_store c (fun _ => nullptr)) (fun s => by simp [move_assign, h])

theorem grows_make_comobj (ret r : α) (p : Handle) : Grows (make_comobj ret r p) := by
  have hrel : Grows (fun s : World α => if nullptr ≠ p then s.Release p else s) := by
    intro s
    by_cases h : nullptr = p
    · exact ⟨[], by simp [h]⟩
    · exact ⟨[Call.Release p], by simp [h, World.Release]⟩
  exact grows_comp (grows_comp (grows_comp (grows_ctor r p) hrel (fun _ => rfl))
    (grows_move_ctor ret r) (fun _ => rfl)) (grows_dtor r) (fun _ => rfl)

theorem extends_ret {β : Type} (b : β) : (Exec.ret b : Exec α β).Extends :=
  fun s => ⟨[], by simp [Exec.ret]⟩

theorem extends_step {f : World α → World α} (hf : Grows f) : (Exec.step f).Extends :=
  fun s => hf s

theorem extends_call (c : Call) : (Exec.call c : Exec α Unit).Extends :=
  fun _ => ⟨[c], rfl⟩

theorem extends_deref (a : α) : (Exec.deref a).Extends := by
  intro s
  refine ⟨[], ?_⟩
  by_cases h : nullptr = s.mem a <;> simp [Exec.deref, h]

theorem extends_read (a : α) : (Exec.read a).Extends :=
  fun s => ⟨[], by simp [Exec.read]⟩

theorem extends_check (nat : Native) (hr : HRESULT) : (Exec.check nat hr : Exec α Unit).Extends := by
  intro s
  refine ⟨[], ?_⟩
  unfold Exec.check
  cases throw_if_failed nat hr <;> simp

theorem extends_seq {β γ : Type} {m : Exec α β} {f : β → Exec α γ}
    (hm : m.Extends) (hf : ∀ b, (f b).Extends) : (Exec.seq m f).Extends := by
  intro s
  obtain ⟨l1, h1⟩ := hm s
  unfold Exec.seq
  rcases hms : m s with ⟨r, s1⟩
  rw [hms] at h1
  dsimp only at h1
  cases r with
  | error e => exact ⟨l1, h1⟩
  | ok b =>
    obtain ⟨l2, h2⟩ := hf b s1
    exact ⟨l1 ++ l2, by simp only [h2, h1, List.append_assoc]⟩

theorem extends_scope {β : Type} {d : World α → World α} {m : Exec α β}
    (hd : Grows d) (hm : m.Extends) : (Exec.scope d m).Extends := by
  intro s
  obtain ⟨l1, h1⟩ := hm s
  unfold Exec.scope
  rcases hms : m s with ⟨r, s1⟩
  rw [hms] at h1
  dsimp only at h1
  obtain ⟨l2, h2⟩ := hd s1
  rcases r with e | b
  · cases e with
    | undefined => exact ⟨l1, h1⟩
    | thrown e => exact ⟨l1 ++ l2, by simp only [h2, h1, List.append_assoc]⟩
  · exact ⟨l1 ++ l2, by simp only [h2, h1, List.append_assoc]⟩

end

/-- When the three native calls that `D3DInit` makes succeed, the factory being
non-null, `D3DInit` returns from any world and leaves the device, its immediate
context and the swap chain in the widget's members; the views and the depth
buffer are not touched. -/
theorem D3DInit_ok (nat : Native) (winId : Nat) (s : World Var)
    (hf hd hs : HRESULT) (pf pd pc ps : Handle)
    (e_f : nat.CreateDXGIFactory = (hf, pf)) (h_f : 0 ≤ hf) (hpf : pf ≠ nullptr)
    (e_d : nat.D3D11CreateDevice nullptr D3D_DRIVER_TYPE_HARDWARE D3D11_CREATE_DEVICE_BGRA_SUPPORT =
      (hd, pd, pc)) (h_d : 0 ≤ hd)
    (e_s : nat.CreateSwapChain pf pd winId = (hs, ps)) (h_s : 0 ≤ hs) :
    (D3DInit nat winId).Ok s (fun _ s1 =>
      s1.mem Var.m_device = pd ∧
      s1.mem Var.m_context = pc ∧
      s1.mem Var.m_swapchain = ps ∧
      s1.mem Var.m_rtv = s.mem Var.m_rtv ∧
      s1.mem Var.m_dsv = s.mem Var.m_dsv ∧
      s1.mem Var.m_dsvbuffer = s.mem Var.m_dsvbuffer) := by
  have hf1 : nat.CreateDXGIFactory.1 = hf := by rw [e_f]
  have hf2 : nat.CreateDXGIFactory.2 = pf := by rw [e_f]
  have hd1 : (nat.D3D11CreateDevice nullptr D3D_DRIVER_TYPE_HARDWARE
      D3D11_CREATE_DEVICE_BGRA_SUPPORT).1 = hd := by rw [e_d]
  have hd2 : (nat.D3D11CreateDevice nullptr D3D_DRIVER_TYPE_HARDWARE
      D3D11_CREATE_DEVICE_BGRA_SUPPORT).2.1 = pd := by rw [e_d]
  have hd3 : (nat.D3D11CreateDevice nullptr D3D_DRIVER_TYPE_HARDWARE
      D3D11_CREATE_DEVICE_BGRA_SUPPORT).2.2 = pc := by rw [e_d]
  unfold D3DInit
  simp only [Exec.bind_def]
  -- the local `factory`
  refine ok_seq_run (factory.create_run nat Var.factory Var.result s (by rw [hf1]; exact h_f)) ?_
  intro s1 h1
  rw [hf2] at h1
  have m1 : ∀ b, s1.mem b =
      if b = Var.result then nullptr else if b = Var.factory then pf else s.mem b := by
    intro b
    rw [h1]
    simp only [dtor_mem, move_ctor_mem, handout_mem, store_mem, emit_mem, default_ctor_mem]
    split_ifs <;> rfl
  clear h1
  refine ok_scope ?_
  -- `m_device = device::create_default_device()`
  refine ok_seq_run (device.create_default_device_run nat tmp_device result Var.tmp Var.r s1
    (by rw [hd1]; exact h_d)) ?_
  intro s2 h2
  rw [hd2, hd3] at h2
  have m2 : ∀ b, s2.mem b =
      if b = Var.tmp_device then pd
      else if b = Var.tmp_device_context then pc
      else if b = Var.result ∨ b = Var.result_context ∨ b = Var.tmp ∨ b = Var.r then nullptr
      else s1.mem b := by
    intro b
    rw [h2]
    cases b <;>
    simp [device.dtor, device.move_ctor, device.default_ctor, device.release_eq, tmp_device, result,
      dtor_mem, move_ctor_mem, move_assign_mem, make_comobj_mem, handout_mem, store_mem, emit_mem,
      default_ctor_mem, release_mem]
  clear h2
  -- the temporary is moved into `m_device` and destroyed; `m_context` is copied
  refine ok_seq_run (step_run _ s2) ?_
  rintro _ rfl
  refine ok_seq_run (step_run _ _) ?_
  rintro _ rfl
  refine ok_seq_run (step_run _ _) ?_
  intro s3 h3
  have m3 : ∀ b, s3.mem b =
      if b = Var.m_device then pd
      else if b = Var.m_device_context ∨ b = Var.m_context then pc
      else if b = Var.tmp_device ∨ b = Var.tmp_device_context then nullptr
      else s2.mem b := by
    intro b
    rw [h3]
    cases b <;>
    simp [device.dtor, device.move_assign, device.release_eq, device.immediate_context,
      tmp_device, m_device, dtor_mem, move_assign_mem, copy_assign_mem, store_mem, release_mem, m2]
  clear h3
  -- `m_swapchain = factory.create_swapchain(m_device, (HWND)winId())`
  have hfac : s3.mem Var.factory = pf := by simp [m3, m2, m1]
  have hdevp : s3.mem m_device.m_device = pd := by simp [m3, m_device]
  refine ok_seq_run (factory.create_swapchain_run nat Var.tmp Var.r Var.factory m_device winId s3
    (by rw [hfac]; exact hpf) (by rw [hfac, hdevp, e_s]; exact h_s)) ?_
  intro s4 h4
  rw [hfac, hdevp, e_s] at h4
  have m4 : ∀ b, s4.mem b =
      if b = Var.r then nullptr else if b = Var.tmp then ps else s3.mem b := by
    intro b
    rw [h4]
    simp [make_comobj_mem, handout_mem, emit_mem]
  clear h4
  refine ok_seq_run (step_run _ s4) ?_
  rintro _ rfl
  refine ok_of_run (step_run _ _) ?_
  simp [dtor_mem, move_assign_mem, m4, m3, m2, m1]

/-- An `UINT` below `2 ^ 32` survives the conversion to `int` and back. -/
theorem toUInt_toInt (u : Nat) (h : u < 2 ^ 32) : toUInt (toInt u) = u := by
  unfold toUInt toInt
  have h1 : u % 2 ^ 32 = u := Nat.mod_eq_of_lt h
  rw [h1]
  split_ifs with hlt
  · omega
  · omega

/-- The events of `release` on a wrapper holding `p`. -/
theorem released_events_eq (p : Handle) :
    (if nullptr ≠ p then [Call.Release p] else []) = (if p = nullptr then [] else [Call.Release p]) := by
  by_cases h : p = nullptr
  · simp [h]
  · have h2 : nullptr ≠ p := fun e => h e.symm
    simp [h, h2]

/-- The successful run of `D3DResize`, in full: the pointers it leaves in the
members and the native calls it issues, in order. -/
theorem D3DResize_ok (nat : Native) (width height : Int) (s : World Var)
    (ctx sc dev bb rtv tex dsv : Handle) (W H : Nat) (hr1 hr2 hr3 hr4 : HRESULT)
    (hctx : s.mem Var.m_context = ctx) (hctx0 : ctx ≠ nullptr)
    (hsc : s.mem Var.m_swapchain = sc) (hsc0 : sc ≠ nullptr)
    (hdev : s.mem Var.m_device = dev) (hdev0 : dev ≠ nullptr)
    (hrb : 0 ≤ nat.ResizeBuffers sc 0 0 0 DXGI_FORMAT_UNKNOWN 0)
    (hgb : nat.GetBuffer sc 0 = (hr1, bb)) (h1 : 0 ≤ hr1) (hbb0 : bb ≠ nullptr)
    (hcr : nat.CreateRenderTargetView dev bb = (hr2, rtv)) (h2 : 0 ≤ hr2) (hrtv0 : rtv ≠ nullptr)
    (hW : (nat.GetDesc bb).Width = W) (hW32 : W < 2 ^ 32)
    (hH : (nat.GetDesc bb).Height = H) (hH32 : H < 2 ^ 32)
    (hct : nat.CreateTexture2D dev
      ⟨W, H, 1, 1, DXGI_FORMAT_D24_UNORM_S8_UINT, 1, 0, D3D11_USAGE_DEFAULT, D3D11_BIND_DEPTH_STENCIL, 0, 0⟩ =
        (hr3, tex)) (h3 : 0 ≤ hr3) (htex0 : tex ≠ nullptr)
    (hcd : nat.CreateDepthStencilView dev tex DXGI_FORMAT_D24_UNORM_S8_UINT
      D3D11_DSV_DIMENSION_TEXTURE2DMS 0 = (hr4, dsv)) (h4 : 0 ≤ hr4) (hdsv0 : dsv ≠ nullptr) :
    (D3DResize nat width height).Ok s (fun _ s1 =>
      (∀ b, s1.mem b =
        if b = Var.m_rtv then rtv else if b = Var.m_dsv then dsv
        else if b = Var.m_dsvbuffer then tex
        else if b = Var.backbuffer ∨ b = Var.tmp ∨ b = Var.r then nullptr else s.mem b) ∧
      s1.trace = s.trace ++ [Call.OMSetRenderTargets ctx [] nullptr] ++
        (if nullptr ≠ s.mem Var.m_rtv then [Call.Release (s.mem Var.m_rtv)] else []) ++
        (if nullptr ≠ s.mem Var.m_dsv then [Call.Release (s.mem Var.m_dsv)] else []) ++
        (if nullptr ≠ s.mem Var.m_dsvbuffer then [Call.Release (s.mem Var.m_dsvbuffer)] else []) ++
        [Call.ResizeBuffers sc 0 0 0 DXGI_FORMAT_UNKNOWN 0,
         Call.GetBuffer sc 0, Call.AddRef bb, Call.Release bb,
         Call.CreateRenderTargetView dev bb, Call.AddRef rtv, Call.Release rtv,
         Call.GetDesc bb, Call.GetDesc bb,
         Call.CreateTexture2D dev
           ⟨W, H, 1, 1, DXGI_FORMAT_D24_UNORM_S8_UINT, 1, 0, D3D11_USAGE_DEFAULT, D3D11_BIND_DEPTH_STENCIL, 0, 0⟩,
         Call.AddRef tex, Call.Release tex,
         Call.CreateDepthStencilView dev tex DXGI_FORMAT_D24_UNORM_S8_UINT D3D11_DSV_DIMENSION_TEXTURE2DMS 0,
         Call.AddRef dsv, Call.Release dsv,
         Call.OMSetRenderTargets ctx [rtv] dsv,
         Call.RSSetViewports ctx width height,
         Call.Release bb]) := by
  unfold D3DResize
  simp only [Exec.bind_def]
  -- unbind, then release the three members
  refine ok_seq_run (devicecontext.set_rendertarget_run Var.m_context s (by rw [hctx]; exact hctx0)) ?_
  rintro _ rfl
  refine ok_seq_run (step_run _ _) ?_
  rintro _ rfl
  refine ok_seq_run (step_run _ _) ?_
  rintro _ rfl
  refine ok_seq_run (step_run _ _) ?_
  intro s1 e1
  have m1 : ∀ b, s1.mem b =
      if b = Var.m_rtv ∨ b = Var.m_dsv ∨ b = Var.m_dsvbuffer then nullptr else s.mem b := by
    intro b
    rw [e1]
    cases b <;> simp [release_mem, emit_mem]
  have t1 : s1.trace = s.trace ++ [Call.OMSetRenderTargets ctx [] nullptr] ++
      (if nullptr ≠ s.mem Var.m_rtv then [Call.Release (s.mem Var.m_rtv)] else []) ++
      (if nullptr ≠ s.mem Var.m_dsv then [Call.Release (s.mem Var.m_dsv)] else []) ++
      (if nullptr ≠ s.mem Var.m_dsvbuffer then [Call.Release (s.mem Var.m_dsvbuffer)] else []) := by
    rw [e1]
    simp [release_trace, release_mem, emit_trace, emit_mem, hctx]
  clear e1
  -- resize the buffers and fetch the back buffer
  have hsc1 : s1.mem Var.m_swapchain = sc := by simp [m1, hsc]
  refine ok_seq_run (swapchain.resize_run nat Var.m_swapchain 0 0 0 DXGI_FORMAT_UNKNOWN 0 s1
    (by rw [hsc1]; exact hsc0) (by rw [hsc1]; exact hrb)) ?_
  rintro _ rfl
  rw [hsc1]
  refine ok_seq_run (swapchain.backbuffer_run nat Var.backbuffer Var.r Var.m_swapchain 0 _
    (by rw [emit_mem, hsc1]; exact hsc0) (by rw [emit_mem, hsc1, hgb]; exact h1)) ?_
  intro s2 e2
  rw [emit_mem, hsc1, hgb] at e2
  have c2 := created_world (s1.emit (Call.ResizeBuffers sc 0 0 0 DXGI_FORMAT_UNKNOWN 0))
    Var.backbuffer Var.r bb (Call.GetBuffer sc 0) hbb0
  rw [← e2] at c2
  obtain ⟨m2, t2⟩ := c2
  simp only [emit_mem, emit_trace] at m2 t2
  clear e2
  refine ok_scope ?_
  -- the render-target view
  have hdev2 : s2.mem m_device.m_device = dev := by simp [m2, m1, emit_mem, m_device, hdev]
  have hbb2 : s2.mem Var.backbuffer = bb := by simp [m2]
  refine ok_seq_run (device.create_view_rendertargetview_run nat Var.tmp Var.r m_device
    Var.backbuffer s2 (by rw [hdev2]; exact hdev0) (by rw [hdev2, hbb2, hcr]; exact h2)) ?_
  intro s3 e3
  rw [hdev2, hbb2, hcr] at e3
  have c3 := created_world s2 Var.tmp Var.r rtv (Call.CreateRenderTargetView dev bb) hrtv0
  rw [← e3] at c3
  obtain ⟨m3, t3⟩ := c3
  clear e3
  refine ok_seq_run (step_run _ s3) ?_
  rintro _ rfl
  refine ok_seq_run (step_run _ _) ?_
  intro s4 e4
  have m4 : ∀ b, s4.mem b =
      if b = Var.m_rtv then rtv else if b = Var.tmp ∨ b = Var.r then nullptr else s2.mem b := by
    intro b
    rw [e4]
    cases b <;> simp [dtor_mem, move_assign_mem, m3]
  have t4 : s4.trace = s3.trace := by
    rw [e4]
    simp [dtor_trace, dtor_mem, move_assign_trace, move_assign_mem, m3, m2, m1, emit_mem]
  clear e4
  -- the depth buffer, of the size the back buffer reports
  have hbb4 : s4.mem Var.backbuffer = bb := by simp [m4, m2]
  refine ok_seq_run (texture2d.width_run nat Var.backbuffer s4 (by rw [hbb4]; exact hbb0)) ?_
  rintro _ rfl
  refine ok_seq_run (texture2d.height_run nat Var.backbuffer _ (by rw [emit_mem, hbb4]; exact hbb0)) ?_
  rintro _ rfl
  rw [emit_mem, hbb4, hW, hH, toUInt_toInt W hW32, toUInt_toInt H hH32]
  have hdev4 : s4.mem m_device.m_device = dev := by
    have := hdev2
    simp only [m_device] at this ⊢
    simp [m4, this]
  refine ok_seq_run (device.create_texture2d_run nat Var.tmp Var.r m_device W H 1 1
    DXGI_FORMAT_D24_UNORM_S8_UINT 1 0 D3D11_USAGE_DEFAULT D3D11_BIND_DEPTH_STENCIL 0 _ _ rfl
    (by rw [emit_mem, emit_mem, hdev4]; exact hdev0)
    (by rw [emit_mem, emit_mem, hdev4, hct]; exact h3)) ?_
  intro s5 e5
  rw [emit_mem, emit_mem, hdev4, hct] at e5
  have c5 := created_world ((s4.emit (Call.GetDesc bb)).emit (Call.GetDesc bb)) Var.tmp Var.r tex
    (Call.CreateTexture2D dev ⟨W, H, 1, 1, DXGI_FORMAT_D24_UNORM_S8_UINT, 1, 0, D3D11_USAGE_DEFAULT,
      D3D11_BIND_DEPTH_STENCIL, 0, 0⟩) htex0
  rw [← e5] at c5
  obtain ⟨m5, t5⟩ := c5
  simp only [emit_mem, emit_trace] at m5 t5
  clear e5
  refine ok_seq_run (step_run _ s5) ?_
  rintro _ rfl
  refine ok_seq_run (step_run _ _) ?_
  intro s6 e6
  have m6 : ∀ b, s6.mem b =
      if b = Var.m_dsvbuffer then tex else if b = Var.tmp ∨ b = Var.r then nullptr else s4.mem b := by
    intro b
    rw [e6]
    cases b <;> simp [dtor_mem, move_assign_mem, m5]
  have t6 : s6.trace = s5.trace := by
    rw [e6]
    simp [dtor_trace, dtor_mem, move_assign_trace, move_assign_mem, m5, m4, m2, m1, emit_mem]
  clear e6
  -- the depth-stencil view
  have hdev6 : s6.mem m_device.m_device = dev := by
    have := hdev4
    simp only [m_device] at this ⊢
    simp [m6, this]
  have htex6 : s6.mem Var.m_dsvbuffer = tex := by simp [m6]
  refine ok_seq_run (device.create_view_depthstencilview_run nat Var.tmp Var.r m_device
    Var.m_dsvbuffer s6 (by rw [hdev6]; exact hdev0) (by rw [hdev6, htex6, hcd]; exact h4)) ?_
  intro s7 e7
  rw [hdev6, htex6, hcd] at e7
  have c7 := created_world s6 Var.tmp Var.r dsv (Call.CreateDepthStencilView dev tex
    DXGI_FORMAT_D24_UNORM_S8_UINT D3D11_DSV_DIMENSION_TEXTURE2DMS 0) hdsv0
  rw [← e7] at c7
  obtain ⟨m7, t7⟩ := c7
  clear e7
  refine ok_seq_run (step_run _ s7) ?_
  rintro _ rfl
  refine ok_seq_run (step_run _ _) ?_
  intro s8 e8
  have m8 : ∀ b, s8.mem b =
      if b = Var.m_dsv then dsv else if b = Var.tmp ∨ b = Var.r then nullptr else s6.mem b := by
    intro b
    rw [e8]
    cases b <;> simp [dtor_mem, move_assign_mem, m7]
  have t8 : s8.trace = s7.trace := by
    rw [e8]
    simp [dtor_trace, dtor_mem, move_assign_trace, move_assign_mem, m7, m6, m4, m2, m1, emit_mem]
  clear e8
  -- bind the new views and set the viewport
  have hctx8 : s8.mem Var.m_context = ctx := by simp [m8, m6, m4, m2, m1, hctx]
  refine ok_seq_run (devicecontext.set_rendertarget2_run Var.m_context Var.m_rtv Var.m_dsv s8
    (by rw [hctx8]; exact hctx0)) ?_
  rintro _ rfl
  refine ok_of_run (devicecontext.set_viewport_run Var.m_context width height _
    (by rw [emit_mem, hctx8]; exact hctx0)) ?_
  have hbb0' : nullptr ≠ bb := fun e => hbb0 e.symm
  refine ⟨fun b => ?_, ?_⟩
  · cases b <;> simp [dtor_mem, emit_mem, m8, m6, m4, m2, m1]
  · simp [dtor_trace, emit_trace, emit_mem, m8, m6, m4, m2, m1, hctx, hbb0', t8, t7, t6, t5, t4, t3, t2, t1]

/-! ## The wrapper pattern: C1 to C4 -/

section comobj_theorems

variable {α : Type} [DecidableEq α]

/-- C1: adopting a non-null handle `p` of count `n` with `make_comobj` returns a
wrapper that holds `p` and is valid; the count of `p` is `n` again, no count
has changed, and the only native calls are one `AddRef` followed by one
`Release` of `p`. -/
theorem make_comobj_transfers_one_reference (s : World α) (ret r : α) (p : Handle) (n : Nat)
    (hp : p ≠ nullptr) (hn : s.refs p = n) (hr : ret ≠ r) :
    winapi ret (make_comobj ret r p s) = p ∧
    is_valid ret (make_comobj ret r p s) = true ∧
    (make_comobj ret r p s).refs p = n ∧
    (make_comobj ret r p s).refs = s.refs ∧
    (make_comobj ret r p s).trace = s.trace ++ [Call.AddRef p, Call.Release p] := by
  have hp2 : nullptr ≠ p := fun h => hp h.symm
  have hr2 : r ≠ ret := fun h => hr h.symm
  subst hn
  simp [make_comobj, ctor, reclaim, release, move_ctor, dtor, winapi, is_valid, World.store,
    World.AddRef, World.Release, hp2, hr, hr2]

/-- Witness of C1: handle `7` with count one, adopted into the wrapper at address `0`. -/
theorem make_comobj_transfers_one_reference_witness :
    winapi 0 (make_comobj 0 1 7 World.single) = 7 ∧
    is_valid 0 (make_comobj 0 1 7 World.single) = true ∧
    (make_comobj 0 1 7 World.single).refs 7 = 1 ∧
    (make_comobj 0 1 7 World.single).refs = World.single.refs ∧
    (make_comobj 0 1 7 World.single).trace = World.single.trace ++ [Call.AddRef 7, Call.Release 7] :=
  make_comobj_transfers_one_reference World.single 0 1 7 1 (by decide) (by decide) (by decide)

/-- C2: copy-constructing `c` from a wrapper `w` that holds the non-null handle
`h` of count `n` makes `c` hold `h` (and `w` still), and raises the count to
`n + 1` by one `AddRef`; destroying either holder issues one `Release` and
restores the count `n`; destroying the remaining holder issues exactly one
further `Release`. -/
theorem copy_then_destroy (s : World α) (w c : α) (h : Handle) (n : Nat)
    (hh : h ≠ nullptr) (hw : s.mem w = h) (hn : s.refs h = n) (hc : c ≠ w) :
    winapi c (copy_ctor c w s) = h ∧
    winapi w (copy_ctor c w s) = h ∧
    (copy_ctor c w s).refs h = n + 1 ∧
    (copy_ctor c w s).trace = s.trace ++ [Call.AddRef h] ∧
    (dtor w (copy_ctor c w s)).refs h = n ∧
    (dtor c (copy_ctor c w s)).refs h = n ∧
    (dtor w (copy_ctor c w s)).trace = (copy_ctor c w s).trace ++ [Call.Release h] ∧
    (dtor c (copy_ctor c w s)).trace = (copy_ctor c w s).trace ++ [Call.Release h] ∧
    (dtor c (dtor w (copy_ctor c w s))).trace = (dtor w (copy_ctor c w s)).trace ++ [Call.Release h] ∧
    (dtor w (dtor c (copy_ctor c w s))).trace = (dtor c (copy_ctor c w s)).trace ++ [Call.Release h] ∧
    (dtor c (dtor w (copy_ctor c w s))).refs h = n - 1 ∧
    (dtor w (dtor c (copy_ctor c w s))).refs h = n - 1 := by
  have hh2 : nullptr ≠ h := fun e => hh e.symm
  have hc2 : w ≠ c := fun e => hc e.symm
  subst hn
  subst hw
  simp [copy_ctor, reclaim, release, dtor, winapi, World.store,
    World.AddRef, World.Release, hh2, hc, hc2, hh]

/-- Witness of C2: the wrapper at address `0` holds handle `7` of count one and
is copied to address `1`. -/
theorem copy_then_destroy_witness :
    winapi 1 (copy_ctor 1 0 World.single) = 7 ∧
    winapi 0 (copy_ctor 1 0 World.single) = 7 ∧
    (copy_ctor 1 0 World.single).refs 7 = 1 + 1 ∧
    (copy_ctor 1 0 World.single).trace = World.single.trace ++ [Call.AddRef 7] ∧
    (dtor 0 (copy_ctor 1 0 World.single)).refs 7 = 1 ∧
    (dtor 1 (copy_ctor 1 0 World.single)).refs 7 = 1 ∧
    (dtor 0 (copy_ctor 1 0 World.single)).trace = (copy_ctor 1 0 World.single).trace ++ [Call.Release 7] ∧
    (dtor 1 (copy_ctor 1 0 World.single)).trace = (copy_ctor 1 0 World.single).trace ++ [Call.Release 7] ∧
    (dtor 1 (dtor 0 (copy_ctor 1 0 World.single))).trace =
      (dtor 0 (copy_ctor 1 0 World.single)).trace ++ [Call.Release 7] ∧
    (dtor 0 (dtor 1 (copy_ctor 1 0 World.single))).trace =
      (dtor 1 (copy_ctor 1 0 World.single)).trace ++ [Call.Release 7] ∧
    (dtor 1 (dtor 0 (copy_ctor 1 0 World.single))).refs 7 = 1 - 1 ∧
    (dtor 0 (dtor 1 (copy_ctor 1 0 World.single))).refs 7 = 1 - 1 :=
  copy_then_destroy World.single 0 1 7 1 (by decide) (by decide) (by decide) (by decide)

/-- C3, as stated, fails: the wrappers at addresses `0` and `1` both hold handle
`7`, whose count is two; the move assignment of `0` onto the distinct target `1`
releases the target's own reference, and the count of `7` drops to one. -/
theorem move_assign_onto_sharing_target_counterexample :
    World.shared.mem 0 = 7 ∧ (7 : Handle) ≠ nullptr ∧ (1 : Nat) ≠ 0 ∧
    World.shared.refs 7 = 2 ∧
    (move_assign 1 0 World.shared).refs 7 = 1 ∧
    (move_assign 1 0 World.shared).refs 7 ≠ World.shared.refs 7 := by
  decide

/-- C3, amended: moving a wrapper `src` that holds the non-null handle `h` into
`dst` by move construction changes no count and issues no native call; by move
assignment onto a distinct target it leaves the count of `h` unchanged when
the target did not hold `h`, and lowers it by one (the release of the target's
own reference) when it did; in every case `src` is left invalid and `dst`
holds `h`. -/
theorem move_transfers_ownership (s : World α) (src dst : α) (h : Handle)
    (hh : h ≠ nullptr) (hs : s.mem src = h) (hd : dst ≠ src) :
    ((move_ctor dst src s).refs = s.refs ∧
      (move_ctor dst src s).trace = s.trace ∧
      is_valid src (move_ctor dst src s) = false ∧
      winapi dst (move_ctor dst src s) = h) ∧
    (is_valid src (move_assign dst src s) = false ∧
      winapi dst (move_assign dst src s) = h ∧
      (move_assign dst src s).refs h = (if s.mem dst = h then s.refs h - 1 else s.refs h)) := by
  have hh2 : nullptr ≠ h := fun e => hh e.symm
  have hd2 : src ≠ dst := fun e => hd e.symm
  subst hs
  refine ⟨?_, ?_⟩
  · simp [move_ctor, release, winapi, is_valid, World.store, hd, hd2]
  · by_cases h1 : nullptr = s.mem dst
    · have h3 : ¬ s.mem dst = s.mem src := fun e => hh (by rw [← e, ← h1])
      simp [move_assign, release, winapi, is_valid, World.store, hd, hd2, h1.symm, h3, hh2]
    · by_cases h2 : s.mem dst = s.mem src
      · simp [move_assign, release, winapi, is_valid, World.store, World.Release, hd, hd2, h1, h2, hh2]
      · have h3 : ¬ s.mem src = s.mem dst := fun e => h2 e.symm
        simp [move_assign, release, winapi, is_valid, World.store, World.Release, hd, hd2, h1, h2, h3]

/-- Witness of the amended C3: the wrapper at address `0`, holding handle `7`, is
moved into the empty wrapper at address `1`. -/
theorem move_transfers_ownership_witness :
    ((move_ctor 1 0 World.single).refs = World.single.refs ∧
      (move_ctor 1 0 World.single).trace = World.single.trace ∧
      is_valid 0 (move_ctor 1 0 World.single) = false ∧
      winapi 1 (move_ctor 1 0 World.single) = 7) ∧
    (is_valid 0 (move_assign 1 0 World.single) = false ∧
      winapi 1 (move_assign 1 0 World.single) = 7 ∧
      (move_assign 1 0 World.single).refs 7 =
        (if World.single.mem 1 = 7 then World.single.refs 7 - 1 else World.single.refs 7)) :=
  move_transfers_ownership World.single 0 1 7 (by decide) (by decide) (by decide)

/-- C4: `release()` twice in a row leaves the same world (wrapper state, counts
and native calls) as `release()` once; on a wrapper holding a non-null handle
`h` the first call lowers the count of `h` by one, touches no other count,
empties the wrapper and issues one `Release`, and the second call issues no
native call. -/
theorem release_idempotent (s : World α) (a : α) :
    release a (release a s) = release a s ∧
    ∀ h : Handle, s.mem a = h → h ≠ nullptr →
      (release a s).refs h = s.refs h - 1 ∧
      (∀ q : Handle, q ≠ h → (release a s).refs q = s.refs q) ∧
      (release a s).mem a = nullptr ∧
      (release a s).trace = s.trace ++ [Call.Release h] ∧
      (release a (release a s)).trace = (release a s).trace := by
  constructor
  · by_cases h : nullptr = s.mem a
    · simp [release, h.symm]
    · simp [release, World.store, World.Release, h]
  · intro h hs hh
    subst hs
    have hh2 : nullptr ≠ s.mem a := fun e => hh e.symm
    simp [release, World.store, World.Release, hh2]
    intro q hq
    simp [Function.update, hq]

/-- Witness of C4: the wrapper at address `0` holds handle `7` of count one. -/
theorem release_idempotent_witness :
    release 0 (release 0 World.single) = release 0 World.single ∧
    ((release 0 World.single).refs 7 = World.single.refs 7 - 1 ∧
      (∀ q : Handle, q ≠ 7 → (release 0 World.single).refs q = World.single.refs q) ∧
      (release 0 World.single).mem 0 = nullptr ∧
      (release 0 World.single).trace = World.single.trace ++ [Call.Release 7] ∧
      (release 0 (release 0 World.single)).trace = (release 0 World.single).trace) :=
  ⟨(release_idempotent World.single 0).1,
    (release_idempotent World.single 0).2 7 (by decide) (by decide)⟩

end comobj_theorems

/-! ## The composite device: C5 -/

/-- C5, at the failing input: the empty device at addresses `0`, `1` is
copy-assigned from the device at `2`, `3` (device `5`, immediate context `6`).
The target takes the device pointer `5`, but its `immediate_context()` still
holds its old null pointer, while the source's holds `6`; the copy constructor,
the move constructor and the move assignment all hand `6` over. -/
theorem device_copy_assign_keeps_old_context :
    device.winapi ⟨0, 1⟩ (device.copy_assign ⟨0, 1⟩ ⟨2, 3⟩ World.devices) = 5 ∧
    winapi (device.immediate_context ⟨2, 3⟩) (device.copy_assign ⟨0, 1⟩ ⟨2, 3⟩ World.devices) = 6 ∧
    winapi (device.immediate_context ⟨0, 1⟩) (device.copy_assign ⟨0, 1⟩ ⟨2, 3⟩ World.devices) = nullptr ∧
    winapi (device.immediate_context ⟨0, 1⟩) (device.copy_ctor ⟨0, 1⟩ ⟨2, 3⟩ World.devices) = 6 ∧
    winapi (device.immediate_context ⟨0, 1⟩) (device.move_ctor ⟨0, 1⟩ ⟨2, 3⟩ World.devices) = 6 ∧
    winapi (device.immediate_context ⟨0, 1⟩) (device.move_assign ⟨0, 1⟩ ⟨2, 3⟩ World.devices) = 6 := by
  decide

/-! ## Error translation: C6 and C7 -/

/-- C6: `throw_if_failed(hr)` throws exactly when `hr` is negative and returns
normally exactly when `hr` is zero or positive; the error thrown for a negative
`hr` answers `hr()` with `hr` itself. -/
theorem throw_if_failed_iff (nat : Native) (hr : HRESULT) :
    ((∃ e, throw_if_failed nat hr = Except.error e) ↔ hr < 0) ∧
    (throw_if_failed nat hr = Except.ok () ↔ 0 ≤ hr) ∧
    ((∃ e, throw_if_failed nat hr = Except.error e ∧ e.hr = hr) ↔ hr < 0) := by
  by_cases h : hr < 0
  · simp [throw_if_failed, FAILED, h, runtime_error.ctor, runtime_error.hr]
  · have h2 : 0 ≤ hr := not_lt.mp h
    simp [throw_if_failed, FAILED, h, h2]

/-- The local `errorText` is passed to `FormatMessageA` by value, so it is still
null after the call and `to_string` returns the empty string for every code. -/
theorem to_string_is_empty (nat : Native) (hr : HRESULT) : to_string nat hr = "" := by
  simp [to_string, FormatMessageA]

/-- C7, at the failing input `E_FAIL` (`0x80004005`): the system message table
has the text "Unspecified error" for it, yet `to_string` returns the empty
string and the error thrown by `throw_if_failed` carries the empty message. -/
theorem to_string_drops_system_message :
    FAILED (-2147467259) = true ∧
    Native.sample.message (-2147467259) = some "Unspecified error" ∧
    to_string Native.sample (-2147467259) = "" ∧
    throw_if_failed Native.sample (-2147467259) =
      Except.error { what := "", m_hr := -2147467259 } :=
  ⟨by decide, by decide, rfl, rfl⟩

/-! ## The widget: C8 to C10 -/

/-- C8: whatever status `hr` the native `Present` yields, failure codes
included, `swapchain::present` returns exactly `hr` and throws nothing, having
issued that one native call; `D3DDraw` returns normally, having issued its two
clears and the `Present` and changed neither a wrapper nor a count. -/
theorem present_status_is_returned (nat : Native) (s : World Var) (this : Var)
    (sync_interval flags : Nat) (hr : HRESULT)
    (hthis : s.mem this ≠ nullptr)
    (hsc : s.mem Var.m_swapchain ≠ nullptr) (hctx : s.mem Var.m_context ≠ nullptr)
    (hpresent : nat.Present (s.mem this) sync_interval flags = hr) :
    swapchain.present nat this sync_interval flags s =
      (Except.ok hr, s.emit (Call.Present (s.mem this) sync_interval flags)) ∧
    (D3DDraw nat s).1 = Except.ok () ∧
    (D3DDraw nat s).2.trace = s.trace ++
      [Call.ClearRenderTargetView (s.mem Var.m_context) (s.mem Var.m_rtv),
       Call.ClearDepthStencilView (s.mem Var.m_context) (s.mem Var.m_dsv) D3D11_CLEAR_DEPTH 0,
       Call.Present (s.mem Var.m_swapchain) 0 0] ∧
    (D3DDraw nat s).2.refs = s.refs ∧
    (D3DDraw nat s).2.mem = s.mem := by
  have h1 : nullptr ≠ s.mem this := fun e => hthis e.symm
  have h2 : nullptr ≠ s.mem Var.m_swapchain := fun e => hsc e.symm
  have h3 : nullptr ≠ s.mem Var.m_context := fun e => hctx e.symm
  subst hpresent
  simp [D3DDraw, swapchain.present, devicecontext.clear_rendertargetview,
    devicecontext.clear_depthstencilview, Exec.bind_def, Exec.pure_def, Exec.seq, Exec.ret,
    Exec.deref, Exec.call, Exec.read, World.emit, h1, h2, h3, D3D11_CLEAR_DEPTH]

/-- Witness of C8: the initialised widget `World.ready` on `Native.sample`. -/
theorem present_status_is_returned_witness :
    swapchain.present Native.sample Var.m_swapchain 0 0 World.ready =
      (Except.ok 0, World.ready.emit (Call.Present (World.ready.mem Var.m_swapchain) 0 0)) ∧
    (D3DDraw Native.sample World.ready).1 = Except.ok () ∧
    (D3DDraw Native.sample World.ready).2.trace = World.ready.trace ++
      [Call.ClearRenderTargetView (World.ready.mem Var.m_context) (World.ready.mem Var.m_rtv),
       Call.ClearDepthStencilView (World.ready.mem Var.m_context) (World.ready.mem Var.m_dsv)
         D3D11_CLEAR_DEPTH 0,
       Call.Present (World.ready.mem Var.m_swapchain) 0 0] ∧
    (D3DDraw Native.sample World.ready).2.refs = World.ready.refs ∧
    (D3DDraw Native.sample World.ready).2.mem = World.ready.mem :=
  present_status_is_returned Native.sample World.ready Var.m_swapchain 0 0 0
    (by decide) (by decide) (by decide) rfl

/-- C10: when every native call that `D3DInit` and the following `D3DResize`
make succeeds with a non-null object (and the back buffer's descriptor reports
`UINT` extents), both return; afterwards the render-target view, the
depth-stencil view and the depth buffer are valid, the depth buffer is the
texture that `CreateTexture2D` answered for a descriptor whose width and height
are those the back buffer reports, and that is the only `CreateTexture2D` call
of the resize.  Nothing is asked of the answers the platform would give to
calls that are not made. -/
theorem init_then_resize_views_valid (nat1 nat2 : Native) (winId : Nat) (width height : Int)
    (s0 : World Var)
    (hf hd hs hr0 hr1 hr2 hr3 hr4 : HRESULT) (pf pd pc ps bb rtv tex dsv : Handle) (W H : Nat)
    (e_f : nat1.CreateDXGIFactory = (hf, pf)) (h_f : 0 ≤ hf) (hpf : pf ≠ nullptr)
    (e_d : nat1.D3D11CreateDevice nullptr D3D_DRIVER_TYPE_HARDWARE D3D11_CREATE_DEVICE_BGRA_SUPPORT =
      (hd, pd, pc)) (h_d : 0 ≤ hd) (hpd : pd ≠ nullptr) (hpc : pc ≠ nullptr)
    (e_s : nat1.CreateSwapChain pf pd winId = (hs, ps)) (h_s : 0 ≤ hs) (hps : ps ≠ nullptr)
    (e_rb : nat2.ResizeBuffers ps 0 0 0 DXGI_FORMAT_UNKNOWN 0 = hr0) (h0 : 0 ≤ hr0)
    (e_gb : nat2.GetBuffer ps 0 = (hr1, bb)) (h1 : 0 ≤ hr1) (hbb : bb ≠ nullptr)
    (e_rtv : nat2.CreateRenderTargetView pd bb = (hr2, rtv)) (h2 : 0 ≤ hr2) (hrtv : rtv ≠ nullptr)
    (hW : (nat2.GetDesc bb).Width = W) (hW32 : W < 2 ^ 32)
    (hH : (nat2.GetDesc bb).Height = H) (hH32 : H < 2 ^ 32)
    (e_tex : nat2.CreateTexture2D pd
      ⟨W, H, 1, 1, DXGI_FORMAT_D24_UNORM_S8_UINT, 1, 0, D3D11_USAGE_DEFAULT, D3D11_BIND_DEPTH_STENCIL, 0, 0⟩ =
        (hr3, tex)) (h3 : 0 ≤ hr3) (htex : tex ≠ nullptr)
    (e_dsv : nat2.CreateDepthStencilView pd tex DXGI_FORMAT_D24_UNORM_S8_UINT
      D3D11_DSV_DIMENSION_TEXTURE2DMS 0 = (hr4, dsv)) (h4 : 0 ≤ hr4) (hdsv : dsv ≠ nullptr) :
    ∃ s1 s2, D3DInit nat1 winId s0 = (Except.ok (), s1) ∧
      D3DResize nat2 width height s1 = (Except.ok (), s2) ∧
      is_valid Var.m_rtv s2 = true ∧ is_valid Var.m_dsv s2 = true ∧
      is_valid Var.m_dsvbuffer s2 = true ∧
      ∃ desc : TEXTURE2D_DESC,
        desc.Width = (nat2.GetDesc (nat2.GetBuffer (winapi Var.m_swapchain s1) 0).2).Width ∧
        desc.Height = (nat2.GetDesc (nat2.GetBuffer (winapi Var.m_swapchain s1) 0).2).Height ∧
        winapi Var.m_dsvbuffer s2 = (nat2.CreateTexture2D (device.winapi m_device s1) desc).2 ∧
        ∀ dev d, Call.CreateTexture2D dev d ∈ s2.trace.drop s1.trace.length ↔
          (dev = device.winapi m_device s1 ∧ d = desc) := by
  obtain ⟨_, s1, e1, hdev, hctx, hsc, -, -, -⟩ := D3DInit_ok nat1 winId s0 hf hd hs pf pd pc ps
    e_f h_f hpf e_d h_d e_s h_s
  obtain ⟨_, s2, e2, m2, t2⟩ := D3DResize_ok nat2 width height s1 pc ps pd bb rtv tex dsv W H
    hr1 hr2 hr3 hr4 hctx hpc hsc hps hdev hpd (by rw [e_rb]; exact h0)
    e_gb h1 hbb e_rtv h2 hrtv hW hW32 hH hH32 e_tex h3 htex e_dsv h4 hdsv
  have hrtv' : ¬ nullptr = rtv := fun e => hrtv e.symm
  have hdsv' : ¬ nullptr = dsv := fun e => hdsv e.symm
  have htex' : ¬ nullptr = tex := fun e => htex e.symm
  refine ⟨s1, s2, e1, e2, ?_, ?_, ?_,
    ⟨W, H, 1, 1, DXGI_FORMAT_D24_UNORM_S8_UINT, 1, 0, D3D11_USAGE_DEFAULT, D3D11_BIND_DEPTH_STENCIL,
      0, 0⟩, ?_, ?_, ?_, ?_⟩
  · simp [is_valid, m2, hrtv']
  · simp [is_valid, m2, hdsv']
  · simp [is_valid, m2, htex']
  · simp [winapi, hsc, e_gb, hW]
  · simp [winapi, hsc, e_gb, hH]
  · simp [winapi, device.winapi, m_device, m2, hdev, e_tex]
  · intro dev d
    rw [t2]
    simp only [List.append_assoc, List.drop_left]
    simp [winapi, device.winapi, m_device, hdev]

/-- Witness of C10: a freshly constructed widget on `Native.rejects_empty_texture`, a
platform that refuses a texture of width zero (a call that is not made) and
whose back buffer reports 640 by 480. -/
theorem init_then_resize_views_valid_witness :
    ∃ s1 s2, D3DInit Native.rejects_empty_texture 99 (World.empty Var) = (Except.ok (), s1) ∧
      D3DResize Native.rejects_empty_texture 640 480 s1 = (Except.ok (), s2) ∧
      is_valid Var.m_rtv s2 = true ∧ is_valid Var.m_dsv s2 = true ∧
      is_valid Var.m_dsvbuffer s2 = true ∧
      ∃ desc : TEXTURE2D_DESC,
        desc.Width =
          (Native.rejects_empty_texture.GetDesc
            (Native.rejects_empty_texture.GetBuffer (winapi Var.m_swapchain s1) 0).2).Width ∧
        desc.Height =
          (Native.rejects_empty_texture.GetDesc
            (Native.rejects_empty_texture.GetBuffer (winapi Var.m_swapchain s1) 0).2).Height ∧
        winapi Var.m_dsvbuffer s2 =
          (Native.rejects_empty_texture.CreateTexture2D (device.winapi m_device s1) desc).2 ∧
        ∀ dev d, Call.CreateTexture2D dev d ∈ s2.trace.drop s1.trace.length ↔
          (dev = device.winapi m_device s1 ∧ d = desc) :=
  init_then_resize_views_valid Native.rejects_empty_texture Native.rejects_empty_texture 99 640 480
    (World.empty Var) 0 0 0 0 0 0 0 0 1 2 3 4 5 6 7 8 640 480
    rfl (by decide) (by decide) rfl (by decide) (by decide) (by decide) rfl (by decide) (by decide)
    rfl (by decide) rfl (by decide) (by decide) rfl (by decide) (by decide)
    rfl (by decide) rfl (by decide) rfl (by decide) (by decide) rfl (by decide) (by decide)

/-! ## Assignment, validity and adoption: C14 to C17, and C20 -/

section comobj_theorems2

variable {α : Type} [DecidableEq α]

/-- C14: copy assignment `t = c` between two distinct wrappers, `t` holding `a`
and `c` holding `b` (either may be null, and a held `a` has a count of at least
one), issues `Release a` when `a` is not null and then `AddRef b` when `b` is
not null; afterwards both hold `b`; for `a ≠ b` the count of `a` is one lower
and the count of `b` one higher, no other count moves, and for `a = b` every
count is as before. -/
theorem copy_assign_releases_then_retains (s : World α) (t c : α) (a b : Handle)
    (ht : s.mem t = a) (hc : s.mem c = b) (htc : t ≠ c) (ha : a ≠ nullptr → 1 ≤ s.refs a) :
    winapi t (copy_assign t c s) = b ∧
    winapi c (copy_assign t c s) = b ∧
    (copy_assign t c s).trace =
      s.trace ++ (if a ≠ nullptr then [Call.Release a] else []) ++
        (if b ≠ nullptr then [Call.AddRef b] else []) ∧
    (a ≠ b → a ≠ nullptr → (copy_assign t c s).refs a = s.refs a - 1) ∧
    (a ≠ b → b ≠ nullptr → (copy_assign t c s).refs b = s.refs b + 1) ∧
    (∀ q, q ≠ a → q ≠ b → (copy_assign t c s).refs q = s.refs q) ∧
    (a = b → (copy_assign t c s).refs = s.refs) := by
  have hct : c ≠ t := fun e => htc e.symm
  subst ht
  subst hc
  by_cases h1 : nullptr = s.mem t
  · by_cases h2 : nullptr = s.mem c
    · simp [copy_assign, release, reclaim, winapi, World.store, htc, hct, h1.symm, h2.symm]
    · have h2' : ¬ s.mem c = nullptr := fun e => h2 e.symm
      simp [copy_assign, release, reclaim, winapi, World.store, World.AddRef, htc, hct, h1.symm,
        h2, h2']
      intro q _ hq
      simp [Function.update, hq]
  · have h1' : ¬ s.mem t = nullptr := fun e => h1 e.symm
    have hpos := ha h1'
    by_cases h2 : nullptr = s.mem c
    · have h3 : ¬ s.mem t = s.mem c := fun e => h1 (e ▸ h2)
      simp [copy_assign, release, reclaim, winapi, World.store, World.Release, htc, hct, h1, h1',
        h2.symm, h3]
      intro q hq _
      simp [Function.update, hq]
    · have h2' : ¬ s.mem c = nullptr := fun e => h2 e.symm
      simp [copy_assign, release, reclaim, winapi, World.store, World.Release, World.AddRef, htc,
        hct, h1, h1', h2, h2']
      refine ⟨?_, ?_, ?_, ?_⟩
      · intro hne
        have : ¬ s.mem c = s.mem t := fun e => hne e.symm
        simp [Function.update, hne, this]
      · intro hne
        have : ¬ s.mem c = s.mem t := fun e => hne e.symm
        simp [Function.update, hne, this]
      · intro q hq hq2
        simp [Function.update, hq, hq2]
      · intro e
        funext q
        by_cases hq : q = s.mem c
        · subst hq
          simp [Function.update, e]
          rw [e] at hpos
          omega
        · have : ¬ q = s.mem t := e ▸ hq
          simp [Function.update, hq, this]

/-- C15: self-assignment, by copy or by move, of a wrapper or of a composite
device, leaves the world as it was: the held pointer, every count, and the
trace, to which neither an `AddRef` nor a `Release` is added. -/
theorem self_assignment_is_no_op (s : World α) (w : α) (d : device α) :
    copy_assign w w s = s ∧ move_assign w w s = s ∧
    device.copy_assign d d s = s ∧ device.move_assign d d s = s := by
  simp [copy_assign, move_assign, device.copy_assign, device.move_assign]

/-- C16: `is_valid()` is true exactly when `winapi()` is not null; a
default-constructed wrapper and a wrapper constructed from the null pointer are
invalid, and that construction changes no count and issues no call.  Both
queries are functions of the world that return no new world, and the statement
reading `winapi()` leaves the world as it was. -/
theorem is_valid_iff_held_handle_non_null (s : World α) (a : α) :
    (is_valid a s = true ↔ winapi a s ≠ nullptr) ∧
    is_valid a (default_ctor a s) = false ∧
    is_valid a (ctor a nullptr s) = false ∧
    (ctor a nullptr s).refs = s.refs ∧
    (ctor a nullptr s).trace = s.trace ∧
    Exec.read a s = (Except.ok (winapi a s), s) := by
  refine ⟨?_, ?_, ?_, ?_, ?_, rfl⟩
  · simp [is_valid, winapi]
    constructor <;> intro h e <;> exact h e.symm
  · simp [is_valid, default_ctor, World.store]
  · simp [is_valid, ctor, reclaim, World.store]
  · simp [ctor, reclaim, World.store]
  · simp [ctor, reclaim, World.store]

/-- C17: `make_comobj` on a non-null `p` of count `n ≥ 1` is the constructor of
the local, then `p->Release()`, then the move into the returned object and the
destruction of the local; the count of `p` is `n`, then `n + 1` after the
constructor, then `n` after the release and to the end, the `AddRef` being issued
before the `Release`; it is positive at every one of these points. -/
theorem make_comobj_count_never_zero (s : World α) (ret r : α) (p : Handle) (n : Nat)
    (hp : p ≠ nullptr) (hn : s.refs p = n) (h1 : 1 ≤ n) (hr : ret ≠ r) :
    make_comobj ret r p s = dtor r (move_ctor ret r ((ctor r p s).Release p)) ∧
    (ctor r p s).refs p = n + 1 ∧
    ((ctor r p s).Release p).refs p = n ∧
    (move_ctor ret r ((ctor r p s).Release p)).refs p = n ∧
    (dtor r (move_ctor ret r ((ctor r p s).Release p))).refs p = n ∧
    (ctor r p s).trace = s.trace ++ [Call.AddRef p] ∧
    ((ctor r p s).Release p).trace = s.trace ++ [Call.AddRef p, Call.Release p] ∧
    (make_comobj ret r p s).trace = s.trace ++ [Call.AddRef p, Call.Release p] ∧
    0 < s.refs p ∧ 0 < (ctor r p s).refs p ∧ 0 < ((ctor r p s).Release p).refs p ∧
    0 < (move_ctor ret r ((ctor r p s).Release p)).refs p ∧
    0 < (make_comobj ret r p s).refs p := by
  have hp2 : nullptr ≠ p := fun h => hp h.symm
  have hr2 : r ≠ ret := fun h => hr h.symm
  subst hn
  simp [make_comobj, ctor, reclaim, release, move_ctor, dtor, World.store,
    World.AddRef, World.Release, hp2, hr, hr2]
  omega

end comobj_theorems2

/-- C20: `release()` on a composite device holding the device `d` and, in its
context wrapper, the context `c` (different objects, both non-null) leaves the
device invalid, lowers the count of `d` by one with one `Release d`, and leaves
the context wrapper holding `c`, valid, with the count of `c` as before. -/
theorem device_release_keeps_context {α : Type} [DecidableEq α] (s : World α) (this : device α)
    (d c : Handle) (hd : s.mem this.m_device = d) (hc : s.mem this.m_context = c)
    (hd0 : d ≠ nullptr) (hc0 : c ≠ nullptr) (hdc : d ≠ c)
    (haddr : this.m_device ≠ this.m_context) :
    device.is_valid this (device.release this s) = false ∧
    (device.release this s).refs d = s.refs d - 1 ∧
    (device.release this s).trace = s.trace ++ [Call.Release d] ∧
    winapi (device.immediate_context this) (device.release this s) = c ∧
    is_valid (device.immediate_context this) (device.release this s) = true ∧
    (device.release this s).refs c = s.refs c := by
  have hd0' : nullptr ≠ d := fun e => hd0 e.symm
  have hc0' : nullptr ≠ c := fun e => hc0 e.symm
  have hcd : ¬ c = d := fun e => hdc e.symm
  have haddr' : ¬ this.m_context = this.m_device := fun e => haddr e.symm
  subst hd
  subst hc
  simp [device.is_valid, device.release, device.immediate_context, winapi, is_valid, World.store,
    World.Release, hd0', hc0', haddr, haddr', Function.update, hcd]


/-! ## Sequences whose first statement is known -/

/-- A sequence whose first statement is known to return runs the rest in the world it leaves. -/
theorem seq_eq_of_run {α β γ : Type} {m : Exec α β} {f : β → Exec α γ} {s s1 : World α} {b : β}
    (h : m s = (Except.ok b, s1)) : Exec.seq m f s = f b s1 := by
  simp [Exec.seq, h]

/-- The trace of a sequence starts with the trace its first statement leaves, however that
statement ends. -/
theorem seq_trace_of_state {α β γ : Type} (m : Exec α β) (f : β → Exec α γ) (s s1 : World α)
    (hm : (m s).2 = s1) (hf : ∀ b, (f b).Extends) :
    ∃ l, (Exec.seq m f s).2.trace = s1.trace ++ l := by
  unfold Exec.seq
  rcases hms : m s with ⟨r, s2⟩
  rw [hms] at hm
  dsimp only at hm
  subst hm
  cases r with
  | error e => exact ⟨[], by simp⟩
  | ok b => exact hf b s2

/-- The calls of a sequence whose first statement leaves exactly one more call `c`,
however it ends, start with `c`. -/
theorem seq_trace_after_call {α β γ : Type} (m : Exec α β) (f : β → Exec α γ) (s : World α)
    (c : Call) (hm : (m s).2 = s.emit c) (hf : ∀ b, (f b).Extends) :
    ∃ l, (Exec.seq m f s).2.trace = s.trace ++ c :: l := by
  obtain ⟨l, hl⟩ := seq_trace_of_state m f s _ hm hf
  exact ⟨l, by rw [hl]; simp [World.emit]⟩

/-- The world `swapchain::resize` leaves, whether or not the native call succeeds. -/
theorem swapchain.resize_state {α : Type} [DecidableEq α] (nat : Native) (this : α)
    (width height buffer_count new_format flags : Nat) (s : World α) (h : s.mem this ≠ nullptr) :
    (swapchain.resize nat this width height buffer_count new_format flags s).2 =
      s.emit (Call.ResizeBuffers (s.mem this) buffer_count width height new_format flags) := by
  simp only [swapchain.resize, Exec.bind_def]
  rw [seq_deref _ _ _ h, seq_call]
  unfold Exec.check
  cases throw_if_failed nat (nat.ResizeBuffers (s.mem this) buffer_count width height new_format flags) <;> rfl

/-! ## Adapter enumeration: C12 and C19 -/

section adapters_theorems
set_option linter.unusedSectionVars false
variable {α : Type} [DecidableEq α]

/-- The constructor from a non-null pointer stores it and retains it. -/
theorem ctor_eq (s : World α) (a : α) (p : Handle) (hp : p ≠ nullptr) :
    ctor a p s = (s.store a p).AddRef p := by
  have hp' : nullptr ≠ p := fun e => hp e.symm
  simp [ctor, reclaim, store_mem, hp']

/-- Copy construction from another wrapper that holds a non-null pointer. -/
theorem copy_ctor_eq (s : World α) (a c : α) (h : a ≠ c) (hp : s.mem c ≠ nullptr) :
    copy_ctor a c s = (s.store a (s.mem c)).AddRef (s.mem c) := by
  have hp' : nullptr ≠ s.mem c := fun e => hp e.symm
  have hca : ¬ c = a := fun e => h e.symm
  simp [copy_ctor, release, reclaim, store_mem, hca, hp', World.store]

/-- Destruction of a wrapper that holds a non-null pointer. -/
theorem dtor_eq (s : World α) (a : α) (hp : s.mem a ≠ nullptr) :
    dtor a s = (s.Release (s.mem a)).store a nullptr := by
  have hp' : nullptr ≠ s.mem a := fun e => hp e.symm
  simp [dtor, release, hp']

theorem copy_elements_succ (elem : Nat → Nat → α) (gen j : Nat) (s : World α) :
    vector.copy_elements elem gen (j + 1) s =
      copy_ctor (elem (gen + 1) j) (elem gen j) (vector.copy_elements elem gen j s) := by
  simp [vector.copy_elements, List.range_succ, List.foldl_append]

theorem destroy_elements_succ (elem : Nat → Nat → α) (gen j : Nat) (s : World α) :
    vector.destroy_elements elem gen (j + 1) s =
      dtor (elem gen j) (vector.destroy_elements elem gen j s) := by
  simp [vector.destroy_elements, List.range_succ, List.foldl_append]

/-- The number of indices below `j` at which `a` is `q`. -/
theorem countP_range_succ (a : Nat → Handle) (q : Handle) (j : Nat) :
    (List.range (j + 1)).countP (fun i => decide (a i = q)) =
      (List.range j).countP (fun i => decide (a i = q)) + (if a j = q then 1 else 0) := by
  simp [List.range_succ, List.countP_append, List.countP_cons]

/-- Copying the first `j` elements of a block into the next block: the copies
hold what the originals hold, nothing else is written, each copy retains its
pointer, and only `AddRef` calls are issued. -/
theorem copy_elements_spec (elem : Nat → Nat → α)
    (helem : ∀ g i g2 i2, elem g i = elem g2 i2 → g = g2 ∧ i = i2)
    (gen k : Nat) (a : Nat → Handle) (s : World α)
    (ha : ∀ i, i < k → a i ≠ nullptr) (hs : ∀ i, i < k → s.mem (elem gen i) = a i) :
    ∀ j, j ≤ k →
      (∀ i, i < j → (vector.copy_elements elem gen j s).mem (elem (gen + 1) i) = a i) ∧
      (∀ b, (∀ i, i < j → b ≠ elem (gen + 1) i) →
        (vector.copy_elements elem gen j s).mem b = s.mem b) ∧
      (∀ q, (vector.copy_elements elem gen j s).refs q =
        s.refs q + (List.range j).countP (fun i => decide (a i = q))) ∧
      ∃ l, (vector.copy_elements elem gen j s).trace = s.trace ++ l ∧
        l.filter Call.isEnumAdapters = [] := by
  intro j
  induction j with
  | zero =>
    intro _
    refine ⟨fun i hi => by omega, fun b _ => rfl, fun q => by simp [vector.copy_elements],
      ⟨[], by simp [vector.copy_elements], rfl⟩⟩
  | succ j ih =>
    intro hj
    obtain ⟨m1, f1, r1, l, t1, e1⟩ := ih (by omega)
    have hsrc : (vector.copy_elements elem gen j s).mem (elem gen j) = a j := by
      rw [f1 _ (fun i _ e => by have := (helem _ _ _ _ e).1; omega)]
      exact hs j (by omega)
    have hne : elem (gen + 1) j ≠ elem gen j := fun e => by
      have := (helem _ _ _ _ e).1
      omega
    have haj := ha j (by omega)
    rw [copy_elements_succ, copy_ctor_eq _ _ _ hne (by rw [hsrc]; exact haj), hsrc]
    refine ⟨?_, ?_, ?_, ?_⟩
    · intro i hi
      by_cases hij : i = j
      · subst hij
        simp [World.AddRef, store_mem]
      · have hne2 : elem (gen + 1) i ≠ elem (gen + 1) j := fun e => hij (helem _ _ _ _ e).2
        simp [World.AddRef, store_mem, hne2]
        exact m1 i (by omega)
    · intro b hb
      have hbj := hb j (by omega)
      simp [World.AddRef, store_mem, hbj]
      exact f1 b (fun i hi => hb i (by omega))
    · intro q
      rw [countP_range_succ]
      by_cases hq : a j = q
      · subst hq
        simp [World.AddRef, World.store, r1]
        omega
      · have hq' : ¬ q = a j := fun e => hq e.symm
        simp [World.AddRef, World.store, Function.update, hq, hq', r1]
    · refine ⟨l ++ [Call.AddRef (a j)], ?_, ?_⟩
      · simp [World.AddRef, World.store, t1]
      · simp [List.filter_append, e1, Call.isEnumAdapters]

/-- Destroying the first `j` elements of a block: they hold nothing afterwards,
nothing else is written, each gives up the reference to its pointer, and only
`Release` calls are issued. -/
theorem destroy_elements_spec (elem : Nat → Nat → α)
    (helem : ∀ g i g2 i2, elem g i = elem g2 i2 → g = g2 ∧ i = i2)
    (gen k : Nat) (a : Nat → Handle) (s : World α)
    (ha : ∀ i, i < k → a i ≠ nullptr) (hs : ∀ i, i < k → s.mem (elem gen i) = a i) :
    ∀ j, j ≤ k →
      (∀ i, i < j → (vector.destroy_elements elem gen j s).mem (elem gen i) = nullptr) ∧
      (∀ b, (∀ i, i < j → b ≠ elem gen i) →
        (vector.destroy_elements elem gen j s).mem b = s.mem b) ∧
      (∀ q, (vector.destroy_elements elem gen j s).refs q =
        s.refs q - (List.range j).countP (fun i => decide (a i = q))) ∧
      ∃ l, (vector.destroy_elements elem gen j s).trace = s.trace ++ l ∧
        l.filter Call.isEnumAdapters = [] := by
  intro j
  induction j with
  | zero =>
    intro _
    refine ⟨fun i hi => by omega, fun b _ => rfl, fun q => by simp [vector.destroy_elements],
      ⟨[], by simp [vector.destroy_elements], rfl⟩⟩
  | succ j ih =>
    intro hj
    obtain ⟨m1, f1, r1, l, t1, e1⟩ := ih (by omega)
    have hsrc : (vector.destroy_elements elem gen j s).mem (elem gen j) = a j := by
      rw [f1 _ (fun i hi e => by have := (helem _ _ _ _ e).2; omega)]
      exact hs j (by omega)
    have haj := ha j (by omega)
    rw [destroy_elements_succ, dtor_eq _ _ (by rw [hsrc]; exact haj), hsrc]
    refine ⟨?_, ?_, ?_, ?_⟩
    · intro i hi
      by_cases hij : i = j
      · subst hij
        simp [store_mem]
      · have hne2 : elem gen i ≠ elem gen j := fun e => hij (helem _ _ _ _ e).2
        simp [World.Release, store_mem, hne2]
        exact m1 i (by omega)
    · intro b hb
      have hbj := hb j (by omega)
      simp [World.Release, store_mem, hbj]
      exact f1 b (fun i hi => hb i (by omega))
    · intro q
      rw [countP_range_succ]
      by_cases hq : a j = q
      · subst hq
        simp [World.Release, World.store, r1]
        omega
      · have hq' : ¬ q = a j := fun e => hq e.symm
        simp [World.Release, World.store, Function.update, hq, hq', r1]
    · refine ⟨l ++ [Call.Release (a j)], ?_, ?_⟩
      · simp [World.Release, World.store, t1]
      · simp [List.filter_append, e1, Call.isEnumAdapters]

/-- The reallocating `emplace_back`: the new block holds the old elements and
the new one, the old block holds nothing, no other wrapper is written, the
only count that moves is that of the new pointer, up by one, and no
enumeration call is issued. -/
theorem emplace_back_reallocating_spec (elem : Nat → Nat → α)
    (helem : ∀ g i g2 i2, elem g i = elem g2 i2 → g = g2 ∧ i = i2)
    (gen k : Nat) (a : Nat → Handle) (p : Handle) (s : World α)
    (ha : ∀ i, i < k → a i ≠ nullptr) (hp : p ≠ nullptr)
    (hs : ∀ i, i < k → s.mem (elem gen i) = a i) :
    (∀ i, i < k → (vector.emplace_back_reallocating elem gen k p s).mem (elem (gen + 1) i) = a i) ∧
    (vector.emplace_back_reallocating elem gen k p s).mem (elem (gen + 1) k) = p ∧
    (∀ b, (∀ g i, b ≠ elem g i) → (vector.emplace_back_reallocating elem gen k p s).mem b = s.mem b) ∧
    (vector.emplace_back_reallocating elem gen k p s).refs = (s.AddRef p).refs ∧
    ∃ l, (vector.emplace_back_reallocating elem gen k p s).trace = s.trace ++ l ∧
      l.filter Call.isEnumAdapters = [] := by
  unfold vector.emplace_back_reallocating
  rw [ctor_eq _ _ _ hp]
  have hne : ∀ i, elem gen i ≠ elem (gen + 1) k := fun i e => by
    have := (helem _ _ _ _ e).1
    omega
  have hs0 : ∀ i, i < k → ((s.store (elem (gen + 1) k) p).AddRef p).mem (elem gen i) = a i := by
    intro i hi
    simp [World.AddRef, store_mem, hne i]
    exact hs i hi
  obtain ⟨m1, f1, r1, l1, t1, e1⟩ := copy_elements_spec elem helem gen k a _ ha hs0 k (le_refl k)
  have hs1 : ∀ i, i < k →
      (vector.copy_elements elem gen k ((s.store (elem (gen + 1) k) p).AddRef p)).mem (elem gen i) =
        a i := by
    intro i hi
    rw [f1 _ (fun j _ e => by have := (helem _ _ _ _ e).1; omega)]
    exact hs0 i hi
  obtain ⟨m2, f2, r2, l2, t2, e2⟩ := destroy_elements_spec elem helem gen k a _ ha hs1 k (le_refl k)
  refine ⟨?_, ?_, ?_, ?_, ?_⟩
  · intro i hi
    rw [f2 _ (fun j _ e => by have := (helem _ _ _ _ e).1; omega)]
    exact m1 i hi
  · rw [f2 _ (fun j _ e => by have := (helem _ _ _ _ e).1; omega),
      f1 _ (fun j hj e => by have := (helem _ _ _ _ e).2; omega)]
    simp [World.AddRef, store_mem]
  · intro b hb
    rw [f2 _ (fun j _ => hb _ _), f1 _ (fun j _ => hb _ _)]
    simp [World.AddRef, store_mem, hb]
  · funext q
    rw [r2, r1]
    simp [World.AddRef, World.store]
  · refine ⟨Call.AddRef p :: (l1 ++ l2), ?_, ?_⟩
    · rw [t2, t1]
      simp [World.AddRef, World.store]
    · simp [List.filter_append, e1, e2, Call.isEnumAdapters]

/-- One test of the loop condition of `adapters()`, unfolded. -/
theorem adapters_loop_succ (nat : Native) (grow : Nat → Nat) (elem : Nat → Nat → α) (this : α)
    (fuel id size cap gen : Nat) (s : World α) :
    factory.adapters_loop nat grow elem this (fuel + 1) id size cap gen s =
      if nullptr ≠ s.mem this then
        if (nat.EnumAdapters (s.mem this) id).1 ≠ DXGI_ERROR_NOT_FOUND then
          if size < cap then
            if nullptr ≠ (nat.EnumAdapters (s.mem this) id).2 then
              factory.adapters_loop nat grow elem this fuel ((id + 1) % 2 ^ 32) (size + 1) cap gen
                ((ctor (elem gen size) (nat.EnumAdapters (s.mem this) id).2
                  ((s.emit (Call.EnumAdapters (s.mem this) id)).handout
                    (nat.EnumAdapters (s.mem this) id).2)).Release (nat.EnumAdapters (s.mem this) id).2)
            else
              (Except.error Abort.undefined, ctor (elem gen size) (nat.EnumAdapters (s.mem this) id).2
                ((s.emit (Call.EnumAdapters (s.mem this) id)).handout
                  (nat.EnumAdapters (s.mem this) id).2))
          else
            if nullptr ≠ (nat.EnumAdapters (s.mem this) id).2 then
              factory.adapters_loop nat grow elem this fuel ((id + 1) % 2 ^ 32) (size + 1) (grow cap)
                (gen + 1)
                ((vector.emplace_back_reallocating elem gen size (nat.EnumAdapters (s.mem this) id).2
                  ((s.emit (Call.EnumAdapters (s.mem this) id)).handout
                    (nat.EnumAdapters (s.mem this) id).2)).Release (nat.EnumAdapters (s.mem this) id).2)
            else
              (Except.error Abort.undefined,
                vector.emplace_back_reallocating elem gen size (nat.EnumAdapters (s.mem this) id).2
                  ((s.emit (Call.EnumAdapters (s.mem this) id)).handout
                    (nat.EnumAdapters (s.mem this) id).2))
        else
          (Except.ok (some (size, gen)), (s.emit (Call.EnumAdapters (s.mem this) id)).handout
            (nat.EnumAdapters (s.mem this) id).2)
      else (Except.error Abort.undefined, s) := by
  rw [factory.adapters_loop]
  by_cases h : nullptr = s.mem this
  · simp [Exec.bind_def, Exec.seq, Exec.deref, h.symm]
  · by_cases h2 : (nat.EnumAdapters (s.mem this) id).1 = DXGI_ERROR_NOT_FOUND
    · simp [Exec.bind_def, Exec.pure_def, Exec.seq, Exec.deref, Exec.call, Exec.step, Exec.ret, h, h2]
    · by_cases h4 : size < cap
      · by_cases h3 : nullptr = (nat.EnumAdapters (s.mem this) id).2
        · simp [Exec.bind_def, Exec.seq, Exec.deref, Exec.call, Exec.step, Exec.raw_release, h, h2,
            h3.symm, h4]
        · simp [Exec.bind_def, Exec.seq, Exec.deref, Exec.call, Exec.step, Exec.raw_release, h, h2,
            h3, h4]
      · by_cases h3 : nullptr = (nat.EnumAdapters (s.mem this) id).2
        · simp [Exec.bind_def, Exec.seq, Exec.deref, Exec.call, Exec.step, Exec.raw_release, h, h2,
            h3.symm, h4]
        · simp [Exec.bind_def, Exec.seq, Exec.deref, Exec.call, Exec.step, Exec.raw_release, h, h2,
            h3, h4]

/-- No run of `adapters()` ends by throwing: the status of `EnumAdapters` is only
compared with `DXGI_ERROR_NOT_FOUND`, never passed to `throw_if_failed`. -/
theorem adapters_never_throws (nat : Native) (grow : Nat → Nat) (elem : Nat → Nat → α) (this : α)
    (fuel : Nat) :
    ∀ (id size cap gen : Nat) (s : World α) (e : runtime_error),
      (factory.adapters_loop nat grow elem this fuel id size cap gen s).1 ≠
        Except.error (Abort.thrown e) := by
  induction fuel with
  | zero =>
    intro id size cap gen s e
    simp [factory.adapters_loop, Exec.pure_def, Exec.ret]
  | succ fuel ih =>
    intro id size cap gen s e
    rw [adapters_loop_succ]
    split_ifs
    · exact ih _ _ _ _ _ e
    · simp
    · exact ih _ _ _ _ _ e
    · simp
    · simp
    · simp

/-- Handing out references changes counts only: the counts after a run of
hand-outs depend on the counts before it alone. -/
theorem foldl_handout_refs (f : Nat → Handle) (l : List Nat) :
    ∀ (w v : World α), w.refs = v.refs →
      (List.foldl (fun w i => w.handout (f i)) w l).refs =
        (List.foldl (fun w i => w.handout (f i)) v l).refs := by
  induction l with
  | nil => intro w v h; simpa using h
  | cons i l ih =>
    intro w v h
    simp only [List.foldl_cons]
    apply ih
    by_cases hp : nullptr = f i
    · simp [World.handout, hp.symm, h]
    · simp [World.handout, hp, h]

/-- The loop of `adapters()`, entered with `id = size = k` and the `k` elements
enumerated so far in the block `g`, when the enumeration succeeds at the
indices `k`, ..., `n - 1` and answers `DXGI_ERROR_NOT_FOUND` at `n`. -/
theorem adapters_loop_spec (nat : Native) (grow : Nat → Nat) (elem : Nat → Nat → α) (this : α)
    (fac : Handle) (n : Nat)
    (hfac : fac ≠ nullptr) (helem : ∀ g i g2 i2, elem g i = elem g2 i2 → g = g2 ∧ i = i2)
    (hne : ∀ g i, elem g i ≠ this) (hn : n < 2 ^ 32)
    (hok : ∀ i, i < n → 0 ≤ (nat.EnumAdapters fac i).1 ∧ (nat.EnumAdapters fac i).2 ≠ nullptr)
    (hend : (nat.EnumAdapters fac n).1 = DXGI_ERROR_NOT_FOUND) :
    ∀ (d k fuel cap g : Nat) (s : World α), k + d = n → d < fuel → s.mem this = fac →
      (∀ i, i < k → s.mem (elem g i) = (nat.EnumAdapters fac i).2) →
      ∃ g1 s1, factory.adapters_loop nat grow elem this fuel k k cap g s =
          (Except.ok (some (n, g1)), s1) ∧
        (∀ i, i < n → s1.mem (elem g1 i) = (nat.EnumAdapters fac i).2) ∧
        (∃ l, s1.trace = s.trace ++ l ∧
          l.filter Call.isEnumAdapters =
            (List.range' k (d + 1)).map (fun i => Call.EnumAdapters fac i)) ∧
        s1.refs = (List.foldl (fun w i => w.handout (nat.EnumAdapters fac i).2) s
          (List.range' k (d + 1))).refs := by
  have hfac' : nullptr ≠ fac := fun e => hfac e.symm
  intro d
  induction d with
  | zero =>
    intro k fuel cap g s hk hfuel hs hel
    obtain ⟨fuel, rfl⟩ : ∃ f, fuel = f + 1 := ⟨fuel - 1, by omega⟩
    have hkn : k = n := by omega
    subst hkn
    rw [adapters_loop_succ]
    refine ⟨g, (s.emit (Call.EnumAdapters fac k)).handout (nat.EnumAdapters fac k).2, ?_, ?_, ?_, ?_⟩
    · simp [hs, hfac', hend]
    · intro i hi
      simp [handout_mem, emit_mem]
      exact hel i hi
    · exact ⟨[Call.EnumAdapters fac k], by simp [handout_trace, emit_trace],
        by simp [Call.isEnumAdapters, List.range'_succ]⟩
    · simp [List.range'_succ]
      by_cases hp : nullptr = (nat.EnumAdapters fac k).2
      · simp [World.handout, World.emit, hp.symm]
      · simp [World.handout, World.emit, hp]
  | succ d ih =>
    intro k fuel cap g s hk hfuel hs hel
    obtain ⟨fuel, rfl⟩ : ∃ f, fuel = f + 1 := ⟨fuel - 1, by omega⟩
    have hkn : k < n := by omega
    obtain ⟨hst, hp⟩ := hok k hkn
    have hp' : nullptr ≠ (nat.EnumAdapters fac k).2 := fun e => hp e.symm
    have hnf : (nat.EnumAdapters fac k).1 ≠ DXGI_ERROR_NOT_FOUND := by
      intro e
      rw [e] at hst
      simp [DXGI_ERROR_NOT_FOUND] at hst
    have hmod : (k + 1) % 2 ^ 32 = k + 1 := Nat.mod_eq_of_lt (by omega)
    -- what the rest of the loop gives, from the world the body leaves
    have finish : ∀ (cap2 g2 : Nat) (s2 : World α), s2.mem this = fac →
        (∀ i, i < k + 1 → s2.mem (elem g2 i) = (nat.EnumAdapters fac i).2) →
        (∃ l, s2.trace = s.trace ++ Call.EnumAdapters fac k :: l ∧
          l.filter Call.isEnumAdapters = []) →
        s2.refs = (s.handout (nat.EnumAdapters fac k).2).refs →
        ∃ g1 s1, factory.adapters_loop nat grow elem this fuel (k + 1) (k + 1) cap2 g2 s2 =
            (Except.ok (some (n, g1)), s1) ∧
          (∀ i, i < n → s1.mem (elem g1 i) = (nat.EnumAdapters fac i).2) ∧
          (∃ l, s1.trace = s.trace ++ l ∧
            l.filter Call.isEnumAdapters =
              (List.range' k (d + 1 + 1)).map (fun i => Call.EnumAdapters fac i)) ∧
          s1.refs = (List.foldl (fun w i => w.handout (nat.EnumAdapters fac i).2) s
            (List.range' k (d + 1 + 1))).refs := by
      intro cap2 g2 s2 f1 f2 f3 f4
      obtain ⟨g1, s1, e1, m1, ⟨l1, t1, c1⟩, r1⟩ := ih (k + 1) fuel cap2 g2 s2 (by omega) (by omega)
        f1 f2
      obtain ⟨l2, t2, c2⟩ := f3
      refine ⟨g1, s1, e1, m1, ⟨Call.EnumAdapters fac k :: (l2 ++ l1), ?_, ?_⟩, ?_⟩
      · rw [t1, t2]
        simp
      · rw [List.range'_succ (n := d + 1)]
        simp [List.filter_cons, List.filter_append, Call.isEnumAdapters, c1, c2]
      · rw [r1, List.range'_succ (n := d + 1)]
        simp only [List.foldl_cons]
        exact foldl_handout_refs _ _ _ _ f4
    rw [adapters_loop_succ]
    simp only [hs, hfac', hnf, hp', hmod, if_true, ne_eq, not_false_eq_true]
    have hthis : ∀ g i, this ≠ elem g i := fun g i e => hne g i e.symm
    by_cases hcap : k < cap
    · simp only [hcap, if_true]
      refine finish cap g _ ?_ ?_ ?_ ?_
      · simp [World.Release, ctor, reclaim_mem, store_mem, handout_mem, emit_mem, hs, hthis]
      · intro i hi
        by_cases hik : i = k
        · subst hik
          simp [World.Release, ctor, reclaim_mem, store_mem]
        · have hne2 : elem g i ≠ elem g k := fun e => hik (helem _ _ _ _ e).2
          simp [World.Release, ctor, reclaim_mem, store_mem, handout_mem, emit_mem, hne2]
          exact hel i (by omega)
      · refine ⟨[Call.AddRef (nat.EnumAdapters fac k).2, Call.Release (nat.EnumAdapters fac k).2],
          ?_, by simp [Call.isEnumAdapters]⟩
        simp [World.Release, ctor, reclaim_trace, store_mem, store_trace, handout_trace, emit_trace,
          hp']
      · funext q
        by_cases hq : q = (nat.EnumAdapters fac k).2
        · subst hq
          simp [World.Release, World.AddRef, World.handout, World.emit, World.store, ctor, reclaim, hp']
        · simp [World.Release, World.AddRef, World.handout, World.emit, World.store, ctor, reclaim,
            hp', Function.update, hq]
    · simp only [hcap, if_false]
      have hel0 : ∀ i, i < k →
          ((s.emit (Call.EnumAdapters fac k)).handout (nat.EnumAdapters fac k).2).mem (elem g i) =
            (nat.EnumAdapters fac i).2 := by
        intro i hi
        simp [handout_mem, emit_mem]
        exact hel i hi
      obtain ⟨m1, m2, m3, r1, l1, t1, c1⟩ := emplace_back_reallocating_spec elem helem g k
        (fun i => (nat.EnumAdapters fac i).2) (nat.EnumAdapters fac k).2
        ((s.emit (Call.EnumAdapters fac k)).handout (nat.EnumAdapters fac k).2)
        (fun i hi => (hok i (by omega)).2) hp hel0
      refine finish (grow cap) (g + 1) _ ?_ ?_ ?_ ?_
      · simp only [World.Release]
        rw [m3 this hthis]
        simp [handout_mem, emit_mem, hs]
      · intro i hi
        simp only [World.Release]
        by_cases hik : i = k
        · subst hik
          exact m2
        · exact m1 i (by omega)
      · refine ⟨l1 ++ [Call.Release (nat.EnumAdapters fac k).2], ?_,
          by simp [List.filter_append, c1, Call.isEnumAdapters]⟩
        simp [World.Release, t1, handout_trace, emit_trace]
      · funext q
        simp only [World.Release, r1]
        by_cases hq : q = (nat.EnumAdapters fac k).2
        · subst hq
          simp [World.AddRef, World.handout, World.emit, hp']
        · simp [World.AddRef, World.handout, World.emit, hp', Function.update, hq]

end adapters_theorems

/-- C12, at the failing input: the enumeration fails with `DXGI_ERROR_INVALID_CALL`,
a failure code other than the sentinel, and stores no adapter.  `adapters()` does
not throw: it goes on into the loop body and calls `Release` through the null
`pAdapter`, whatever the growth policy of the vector and wherever its elements
live.  The sibling `default_adapter()` throws the error carrying the status. -/
theorem adapters_ignores_failed_enumeration (grow : Nat → Nat) (elem : Nat → Nat → Nat) :
    FAILED DXGI_ERROR_INVALID_CALL = true ∧
    DXGI_ERROR_INVALID_CALL ≠ DXGI_ERROR_NOT_FOUND ∧
    (factory.adapters Native.failing_enumeration grow elem 0 5 World.factory_only).1 =
      Except.error Abort.undefined ∧
    (factory.adapters Native.failing_enumeration grow elem 0 5 World.factory_only).2.trace =
      [Call.EnumAdapters 1 0] ∧
    (factory.default_adapter Native.failing_enumeration 1 2 0 World.factory_only).1 =
      Except.error (Abort.thrown { what := "", m_hr := DXGI_ERROR_INVALID_CALL }) := by
  have h1 : World.factory_only.mem 0 = 1 := rfl
  have h2 : Native.failing_enumeration.EnumAdapters 1 0 = (DXGI_ERROR_INVALID_CALL, nullptr) := rfl
  have h3 : DXGI_ERROR_INVALID_CALL ≠ DXGI_ERROR_NOT_FOUND := by decide
  refine ⟨by decide, h3, ?_, ?_, rfl⟩
  · rw [factory.adapters, adapters_loop_succ, h1, h2]
    simp [h3, nullptr]
  · rw [factory.adapters, adapters_loop_succ, h1, h2]
    simp [h3, nullptr, vector.emplace_back_reallocating, vector.copy_elements,
      vector.destroy_elements, ctor, reclaim, store_mem, handout_trace, emit_trace,
      World.factory_only]
    simp [World.store, World.handout, World.emit, nullptr]

/-- C19: when the enumeration succeeds with a non-null adapter at every index
below `n` and answers `DXGI_ERROR_NOT_FOUND` at index `n` (an `UINT`), then
`adapters()`, given more than `n` tests of its loop condition, returns a list
of `n` wrappers, whatever the growth policy of the vector; the `i`-th holds the
adapter enumerated at `i` and is valid; the enumeration calls among the native
calls are exactly those at the indices `0`, ..., `n`, in this order: `n + 1`
enumeration calls; and every count ends where the references handed out by the
enumeration alone put it: what the construction, the copies and the
destructions of elements and the `Release` of each pointer add and take away
cancels. -/
theorem adapters_lists_every_adapter {α : Type} [DecidableEq α] (nat : Native) (grow : Nat → Nat)
    (elem : Nat → Nat → α) (this : α) (s : World α) (fac : Handle) (n fuel : Nat)
    (hthis : s.mem this = fac) (hfac : fac ≠ nullptr)
    (helem : ∀ g i g2 i2, elem g i = elem g2 i2 → g = g2 ∧ i = i2) (hne : ∀ g i, elem g i ≠ this)
    (hn : n < 2 ^ 32)
    (hok : ∀ i, i < n → 0 ≤ (nat.EnumAdapters fac i).1 ∧ (nat.EnumAdapters fac i).2 ≠ nullptr)
    (hend : (nat.EnumAdapters fac n).1 = DXGI_ERROR_NOT_FOUND)
    (hfuel : n < fuel) :
    ∃ gen s1, factory.adapters nat grow elem this fuel s = (Except.ok (some (n, gen)), s1) ∧
      (∀ i, i < n → winapi (elem gen i) s1 = (nat.EnumAdapters fac i).2 ∧
        is_valid (elem gen i) s1 = true) ∧
      (∃ l, s1.trace = s.trace ++ l ∧
        l.filter Call.isEnumAdapters = (List.range (n + 1)).map (fun i => Call.EnumAdapters fac i)) ∧
      (s1.trace.drop s.trace.length).countP Call.isEnumAdapters = n + 1 ∧
      s1.refs = (List.foldl (fun w i => w.handout (nat.EnumAdapters fac i).2) s
        (List.range (n + 1))).refs := by
  obtain ⟨g1, s1, e1, m1, ⟨l, t1, c1⟩, r1⟩ := adapters_loop_spec nat grow elem this fac n hfac helem
    hne hn hok hend n 0 fuel 0 0 s (by omega) hfuel hthis (fun i hi => by omega)
  rw [← List.range_eq_range'] at c1 r1
  refine ⟨g1, s1, e1, ?_, ⟨l, t1, c1⟩, ?_, r1⟩
  · intro i hi
    have h := m1 i hi
    have h2 := (hok i hi).2
    refine ⟨h, ?_⟩
    simp only [is_valid, h, decide_eq_true_eq]
    exact fun e => h2 e.symm
  · rw [t1, List.drop_left, List.countP_eq_length_filter, c1]
    simp

/-- Witness of C19: the factory `1` on a platform with the two adapters `11` and
`12`, with a vector that doubles its capacity: the second `emplace_back`
reallocates. -/
theorem adapters_lists_every_adapter_witness :
    ∃ gen s1, factory.adapters Native.two_adapters vector.doubling (fun g i => Nat.pair g i + 1) 0 5
        World.factory_only = (Except.ok (some (2, gen)), s1) ∧
      (∀ i, i < 2 → winapi ((fun g i => Nat.pair g i + 1) gen i) s1 =
          (Native.two_adapters.EnumAdapters 1 i).2 ∧
        is_valid ((fun g i => Nat.pair g i + 1) gen i) s1 = true) ∧
      (∃ l, s1.trace = World.factory_only.trace ++ l ∧
        l.filter Call.isEnumAdapters = (List.range (2 + 1)).map (fun i => Call.EnumAdapters 1 i)) ∧
      (s1.trace.drop World.factory_only.trace.length).countP Call.isEnumAdapters = 2 + 1 ∧
      s1.refs = (List.foldl (fun w i => w.handout (Native.two_adapters.EnumAdapters 1 i).2)
        World.factory_only (List.range (2 + 1))).refs :=
  adapters_lists_every_adapter Native.two_adapters vector.doubling (fun g i => Nat.pair g i + 1) 0
    World.factory_only 1 2 5
    (by decide) (by decide)
    (fun g i g2 i2 h => by simpa [Nat.pair_eq_pair] using h) (fun g i => by simp) (by norm_num)
    (fun i hi => by
      have h : i = 0 ∨ i = 1 := by omega
      rcases h with h | h <;> subst h <;> simp [Native.two_adapters, nullptr])
    (by simp [Native.two_adapters]) (by norm_num)

/-! ## Witnesses of C14, C17 and C20 -/

/-- Witness of C14: the wrapper at address `0`, holding `7`, is assigned the wrapper at
address `1`, holding `9`. -/
theorem copy_assign_releases_then_retains_witness :
    winapi 0 (copy_assign 0 1 World.pair) = 9 ∧
    winapi 1 (copy_assign 0 1 World.pair) = 9 ∧
    (copy_assign 0 1 World.pair).trace =
      World.pair.trace ++ (if (7 : Handle) ≠ nullptr then [Call.Release 7] else []) ++
        (if (9 : Handle) ≠ nullptr then [Call.AddRef 9] else []) ∧
    ((7 : Handle) ≠ 9 → (7 : Handle) ≠ nullptr → (copy_assign 0 1 World.pair).refs 7 = World.pair.refs 7 - 1) ∧
    ((7 : Handle) ≠ 9 → (9 : Handle) ≠ nullptr → (copy_assign 0 1 World.pair).refs 9 = World.pair.refs 9 + 1) ∧
    (∀ q, q ≠ 7 → q ≠ 9 → (copy_assign 0 1 World.pair).refs q = World.pair.refs q) ∧
    ((7 : Handle) = 9 → (copy_assign 0 1 World.pair).refs = World.pair.refs) :=
  copy_assign_releases_then_retains World.pair 0 1 7 9 (by decide) (by decide) (by decide)
    (fun _ => by decide)

/-- Witness of C17: handle `7` with count one is adopted into the wrapper at address `2`. -/
theorem make_comobj_count_never_zero_witness :
    make_comobj 2 3 7 World.single = dtor 3 (move_ctor 2 3 ((ctor 3 7 World.single).Release 7)) ∧
    (ctor 3 7 World.single).refs 7 = 1 + 1 ∧
    ((ctor 3 7 World.single).Release 7).refs 7 = 1 ∧
    (move_ctor 2 3 ((ctor 3 7 World.single).Release 7)).refs 7 = 1 ∧
    (dtor 3 (move_ctor 2 3 ((ctor 3 7 World.single).Release 7))).refs 7 = 1 ∧
    (ctor 3 7 World.single).trace = World.single.trace ++ [Call.AddRef 7] ∧
    ((ctor 3 7 World.single).Release 7).trace = World.single.trace ++ [Call.AddRef 7, Call.Release 7] ∧
    (make_comobj 2 3 7 World.single).trace = World.single.trace ++ [Call.AddRef 7, Call.Release 7] ∧
    0 < World.single.refs 7 ∧ 0 < (ctor 3 7 World.single).refs 7 ∧
    0 < ((ctor 3 7 World.single).Release 7).refs 7 ∧
    0 < (move_ctor 2 3 ((ctor 3 7 World.single).Release 7)).refs 7 ∧
    0 < (make_comobj 2 3 7 World.single).refs 7 :=
  make_comobj_count_never_zero World.single 2 3 7 1 (by decide) (by decide) (by decide) (by decide)

/-- Witness of C20: the device at addresses `2`, `3` of `World.devices`. -/
theorem device_release_keeps_context_witness :
    device.is_valid ⟨2, 3⟩ (device.release ⟨2, 3⟩ World.devices) = false ∧
    (device.release ⟨2, 3⟩ World.devices).refs 5 = World.devices.refs 5 - 1 ∧
    (device.release ⟨2, 3⟩ World.devices).trace = World.devices.trace ++ [Call.Release 5] ∧
    winapi (device.immediate_context ⟨2, 3⟩) (device.release ⟨2, 3⟩ World.devices) = 6 ∧
    is_valid (device.immediate_context ⟨2, 3⟩) (device.release ⟨2, 3⟩ World.devices) = true ∧
    (device.release ⟨2, 3⟩ World.devices).refs 6 = World.devices.refs 6 :=
  device_release_keeps_context World.devices ⟨2, 3⟩ 5 6 (by decide) (by decide) (by decide)
    (by decide) (by decide) (by decide)

/-! ## Reference-count conservation -/

/-- Counting the elements of a list whose images under `g` are `p`, when `g`
differs from `f` at the address `a` only. -/
theorem countP_change_one (live : List Nat) (hnd : live.Nodup) (f g : Nat → Handle) (a : Nat)
    (p : Handle) (hfg : ∀ b, b ≠ a → g b = f b) :
    live.countP (fun b => decide (g b = p)) + (if a ∈ live ∧ f a = p then 1 else 0) =
      live.countP (fun b => decide (f b = p)) + (if a ∈ live ∧ g a = p then 1 else 0) := by
  induction live with
  | nil => simp
  | cons b l ih =>
    have hbl : b ∉ l := (List.nodup_cons.mp hnd).1
    have hl : l.Nodup := (List.nodup_cons.mp hnd).2
    have ih := ih hl
    by_cases hba : b = a
    · subst hba
      simp only [hbl, false_and, if_false, Nat.add_zero] at ih
      simp only [List.countP_cons, List.mem_cons, true_or, true_and, decide_eq_true_eq, ih]
      split_ifs <;> omega
    · have hab : ¬ a = b := fun e => hba e.symm
      simp only [List.countP_cons, List.mem_cons, hab, false_or, decide_eq_true_eq, hfg b hba]
      split_ifs at ih ⊢ <;> omega

/-- What `release()` does to the count of a non-null handle. -/
theorem release_refs (s : World Nat) (a : Nat) (p : Handle) (hp : p ≠ nullptr) :
    (release a s).refs p = if s.mem a = p then s.refs p - 1 else s.refs p := by
  have hp' : ¬ nullptr = p := fun e => hp e.symm
  by_cases h2 : s.mem a = p
  · subst h2
    simp [release, hp', World.store, World.Release]
  · have h3 : ¬ p = s.mem a := fun e => h2 e.symm
    by_cases h : nullptr = s.mem a
    · simp [release, h.symm, hp']
    · simp [release, h, World.store, World.Release, h2, Function.update, h3]

/-- What `reclaim()` does to the count of a non-null handle. -/
theorem reclaim_refs (s : World Nat) (a : Nat) (p : Handle) (hp : p ≠ nullptr) :
    (reclaim a s).refs p = if s.mem a = p then s.refs p + 1 else s.refs p := by
  have hp' : ¬ nullptr = p := fun e => hp e.symm
  by_cases h2 : s.mem a = p
  · subst h2
    simp [reclaim, hp', World.AddRef]
  · have h3 : ¬ p = s.mem a := fun e => h2 e.symm
    by_cases h : nullptr = s.mem a
    · simp [reclaim, h.symm, hp']
    · simp [reclaim, h, World.AddRef, h2, Function.update, h3]

/-- The pointers held after `release()`, as a function. -/
theorem release_mem_fun (s : World Nat) (a : Nat) :
    (release a s).mem = fun b => if b = a then nullptr else s.mem b :=
  funext (release_mem s a)

/-- Conservation survives `release()`. -/
theorem conserved_release (h : Program) (a : Nat) (hc : h.conserved) (ha : a ∈ h.live) :
    ((Op.release a).run h).conserved := by
  obtain ⟨hnd, hinv⟩ := hc
  refine ⟨hnd, fun p hp => ?_⟩
  have hp' : ¬ nullptr = p := fun e => hp e.symm
  have key := countP_change_one h.live hnd h.world.mem (fun b => if b = a then nullptr else h.world.mem b)
    a p (fun b hb => by simp [hb])
  have hi := hinv p hp
  simp only [Program.holders, Op.run] at hi ⊢
  rw [release_refs _ _ _ hp]
  simp only [release_mem]
  simp only [if_true, ha, true_and, hp', if_false] at key
  split_ifs at key ⊢ <;> omega

/-- Erasing an element that is not counted does not change the count. -/
theorem countP_erase_of_not (l : List Nat) (a : Nat) (q : Nat → Bool) (hq : q a = false) :
    (l.erase a).countP q = l.countP q := by
  induction l with
  | nil => simp
  | cons b l ih =>
    by_cases hba : b = a
    · subst hba
      simp [List.countP_cons, hq]
    · have hne : ¬ (b == a) = true := by simpa using hba
      rw [List.erase_cons_tail hne, List.countP_cons, List.countP_cons, ih]

/-- Conservation survives the destruction of a wrapper. -/
theorem conserved_destroy (h : Program) (a : Nat) (hc : h.conserved) (ha : a ∈ h.live) :
    ((Op.destroy a).run h).conserved := by
  have hrel := conserved_release h a hc ha
  obtain ⟨hnd, hinv⟩ := hrel
  refine ⟨hnd.erase a, fun p hp => ?_⟩
  have hp' : ¬ nullptr = p := fun e => hp e.symm
  have hi := hinv p hp
  simp only [Program.holders, Op.run, dtor] at hi ⊢
  rw [hi, countP_erase_of_not]
  simp [release_mem, hp']


/-- Counting over a list is not affected by changes outside the list. -/
theorem countP_same (live : List Nat) (f g : Nat → Handle) (p : Handle)
    (hfg : ∀ b ∈ live, g b = f b) :
    live.countP (fun b => decide (g b = p)) = live.countP (fun b => decide (f b = p)) :=
  List.countP_congr (fun b hb => by simp [hfg b hb])

/-- A live wrapper is counted among the holders of its handle. -/
theorem holders_pos (h : Program) (a : Nat) (ha : a ∈ h.live) : 1 ≤ h.holders (h.world.mem a) :=
  List.one_le_countP_iff.mpr ⟨a, ha, by simp⟩

/-- Releasing a wrapper that holds nothing changes nothing. -/
theorem release_of_null (s : World Nat) (a : Nat) (h : s.mem a = nullptr) : release a s = s := by
  simp [release, h]

/-- The pointers held after a copy construction from another object. -/
theorem copy_ctor_mem (s : World Nat) (a c b : Nat) (h : a ≠ c) :
    (copy_ctor a c s).mem b = if b = a then s.mem c else s.mem b := by
  have h2 : ¬ c = a := fun e => h e.symm
  have e : release a (s.store a nullptr) = s.store a nullptr :=
    release_of_null _ _ (by simp [store_mem])
  by_cases ha : b = a
  · simp [copy_ctor, e, reclaim_mem, store_mem, ha, h2]
  · simp [copy_ctor, e, reclaim_mem, store_mem, ha]

/-- The counts after a copy construction from another object. -/
theorem copy_ctor_refs (s : World Nat) (a c : Nat) (p : Handle) (h : a ≠ c) (hp : p ≠ nullptr) :
    (copy_ctor a c s).refs p = if s.mem c = p then s.refs p + 1 else s.refs p := by
  have h2 : ¬ c = a := fun e => h e.symm
  have e : release a (s.store a nullptr) = s.store a nullptr :=
    release_of_null _ _ (by simp [store_mem])
  simp only [copy_ctor, e]
  rw [reclaim_refs _ _ _ hp]
  simp [store_mem, h2, World.store]

/-- The counts after a move construction. -/
theorem move_ctor_refs (s : World Nat) (a c : Nat) : (move_ctor a c s).refs = s.refs := by
  have e : release a (s.store a nullptr) = s.store a nullptr :=
    release_of_null _ _ (by simp [store_mem])
  simp only [move_ctor, e]
  rfl

/-- Conservation survives a copy construction. -/
theorem conserved_copy_construct (h : Program) (a c : Nat) (hc : h.conserved)
    (ha : a ∉ h.live) (hcl : c ∈ h.live) : ((Op.copy_construct a c).run h).conserved := by
  obtain ⟨hnd, hinv⟩ := hc
  have hac : a ≠ c := fun e => ha (e ▸ hcl)
  refine ⟨List.nodup_cons.mpr ⟨ha, hnd⟩, fun p hp => ?_⟩
  have hi := hinv p hp
  have hs := countP_same h.live h.world.mem (fun b => if b = a then h.world.mem c else h.world.mem b) p
    (fun b hb => by
      have : b ≠ a := fun e => ha (e ▸ hb)
      simp [this])
  simp only [Program.holders, Op.run] at hi ⊢
  rw [copy_ctor_refs _ _ _ _ hac hp]
  simp only [copy_ctor_mem _ _ _ _ hac, List.countP_cons, hs, if_true, decide_eq_true_eq]
  split_ifs <;> omega

/-- Conservation survives a move construction. -/
theorem conserved_move_construct (h : Program) (a c : Nat) (hc : h.conserved)
    (ha : a ∉ h.live) (hcl : c ∈ h.live) : ((Op.move_construct a c).run h).conserved := by
  obtain ⟨hnd, hinv⟩ := hc
  have hac : a ≠ c := fun e => ha (e ▸ hcl)
  refine ⟨List.nodup_cons.mpr ⟨ha, hnd⟩, fun p hp => ?_⟩
  have hp' : ¬ nullptr = p := fun e => hp e.symm
  have hi := hinv p hp
  have hs := countP_same h.live (fun b => if b = c then nullptr else h.world.mem b)
    (fun b => if b = c then nullptr else if b = a then h.world.mem c else h.world.mem b) p
    (fun b hb => by
      have : b ≠ a := fun e => ha (e ▸ hb)
      simp [this])
  have key := countP_change_one h.live hnd h.world.mem
    (fun b => if b = c then nullptr else h.world.mem b) c p (fun b hb => by simp [hb])
  simp only [Program.holders, Op.run] at hi ⊢
  rw [move_ctor_refs]
  simp only [move_ctor_mem, List.countP_cons, hs, if_true, decide_eq_true_eq, hac, if_false]
  simp only [if_true, hcl, true_and, hp', if_false] at key
  split_ifs at key ⊢ <;> omega

/-- The counts after a copy assignment between different objects. -/
theorem copy_assign_refs (s : World Nat) (a c : Nat) (p : Handle) (h : a ≠ c) (hp : p ≠ nullptr) :
    (copy_assign a c s).refs p =
      if s.mem c = p then (if s.mem a = p then s.refs p - 1 else s.refs p) + 1
      else (if s.mem a = p then s.refs p - 1 else s.refs p) := by
  have h2 : ¬ c = a := fun e => h e.symm
  simp only [copy_assign, h, ne_eq, not_false_eq_true, if_true]
  rw [reclaim_refs _ _ _ hp]
  simp only [store_mem, if_true, release_mem, h2, if_false]
  have e : ∀ (t : World Nat) (q : Handle), (t.store a q).refs = t.refs := fun _ _ => rfl
  rw [e, release_refs _ _ _ hp]

/-- The counts after a move assignment between different objects. -/
theorem move_assign_refs (s : World Nat) (a c : Nat) (p : Handle) (h : a ≠ c) (hp : p ≠ nullptr) :
    (move_assign a c s).refs p = if s.mem a = p then s.refs p - 1 else s.refs p := by
  simp only [move_assign, h, ne_eq, not_false_eq_true, if_true]
  have e : ∀ (t : World Nat) (b : Nat) (q : Handle), (t.store b q).refs = t.refs := fun _ _ _ => rfl
  rw [e, e, release_refs _ _ _ hp]

/-- Conservation survives a copy assignment. -/
theorem conserved_copy_assign (h : Program) (a c : Nat) (hc : h.conserved)
    (ha : a ∈ h.live) : ((Op.copy_assign a c).run h).conserved := by
  by_cases hac : a = c
  · have e : dx.copy_assign a c h.world = h.world := by simp [dx.copy_assign, hac]
    simpa [Op.run, e, Program.conserved, Program.holders] using hc
  obtain ⟨hnd, hinv⟩ := hc
  refine ⟨hnd, fun p hp => ?_⟩
  have hi := hinv p hp
  have hpos := holders_pos h a ha
  have key := countP_change_one h.live hnd h.world.mem
    (fun b => if b = a then h.world.mem c else h.world.mem b) a p (fun b hb => by simp [hb])
  simp only [Program.holders, Op.run] at hi hpos ⊢
  rw [copy_assign_refs _ _ _ _ hac hp]
  simp only [copy_assign_mem _ _ _ _ hac]
  simp only [if_true, ha, true_and] at key
  by_cases e1 : h.world.mem a = p
  · rw [e1] at hpos
    simp only [e1, if_true] at key ⊢
    split_ifs at key ⊢ <;> omega
  · simp only [e1, if_false] at key ⊢
    split_ifs at key ⊢ <;> omega

/-- Conservation survives a move assignment. -/
theorem conserved_move_assign (h : Program) (a c : Nat) (hc : h.conserved)
    (ha : a ∈ h.live) (hcl : c ∈ h.live) : ((Op.move_assign a c).run h).conserved := by
  by_cases hac : a = c
  · have e : dx.move_assign a c h.world = h.world := by simp [dx.move_assign, hac]
    simpa [Op.run, e, Program.conserved, Program.holders] using hc
  obtain ⟨hnd, hinv⟩ := hc
  refine ⟨hnd, fun p hp => ?_⟩
  have hp' : ¬ nullptr = p := fun e => hp e.symm
  have hca : ¬ c = a := fun e => hac e.symm
  have hi := hinv p hp
  have hpos := holders_pos h a ha
  have key1 := countP_change_one h.live hnd h.world.mem
    (fun b => if b = a then h.world.mem c else h.world.mem b) a p (fun b hb => by simp [hb])
  have key2 := countP_change_one h.live hnd
    (fun b => if b = a then h.world.mem c else h.world.mem b)
    (fun b => if b = c then nullptr else if b = a then h.world.mem c else h.world.mem b) c p
    (fun b hb => by simp [hb])
  simp only [Program.holders, Op.run] at hi hpos ⊢
  rw [move_assign_refs _ _ _ _ hac hp]
  simp only [move_assign_mem _ _ _ _ hac]
  simp only [if_true, ha, true_and] at key1
  simp only [if_true, hcl, true_and, hca, if_false, hp'] at key2
  by_cases e1 : h.world.mem a = p
  · rw [e1] at hpos
    simp only [e1, if_true] at key1 ⊢
    split_ifs at key1 key2 ⊢ <;> omega
  · simp only [e1, if_false] at key1 ⊢
    split_ifs at key1 key2 ⊢ <;> omega


/-- The counts after `make_comobj` on a non-null pointer: the `AddRef` of the
local and the `Release` of the pointer cancel. -/
theorem make_comobj_refs (s : World Nat) (ret r : Nat) (p : Handle) (hp : p ≠ nullptr) :
    (make_comobj ret r p s).refs = s.refs := by
  have hp' : ¬ nullptr = p := fun e => hp e.symm
  have e : dtor r (move_ctor ret r ((ctor r p s).Release p)) = move_ctor ret r ((ctor r p s).Release p) :=
    release_of_null _ _ (by simp [move_ctor_mem])
  simp only [make_comobj, hp', ne_eq, not_false_eq_true, if_true, e, move_ctor_refs]
  funext q
  by_cases hq : q = p
  · subst hq
    simp [ctor, reclaim, store_mem, hp', World.Release, World.AddRef, World.store]
  · simp [ctor, reclaim, store_mem, hp', World.Release, World.AddRef, World.store, Function.update, hq]

/-- Conservation survives the adoption of a fresh handle. -/
theorem conserved_adopt (h : Program) (ret r : Nat) (p : Handle) (hc : h.conserved)
    (hret : ret ∉ h.live) (hr : r ∉ h.live) (hrr : ret ≠ r) (hp : p ≠ nullptr) :
    ((Op.adopt ret r p).run h).conserved := by
  obtain ⟨hnd, hinv⟩ := hc
  refine ⟨List.nodup_cons.mpr ⟨hret, hnd⟩, fun q hq => ?_⟩
  have hp' : ¬ nullptr = p := fun e => hp e.symm
  have hi := hinv q hq
  have hs := countP_same h.live h.world.mem
    (fun b => if b = r then nullptr else if b = ret then p else h.world.mem b) q
    (fun b hb => by
      have h1 : b ≠ r := fun e => hr (e ▸ hb)
      have h2 : b ≠ ret := fun e => hret (e ▸ hb)
      simp [h1, h2])
  simp only [Program.holders, Op.run] at hi ⊢
  rw [make_comobj_refs _ _ _ _ hp]
  simp only [make_comobj_mem, handout_mem, List.countP_cons, hs, if_true, decide_eq_true_eq]
  by_cases hqp : q = p
  · subst hqp
    simp [World.handout, hp', hrr, hi]
  · have hpq : ¬ p = q := fun e => hqp e.symm
    simp [World.handout, hp', hrr, hi, Function.update, hqp, hpq]

/-- Replaying a concatenation of calls. -/
theorem counts_after_append (l1 l2 : List Call) (refs : Handle → Nat) :
    counts_after refs (l1 ++ l2) = (counts_after refs l1).bind (fun r => counts_after r l2) := by
  induction l1 generalizing refs with
  | nil => simp [counts_after]
  | cons c l ih =>
    cases c <;> simp [counts_after, ih]
    split_ifs <;> simp

section replays
set_option linter.unusedSectionVars false
variable {α : Type} [DecidableEq α]

theorem replays_refl (s : World α) : Replays s s := ⟨[], by simp, rfl⟩

theorem replays_trans {s t u : World α} (h1 : Replays s t) (h2 : Replays t u) : Replays s u := by
  obtain ⟨l1, e1, c1⟩ := h1
  obtain ⟨l2, e2, c2⟩ := h2
  refine ⟨l1 ++ l2, by rw [e2, e1, List.append_assoc], ?_⟩
  rw [counts_after_append, c1]
  exact c2

theorem replays_store (s : World α) (a : α) (p : Handle) : Replays s (s.store a p) :=
  ⟨[], by simp [World.store], rfl⟩

theorem replays_AddRef (s : World α) (p : Handle) : Replays s (s.AddRef p) :=
  ⟨[Call.AddRef p], rfl, rfl⟩

theorem replays_Release (s : World α) (p : Handle) (h : s.refs p ≠ 0) : Replays s (s.Release p) :=
  ⟨[Call.Release p], rfl, by simp [counts_after, h, World.Release]⟩

theorem replays_reclaim (s : World α) (a : α) : Replays s (reclaim a s) := by
  by_cases h : nullptr = s.mem a
  · simpa [reclaim, h.symm] using replays_refl s
  · simpa [reclaim, h] using replays_AddRef s (s.mem a)

theorem replays_release (s : World α) (a : α) (h : s.mem a ≠ nullptr → s.refs (s.mem a) ≠ 0) :
    Replays s (release a s) := by
  by_cases h0 : nullptr = s.mem a
  · simpa [release, h0.symm] using replays_refl s
  · have h1 : s.mem a ≠ nullptr := fun e => h0 e.symm
    simp only [release, h0, ne_eq, not_false_eq_true, if_true]
    exact replays_trans (replays_Release s _ (h h1)) (replays_store _ _ _)

theorem replays_move_ctor (s : World α) (a c : α) : Replays s (move_ctor a c s) := by
  simp only [move_ctor]
  refine replays_trans (replays_trans (replays_trans (replays_store s a nullptr)
    (replays_release _ a ?_)) (replays_store _ _ _)) (replays_store _ _ _)
  intro h
  exact absurd (by simp [store_mem]) h

theorem replays_copy_ctor (s : World α) (a c : α) : Replays s (copy_ctor a c s) := by
  simp only [copy_ctor]
  refine replays_trans (replays_trans (replays_trans (replays_store s a nullptr)
    (replays_release _ a ?_)) (replays_store _ _ _)) (replays_reclaim _ _)
  intro h
  exact absurd (by simp [store_mem]) h

theorem replays_copy_assign (s : World α) (a c : α) (h : s.mem a ≠ nullptr → s.refs (s.mem a) ≠ 0) :
    Replays s (copy_assign a c s) := by
  by_cases hac : a = c
  · simpa [copy_assign, hac] using replays_refl s
  · simp only [copy_assign, hac, ne_eq, not_false_eq_true, if_true]
    exact replays_trans (replays_trans (replays_release s a h) (replays_store _ _ _))
      (replays_reclaim _ _)

theorem replays_move_assign (s : World α) (a c : α) (h : s.mem a ≠ nullptr → s.refs (s.mem a) ≠ 0) :
    Replays s (move_assign a c s) := by
  by_cases hac : a = c
  · simpa [move_assign, hac] using replays_refl s
  · simp only [move_assign, hac, ne_eq, not_false_eq_true, if_true]
    exact replays_trans (replays_trans (replays_release s a h) (replays_store _ _ _))
      (replays_store _ _ _)

theorem replays_make_comobj (s : World α) (ret r : α) (p : Handle) :
    Replays s (make_comobj ret r p s) := by
  simp only [make_comobj, ctor]
  have h1 : Replays s (reclaim r (s.store r p)) :=
    replays_trans (replays_store _ _ _) (replays_reclaim _ _)
  have h2 : Replays (reclaim r (s.store r p))
      (if nullptr ≠ p then (reclaim r (s.store r p)).Release p else reclaim r (s.store r p)) := by
    by_cases hp : nullptr = p
    · simpa [hp.symm] using replays_refl _
    · simp only [hp, ne_eq, not_false_eq_true, if_true]
      refine replays_Release _ _ ?_
      simp [reclaim, store_mem, hp, World.AddRef]
  refine replays_trans (replays_trans (replays_trans h1 h2) (replays_move_ctor _ _ _))
    (replays_release _ _ ?_)
  intro hne
  exact absurd (by simp [dtor, move_ctor_mem]) hne

end replays

/-- A live wrapper holding a non-null handle keeps its count above zero. -/
theorem conserved_pos (h : Program) (hc : h.conserved) (a : Nat) (ha : a ∈ h.live)
    (hne : h.world.mem a ≠ nullptr) : h.world.refs (h.world.mem a) ≠ 0 := by
  have := holders_pos h a ha
  rw [hc.2 _ hne]
  omega

/-- Every enabled operation keeps conservation. -/
theorem conserved_run (h : Program) (o : Op) (hc : h.conserved) (he : o.enabled h) :
    (o.run h).conserved := by
  cases o with
  | adopt ret r p => exact conserved_adopt h ret r p hc he.1 he.2.1 he.2.2.1 he.2.2.2.1
  | copy_construct a c => exact conserved_copy_construct h a c hc he.1 he.2
  | move_construct a c => exact conserved_move_construct h a c hc he.1 he.2
  | copy_assign a c => exact conserved_copy_assign h a c hc he.1
  | move_assign a c => exact conserved_move_assign h a c hc he.1 he.2
  | release a => exact conserved_release h a hc he
  | destroy a => exact conserved_destroy h a hc he

/-- Every enabled operation issues calls that never decrement a zero count. -/
theorem replays_run (h : Program) (o : Op) (hc : h.conserved) (he : o.enabled h) :
    Replays (o.start h) (o.run h).world := by
  cases o with
  | adopt ret r p => exact replays_make_comobj _ ret r p
  | copy_construct a c => exact replays_copy_ctor _ a c
  | move_construct a c => exact replays_move_ctor _ a c
  | copy_assign a c => exact replays_copy_assign _ a c (conserved_pos h hc a he.1)
  | move_assign a c => exact replays_move_assign _ a c (conserved_pos h hc a he.1)
  | release a => exact replays_release _ a (conserved_pos h hc a he)
  | destroy a => exact replays_release _ a (conserved_pos h hc a he)

/-- Conservation holds in every reachable program state. -/
theorem reachable_conserved (h : Program) (hr : Reachable h) : h.conserved := by
  induction hr with
  | start => exact ⟨List.nodup_nil, fun p _ => by simp [Program.holders, World.empty]⟩
  | step h o _ he ih => exact conserved_run h o ih he

/-- C18: reference-count conservation is an invariant of the wrapper operations.
In every program state reached from no wrappers by adoptions of fresh handles
through `make_comobj`, copy and move constructions, copy and move assignments,
explicit releases and destructions, the count of every non-null handle is the
number of live wrappers holding it; so the count is zero exactly when no live
wrapper holds the handle; and the native calls of every further operation,
replayed from the counts it starts with, never decrement a count that is
already zero and end in the counts of the state it leaves. -/
theorem reference_counts_are_conserved (h : Program) (hr : Reachable h) :
    h.conserved ∧
    (∀ p, p ≠ nullptr → (h.world.refs p = 0 ↔ ∀ a ∈ h.live, h.world.mem a ≠ p)) ∧
    ∀ o : Op, o.enabled h →
      counts_after (o.start h).refs ((o.run h).world.trace.drop (o.start h).trace.length) =
        some (o.run h).world.refs := by
  have hc := reachable_conserved h hr
  refine ⟨hc, fun p hp => ?_, fun o he => ?_⟩
  · rw [hc.2 p hp, Program.holders, List.countP_eq_zero]
    simp
  · obtain ⟨l, e, c⟩ := replays_run h o hc he
    rw [e, List.drop_left]
    exact c

/-- C18 at the program that adopts the fresh handle 7 into the wrapper at 0 and
copies that wrapper to the address 2. -/
theorem reference_counts_are_conserved_witness :
    Reachable ((Op.copy_construct 2 0).run ((Op.adopt 0 1 7).run ⟨World.empty Nat, []⟩)) ∧
    ((Op.copy_construct 2 0).run ((Op.adopt 0 1 7).run ⟨World.empty Nat, []⟩)).world.refs 7 = 2 ∧
    ((Op.copy_construct 2 0).run ((Op.adopt 0 1 7).run ⟨World.empty Nat, []⟩)).conserved :=
  have hr : Reachable ((Op.copy_construct 2 0).run ((Op.adopt 0 1 7).run ⟨World.empty Nat, []⟩)) :=
    Reachable.step _ _ (Reachable.step _ _ Reachable.start
      ⟨by simp, by simp, by decide, by decide, rfl⟩) ⟨by simp [Op.run], by simp [Op.run]⟩
  ⟨hr, by decide, (reference_counts_are_conserved _ hr).1⟩

/-! ## Failures during `D3DInit` and `D3DResize` -/

section post
set_option linter.unusedSectionVars false
variable {α β γ : Type} [DecidableEq α]

theorem check_throw (nat : Native) (hr : HRESULT) (h : hr < 0) (s : World α) :
    Exec.check nat hr s = (Except.error (Abort.thrown (runtime_error.ctor nat hr)), s) := by
  simp [Exec.check, throw_if_failed, FAILED, h]

theorem post_seq_run {m : Exec α β} {f : β → Exec α γ} {s s1 : World α} {b : β}
    {R : Except Abort γ → World α → Prop} (h : m s = (Except.ok b, s1))
    (hf : ∀ s2, s2 = s1 → (f b).Post s2 R) : (Exec.seq m f).Post s R := by
  have := hf s1 rfl
  simpa [Exec.Post, Exec.seq, h] using this

theorem post_seq_err {m : Exec α β} {f : β → Exec α γ} {s s1 : World α} {e : Abort}
    {R : Except Abort γ → World α → Prop} (h : m s = (Except.error e, s1))
    (hR : R (Except.error e) s1) : (Exec.seq m f).Post s R := by
  simpa [Exec.Post, Exec.seq, h] using hR

theorem post_of_run {m : Exec α β} {s s1 : World α} {r : Except Abort β}
    {R : Except Abort β → World α → Prop} (h : m s = (r, s1)) (hR : R r s1) : m.Post s R := by
  simpa [Exec.Post, h] using hR

/-- A block whose body does not run into a null receiver: the destructor of its
local runs on the world the body leaves. -/
theorem post_scope {m : Exec α β} {d : World α → World α} {s : World α}
    {R : Except Abort β → World α → Prop}
    (hm : m.Post s (fun r s1 => r ≠ Except.error Abort.undefined ∧ R r (d s1))) :
    (Exec.scope d m).Post s R := by
  unfold Exec.Post at hm ⊢
  unfold Exec.scope
  rcases hms : m s with ⟨r, s1⟩
  rw [hms] at hm
  obtain ⟨h1, h2⟩ := hm
  rcases r with e | b
  · cases e with
    | thrown e => exact h2
    | undefined => exact absurd rfl h1
  · exact h2

theorem swapchain.resize_throw (nat : Native) (this : α) (width height buffer_count new_format flags : Nat)
    (s : World α) (h : s.mem this ≠ nullptr)
    (hr : nat.ResizeBuffers (s.mem this) buffer_count width height new_format flags < 0) :
    swapchain.resize nat this width height buffer_count new_format flags s =
      (Except.error (Abort.thrown (runtime_error.ctor nat
        (nat.ResizeBuffers (s.mem this) buffer_count width height new_format flags))),
       s.emit (Call.ResizeBuffers (s.mem this) buffer_count width height new_format flags)) := by
  simp [swapchain.resize, Exec.bind_def, Exec.seq, deref_ok _ _ h, Exec.call, check_throw _ _ hr]

theorem swapchain.backbuffer_throw (nat : Native) (ret r this : α) (buffer_id : Nat)
    (s : World α) (h : s.mem this ≠ nullptr) (hr : (nat.GetBuffer (s.mem this) buffer_id).1 < 0) :
    swapchain.backbuffer nat ret r this buffer_id s =
      (Except.error (Abort.thrown (runtime_error.ctor nat (nat.GetBuffer (s.mem this) buffer_id).1)),
        (s.emit (Call.GetBuffer (s.mem this) buffer_id)).handout (nat.GetBuffer (s.mem this) buffer_id).2) := by
  simp [swapchain.backbuffer, Exec.bind_def, Exec.seq, deref_ok _ _ h, Exec.call, Exec.step,
    check_throw _ _ hr]

theorem factory.create_throw (nat : Native) (ret result : α) (s : World α)
    (hr : nat.CreateDXGIFactory.1 < 0) :
    factory.create nat ret result s =
      (Except.error (Abort.thrown (runtime_error.ctor nat nat.CreateDXGIFactory.1)),
        dtor result ((((default_ctor result s).emit Call.CreateDXGIFactory).store result
          nat.CreateDXGIFactory.2).handout nat.CreateDXGIFactory.2)) := by
  simp [factory.create, Exec.bind_def, Exec.seq, Exec.scope, Exec.call, Exec.step, check_throw _ _ hr]

theorem factory.create_swapchain_throw (nat : Native) (ret r this : α) (dev : device α) (hwnd : Nat)
    (s : World α) (h : s.mem this ≠ nullptr)
    (hr : (nat.CreateSwapChain (s.mem this) (s.mem dev.m_device) hwnd).1 < 0) :
    factory.create_swapchain nat ret r this dev hwnd s =
      (Except.error (Abort.thrown (runtime_error.ctor nat
          (nat.CreateSwapChain (s.mem this) (s.mem dev.m_device) hwnd).1)),
        (s.emit (Call.CreateSwapChain (s.mem this) (s.mem dev.m_device) hwnd)).handout
          (nat.CreateSwapChain (s.mem this) (s.mem dev.m_device) hwnd).2) := by
  simp [factory.create_swapchain, Exec.bind_def, Exec.seq, deref_ok _ _ h, Exec.call, Exec.step,
    Exec.read, check_throw _ _ hr]

theorem device.create_default_device_throw (nat : Native) (ret result : device α) (tmp r : α)
    (s : World α)
    (hr : (nat.D3D11CreateDevice nullptr D3D_DRIVER_TYPE_HARDWARE D3D11_CREATE_DEVICE_BGRA_SUPPORT).1 < 0) :
    device.create_default_device nat ret result tmp r s =
      (Except.error (Abort.thrown (runtime_error.ctor nat
          (nat.D3D11CreateDevice nullptr D3D_DRIVER_TYPE_HARDWARE D3D11_CREATE_DEVICE_BGRA_SUPPORT).1)),
        device.dtor result (((((device.default_ctor result s).emit
            (Call.D3D11CreateDevice nullptr D3D_DRIVER_TYPE_HARDWARE D3D11_CREATE_DEVICE_BGRA_SUPPORT)).store
            result.m_device
            (nat.D3D11CreateDevice nullptr D3D_DRIVER_TYPE_HARDWARE D3D11_CREATE_DEVICE_BGRA_SUPPORT).2.1).handout
            (nat.D3D11CreateDevice nullptr D3D_DRIVER_TYPE_HARDWARE D3D11_CREATE_DEVICE_BGRA_SUPPORT).2.1).handout
            (nat.D3D11CreateDevice nullptr D3D_DRIVER_TYPE_HARDWARE D3D11_CREATE_DEVICE_BGRA_SUPPORT).2.2)) := by
  simp [device.create_default_device, Exec.bind_def, Exec.seq, Exec.scope, Exec.call, Exec.step,
    check_throw _ _ hr]

theorem device.create_texture2d_throw (nat : Native) (ret r : α) (this : device α)
    (width height miplevels arraysize format sample_count sample_quality usage bind cpu_access : Nat)
    (s : World α) (desc : TEXTURE2D_DESC)
    (hdesc : desc = ⟨width, height, miplevels, arraysize, format, sample_count, sample_quality,
      usage, bind, cpu_access, 0⟩)
    (h : s.mem this.m_device ≠ nullptr)
    (hr : (nat.CreateTexture2D (s.mem this.m_device) desc).1 < 0) :
    device.create_texture2d nat ret r this width height miplevels arraysize format sample_count
        sample_quality usage bind cpu_access s =
      (Except.error (Abort.thrown (runtime_error.ctor nat
          (nat.CreateTexture2D (s.mem this.m_device) desc).1)),
        (s.emit (Call.CreateTexture2D (s.mem this.m_device) desc)).handout
          (nat.CreateTexture2D (s.mem this.m_device) desc).2) := by
  subst hdesc
  simp [device.create_texture2d, Exec.bind_def, Exec.seq, deref_ok _ _ h, Exec.call, Exec.step,
    check_throw _ _ hr]

theorem device.create_view_rendertargetview_throw (nat : Native) (ret r : α) (this : device α) (tex : α)
    (s : World α) (h : s.mem this.m_device ≠ nullptr)
    (hr : (nat.CreateRenderTargetView (s.mem this.m_device) (s.mem tex)).1 < 0) :
    device.create_view_rendertargetview nat ret r this tex s =
      (Except.error (Abort.thrown (runtime_error.ctor nat
          (nat.CreateRenderTargetView (s.mem this.m_device) (s.mem tex)).1)),
        (s.emit (Call.CreateRenderTargetView (s.mem this.m_device) (s.mem tex))).handout
          (nat.CreateRenderTargetView (s.mem this.m_device) (s.mem tex)).2) := by
  simp [device.create_view_rendertargetview, Exec.bind_def, Exec.seq, deref_ok _ _ h, Exec.call,
    Exec.step, Exec.read, check_throw _ _ hr]

theorem device.create_view_depthstencilview_throw (nat : Native) (ret r : α) (this : device α) (tex : α)
    (s : World α) (h : s.mem this.m_device ≠ nullptr)
    (hr : (nat.CreateDepthStencilView (s.mem this.m_device) (s.mem tex)
      DXGI_FORMAT_D24_UNORM_S8_UINT D3D11_DSV_DIMENSION_TEXTURE2DMS 0).1 < 0) :
    device.create_view_depthstencilview nat ret r this tex s =
      (Except.error (Abort.thrown (runtime_error.ctor nat
          (nat.CreateDepthStencilView (s.mem this.m_device) (s.mem tex)
            DXGI_FORMAT_D24_UNORM_S8_UINT D3D11_DSV_DIMENSION_TEXTURE2DMS 0).1)),
        (s.emit (Call.CreateDepthStencilView (s.mem this.m_device) (s.mem tex)
          DXGI_FORMAT_D24_UNORM_S8_UINT D3D11_DSV_DIMENSION_TEXTURE2DMS 0)).handout
          (nat.CreateDepthStencilView (s.mem this.m_device) (s.mem tex)
            DXGI_FORMAT_D24_UNORM_S8_UINT D3D11_DSV_DIMENSION_TEXTURE2DMS 0).2) := by
  simp [device.create_view_depthstencilview, Exec.bind_def, Exec.seq, deref_ok _ _ h, Exec.call,
    Exec.step, Exec.read, check_throw _ _ hr]

end post
/-- The pointers held by the members of a freshly constructed widget. -/
theorem members_mem (s : World Var) (b : Var) :
    (members s).mem b =
      if b = Var.m_device ∨ b = Var.m_device_context ∨ b = Var.m_context ∨ b = Var.m_swapchain ∨
        b = Var.m_rtv ∨ b = Var.m_dsv ∨ b = Var.m_dsvbuffer then nullptr else s.mem b := by
  cases b <;> simp [members, device.default_ctor, m_device, default_ctor_mem, store_mem]

/-- The trace is not touched by the construction of the members. -/
theorem members_trace (s : World Var) : (members s).trace = s.trace := rfl

/-- C13, amended: the first failure status returned by a status-returning native
call of `D3DInit` (run on the freshly constructed widget) or of `D3DResize`,
when the calls before it succeeded with non-null objects, makes the operation
raise the error carrying exactly that status, and none of the later creation,
resize or binding calls is issued.  The only native calls after the failing
one are the `Release` calls of the destructors of the local wrappers that are
unwound: in `D3DInit` the local `factory` (and the pointer that a failed factory
or device creation left in the local `result`, when it is not null), in
`D3DResize` the local `backbuffer` once it was fetched.  The members are not
rolled back: after a failed device creation the members are still empty, after
a failed swap-chain creation the device and its context are held; in
`D3DResize` the views and the depth buffer that were not yet created again stay
empty, those created again before the failure are held, and no render target
is bound again.  `pre` is the trace after the unbinding and the three
releases with which `D3DResize` starts. -/
theorem failure_raises_status_and_unwinds_locals (nat : Native) (winId : Nat) (width height : Int)
    (s0 s : World Var)
    (hf hd hs : HRESULT) (pf pd pc ps : Handle)
    (ctx sc dev bb rtv tex dsv : Handle) (W H : Nat) (hr0 hr1 hr2 hr3 hr4 : HRESULT)
    (pre : List Call)
    (e_f : nat.CreateDXGIFactory = (hf, pf)) (hpf0 : 0 ≤ hf → pf ≠ nullptr)
    (e_d : nat.D3D11CreateDevice nullptr D3D_DRIVER_TYPE_HARDWARE D3D11_CREATE_DEVICE_BGRA_SUPPORT =
      (hd, pd, pc)) (hpc0 : 0 ≤ hd → pc ≠ nullptr)
    (e_s : nat.CreateSwapChain pf pd winId = (hs, ps))
    (hctx : s.mem Var.m_context = ctx) (hctx0 : ctx ≠ nullptr)
    (hsc : s.mem Var.m_swapchain = sc) (hsc0 : sc ≠ nullptr)
    (hdev : s.mem Var.m_device = dev) (hdev0 : dev ≠ nullptr)
    (hpre : pre = s.trace ++ [Call.OMSetRenderTargets ctx [] nullptr] ++
        (if nullptr ≠ s.mem Var.m_rtv then [Call.Release (s.mem Var.m_rtv)] else []) ++
        (if nullptr ≠ s.mem Var.m_dsv then [Call.Release (s.mem Var.m_dsv)] else []) ++
        (if nullptr ≠ s.mem Var.m_dsvbuffer then [Call.Release (s.mem Var.m_dsvbuffer)] else []))
    (hrb : nat.ResizeBuffers sc 0 0 0 DXGI_FORMAT_UNKNOWN 0 = hr0)
    (hgb : nat.GetBuffer sc 0 = (hr1, bb)) (hbb0 : 0 ≤ hr1 → bb ≠ nullptr)
    (hcr : nat.CreateRenderTargetView dev bb = (hr2, rtv)) (hrtv0 : 0 ≤ hr2 → rtv ≠ nullptr)
    (hW : (nat.GetDesc bb).Width = W) (hW32 : W < 2 ^ 32)
    (hH : (nat.GetDesc bb).Height = H) (hH32 : H < 2 ^ 32)
    (hct : nat.CreateTexture2D dev
      ⟨W, H, 1, 1, DXGI_FORMAT_D24_UNORM_S8_UINT, 1, 0, D3D11_USAGE_DEFAULT, D3D11_BIND_DEPTH_STENCIL, 0, 0⟩ =
        (hr3, tex)) (htex0 : 0 ≤ hr3 → tex ≠ nullptr)
    (hcd : nat.CreateDepthStencilView dev tex DXGI_FORMAT_D24_UNORM_S8_UINT
      D3D11_DSV_DIMENSION_TEXTURE2DMS 0 = (hr4, dsv)) :
    (D3DInit nat winId).Post (members s0) (fun r s1 =>
      (hf < 0 →
        r = Except.error (Abort.thrown (runtime_error.ctor nat hf)) ∧
        s1.trace = s0.trace ++ [Call.CreateDXGIFactory] ++
          (if nullptr ≠ pf then [Call.Release pf] else []) ∧
        s1.mem Var.m_device = nullptr ∧ s1.mem Var.m_device_context = nullptr ∧
        s1.mem Var.m_context = nullptr ∧ s1.mem Var.m_swapchain = nullptr) ∧
      (0 ≤ hf → hd < 0 →
        r = Except.error (Abort.thrown (runtime_error.ctor nat hd)) ∧
        s1.trace = s0.trace ++ [Call.CreateDXGIFactory,
          Call.D3D11CreateDevice nullptr D3D_DRIVER_TYPE_HARDWARE D3D11_CREATE_DEVICE_BGRA_SUPPORT] ++
          (if nullptr ≠ pd then [Call.Release pd] else []) ++ [Call.Release pf] ∧
        s1.mem Var.m_device = nullptr ∧ s1.mem Var.m_device_context = nullptr ∧
        s1.mem Var.m_context = nullptr ∧ s1.mem Var.m_swapchain = nullptr) ∧
      (0 ≤ hf → 0 ≤ hd → hs < 0 →
        r = Except.error (Abort.thrown (runtime_error.ctor nat hs)) ∧
        s1.trace = s0.trace ++ [Call.CreateDXGIFactory,
          Call.D3D11CreateDevice nullptr D3D_DRIVER_TYPE_HARDWARE D3D11_CREATE_DEVICE_BGRA_SUPPORT,
          Call.AddRef pc, Call.Release pc, Call.AddRef pc,
          Call.CreateSwapChain pf pd winId,
          Call.Release pf] ∧
        s1.mem Var.m_device = pd ∧ s1.mem Var.m_device_context = pc ∧
        s1.mem Var.m_context = pc ∧ s1.mem Var.m_swapchain = nullptr)) ∧
    (D3DResize nat width height).Post s (fun r s1 =>
      (hr0 < 0 →
        r = Except.error (Abort.thrown (runtime_error.ctor nat hr0)) ∧
        s1.trace = pre ++ [Call.ResizeBuffers sc 0 0 0 DXGI_FORMAT_UNKNOWN 0] ∧
        s1.mem Var.m_rtv = nullptr ∧ s1.mem Var.m_dsv = nullptr ∧ s1.mem Var.m_dsvbuffer = nullptr) ∧
      (0 ≤ hr0 → hr1 < 0 →
        r = Except.error (Abort.thrown (runtime_error.ctor nat hr1)) ∧
        s1.trace = pre ++ [Call.ResizeBuffers sc 0 0 0 DXGI_FORMAT_UNKNOWN 0, Call.GetBuffer sc 0] ∧
        s1.mem Var.m_rtv = nullptr ∧ s1.mem Var.m_dsv = nullptr ∧ s1.mem Var.m_dsvbuffer = nullptr) ∧
      (0 ≤ hr0 → 0 ≤ hr1 → hr2 < 0 →
        r = Except.error (Abort.thrown (runtime_error.ctor nat hr2)) ∧
        s1.trace = pre ++ [Call.ResizeBuffers sc 0 0 0 DXGI_FORMAT_UNKNOWN 0,
          Call.GetBuffer sc 0, Call.AddRef bb, Call.Release bb,
          Call.CreateRenderTargetView dev bb,
          Call.Release bb] ∧
        s1.mem Var.m_rtv = nullptr ∧ s1.mem Var.m_dsv = nullptr ∧ s1.mem Var.m_dsvbuffer = nullptr) ∧
      (0 ≤ hr0 → 0 ≤ hr1 → 0 ≤ hr2 → hr3 < 0 →
        r = Except.error (Abort.thrown (runtime_error.ctor nat hr3)) ∧
        s1.trace = pre ++ [Call.ResizeBuffers sc 0 0 0 DXGI_FORMAT_UNKNOWN 0,
          Call.GetBuffer sc 0, Call.AddRef bb, Call.Release bb,
          Call.CreateRenderTargetView dev bb, Call.AddRef rtv, Call.Release rtv,
          Call.GetDesc bb, Call.GetDesc bb,
          Call.CreateTexture2D dev
            ⟨W, H, 1, 1, DXGI_FORMAT_D24_UNORM_S8_UINT, 1, 0, D3D11_USAGE_DEFAULT, D3D11_BIND_DEPTH_STENCIL, 0, 0⟩,
          Call.Release bb] ∧
        s1.mem Var.m_rtv = rtv ∧ s1.mem Var.m_dsv = nullptr ∧ s1.mem Var.m_dsvbuffer = nullptr) ∧
      (0 ≤ hr0 → 0 ≤ hr1 → 0 ≤ hr2 → 0 ≤ hr3 → hr4 < 0 →
        r = Except.error (Abort.thrown (runtime_error.ctor nat hr4)) ∧
        s1.trace = pre ++ [Call.ResizeBuffers sc 0 0 0 DXGI_FORMAT_UNKNOWN 0,
          Call.GetBuffer sc 0, Call.AddRef bb, Call.Release bb,
          Call.CreateRenderTargetView dev bb, Call.AddRef rtv, Call.Release rtv,
          Call.GetDesc bb, Call.GetDesc bb,
          Call.CreateTexture2D dev
            ⟨W, H, 1, 1, DXGI_FORMAT_D24_UNORM_S8_UINT, 1, 0, D3D11_USAGE_DEFAULT, D3D11_BIND_DEPTH_STENCIL, 0, 0⟩,
          Call.AddRef tex, Call.Release tex,
          Call.CreateDepthStencilView dev tex DXGI_FORMAT_D24_UNORM_S8_UINT D3D11_DSV_DIMENSION_TEXTURE2DMS 0,
          Call.Release bb] ∧
        s1.mem Var.m_rtv = rtv ∧ s1.mem Var.m_dsv = nullptr ∧ s1.mem Var.m_dsvbuffer = tex)) := by
  constructor
  · clear hctx hctx0 hsc hsc0 hdev hdev0 hpre hrb hgb hbb0 hcr hrtv0 hW hW32 hH hH32 hct htex0 hcd
    have hf1 : nat.CreateDXGIFactory.1 = hf := by rw [e_f]
    have hf2 : nat.CreateDXGIFactory.2 = pf := by rw [e_f]
    have hd1 : (nat.D3D11CreateDevice nullptr D3D_DRIVER_TYPE_HARDWARE
        D3D11_CREATE_DEVICE_BGRA_SUPPORT).1 = hd := by rw [e_d]
    have hd2 : (nat.D3D11CreateDevice nullptr D3D_DRIVER_TYPE_HARDWARE
        D3D11_CREATE_DEVICE_BGRA_SUPPORT).2.1 = pd := by rw [e_d]
    have hd3 : (nat.D3D11CreateDevice nullptr D3D_DRIVER_TYPE_HARDWARE
        D3D11_CREATE_DEVICE_BGRA_SUPPORT).2.2 = pc := by rw [e_d]
    generalize hs0 : members s0 = s
    have ms : ∀ b, s.mem b =
        if b = Var.m_device ∨ b = Var.m_device_context ∨ b = Var.m_context ∨ b = Var.m_swapchain ∨
          b = Var.m_rtv ∨ b = Var.m_dsv ∨ b = Var.m_dsvbuffer then nullptr else s0.mem b := by
      intro b
      rw [← hs0]
      exact members_mem s0 b
    have ts : s.trace = s0.trace := by rw [← hs0]; rfl
    clear hs0
    unfold D3DInit
    simp only [Exec.bind_def]
    -- the local `factory`
    by_cases h0 : 0 ≤ hf
    swap
    · have h0' : hf < 0 := not_le.mp h0
      refine post_seq_err (factory.create_throw nat Var.factory Var.result s (by rw [hf1]; exact h0')) ?_
      rw [hf1, hf2]
      refine ⟨fun _ => ?_, fun _ _ => ?_, fun _ _ _ => ?_⟩
      all_goals first | contradiction | skip
      refine ⟨rfl, ?_, ?_, ?_, ?_, ?_⟩
      · simp [dtor_trace, dtor_mem, handout_trace, handout_mem, store_mem, store_trace, emit_trace,
          emit_mem, default_ctor_trace, default_ctor_mem, ts]
      all_goals simp [dtor_mem, handout_mem, store_mem, emit_mem, default_ctor_mem, ms]
    have hpf0 := hpf0 h0
    have hpf0' : nullptr ≠ pf := fun e => hpf0 e.symm
    refine post_seq_run (factory.create_run nat Var.factory Var.result s (by rw [hf1]; exact h0)) ?_
    intro s1 h1
    rw [hf2] at h1
    have m1 : ∀ b, s1.mem b =
        if b = Var.result then nullptr else if b = Var.factory then pf else s.mem b := by
      intro b
      rw [h1]
      simp only [dtor_mem, move_ctor_mem, handout_mem, store_mem, emit_mem, default_ctor_mem]
      split_ifs <;> rfl
    have t1 : s1.trace = s0.trace ++ [Call.CreateDXGIFactory] := by
      rw [h1]
      simp [dtor_trace, dtor_mem, move_ctor_trace, move_ctor_mem, handout_trace, handout_mem,
        store_mem, store_trace, emit_trace, emit_mem, default_ctor_trace, default_ctor_mem, ts]
    clear h1
    refine post_scope ?_
    -- `m_device = device::create_default_device()`
    by_cases h1 : 0 ≤ hd
    swap
    · have h1' : hd < 0 := not_le.mp h1
      refine post_seq_err (device.create_default_device_throw nat tmp_device result Var.tmp Var.r s1
        (by rw [hd1]; exact h1')) ?_
      rw [hd1, hd2, hd3]
      refine ⟨by simp, fun _ => ?_, fun _ _ => ?_, fun _ _ _ => ?_⟩
      all_goals first | contradiction | exact absurd ‹hf < 0› (not_lt.mpr h0) | skip
      refine ⟨rfl, ?_, ?_, ?_, ?_, ?_⟩
      · simp [device.dtor, device.default_ctor, device.release_eq, result, dtor_trace, dtor_mem,
          release_trace, release_mem, handout_trace, handout_mem, store_mem, store_trace, emit_trace,
          emit_mem, default_ctor_trace, default_ctor_mem, t1, m1, hpf0']
      all_goals simp [device.dtor, device.default_ctor, device.release_eq, result, dtor_mem,
        release_mem, handout_mem, store_mem, emit_mem, default_ctor_mem, m1, ms]
    have hpc0 := hpc0 h1
    have hpc0' : nullptr ≠ pc := fun e => hpc0 e.symm
    refine post_seq_run (device.create_default_device_run nat tmp_device result Var.tmp Var.r s1
      (by rw [hd1]; exact h1)) ?_
    intro s2 h2
    rw [hd2, hd3] at h2
    have m2 : ∀ b, s2.mem b =
        if b = Var.tmp_device then pd
        else if b = Var.tmp_device_context then pc
        else if b = Var.result ∨ b = Var.result_context ∨ b = Var.tmp ∨ b = Var.r then nullptr
        else s1.mem b := by
      intro b
      rw [h2]
      cases b <;>
      simp [device.dtor, device.move_ctor, device.default_ctor, device.release_eq, tmp_device, result,
        dtor_mem, move_ctor_mem, move_assign_mem, make_comobj_mem, handout_mem, store_mem, emit_mem,
        default_ctor_mem, release_mem]
    have t2 : s2.trace = s1.trace ++
        [Call.D3D11CreateDevice nullptr D3D_DRIVER_TYPE_HARDWARE D3D11_CREATE_DEVICE_BGRA_SUPPORT,
         Call.AddRef pc, Call.Release pc] := by
      rw [h2]
      simp [device.dtor, device.move_ctor, device.default_ctor, device.release_eq, tmp_device, result,
        dtor_trace, dtor_mem, move_ctor_trace, move_ctor_mem, move_assign_trace, move_assign_mem,
        make_comobj_trace, make_comobj_mem, handout_trace, handout_mem, store_trace, store_mem,
        emit_trace, emit_mem, default_ctor_trace, default_ctor_mem, release_trace, release_mem, hpc0']
    clear h2
    -- the temporary is moved into `m_device` and destroyed; `m_context` is copied
    refine post_seq_run (step_run _ s2) ?_
    rintro _ rfl
    refine post_seq_run (step_run _ _) ?_
    rintro _ rfl
    refine post_seq_run (step_run _ _) ?_
    intro s3 h3
    have m3 : ∀ b, s3.mem b =
        if b = Var.m_device then pd
        else if b = Var.m_device_context ∨ b = Var.m_context then pc
        else if b = Var.tmp_device ∨ b = Var.tmp_device_context then nullptr
        else s2.mem b := by
      intro b
      rw [h3]
      cases b <;>
      simp [device.dtor, device.move_assign, device.release_eq, device.immediate_context,
        tmp_device, m_device, dtor_mem, move_assign_mem, copy_assign_mem, store_mem, release_mem, m2]
    have t3 : s3.trace = s2.trace ++ [Call.AddRef pc] := by
      rw [h3]
      simp [device.dtor, device.move_assign, device.release_eq, device.immediate_context,
        tmp_device, m_device, dtor_trace, dtor_mem, move_assign_trace, move_assign_mem,
        copy_assign_trace, copy_assign_mem, store_trace, store_mem, release_trace, release_mem,
        m2, m1, ms, hpc0']
    clear h3
    -- `m_swapchain = factory.create_swapchain(m_device, (HWND)winId())`
    have hfac : s3.mem Var.factory = pf := by simp [m3, m2, m1]
    have hdevp : s3.mem m_device.m_device = pd := by simp [m3, m_device]
    by_cases h2 : 0 ≤ hs
    swap
    · have h2' : hs < 0 := not_le.mp h2
      refine post_seq_err (factory.create_swapchain_throw nat Var.tmp Var.r Var.factory m_device winId s3
        (by rw [hfac]; exact hpf0) (by rw [hfac, hdevp, e_s]; exact h2')) ?_
      rw [hfac, hdevp, e_s]
      refine ⟨by simp, fun _ => ?_, fun _ _ => ?_, fun _ _ _ => ?_⟩
      all_goals first | contradiction | exact absurd ‹hf < 0› (not_lt.mpr h0) | exact absurd ‹hd < 0› (not_lt.mpr h1) | skip
      refine ⟨rfl, ?_, ?_, ?_, ?_, ?_⟩
      · simp [dtor_trace, dtor_mem, handout_trace, handout_mem, emit_trace, emit_mem, hfac, hpf0',
          t3, t2, t1]
      all_goals simp [dtor_mem, handout_mem, emit_mem, m3, m2, m1, ms]
    -- every call succeeded: no failure to describe
    refine post_seq_run (factory.create_swapchain_run nat Var.tmp Var.r Var.factory m_device winId s3
      (by rw [hfac]; exact hpf0) (by rw [hfac, hdevp, e_s]; exact h2)) ?_
    intro s4 h4
    clear h4
    refine post_seq_run (step_run _ s4) ?_
    rintro _ rfl
    refine post_of_run (step_run _ _) ?_
    refine ⟨by simp, fun _ => ?_, fun _ _ => ?_, fun _ _ _ => ?_⟩
    all_goals first | exact absurd ‹hf < 0› (not_lt.mpr h0) | exact absurd ‹hd < 0› (not_lt.mpr h1) | exact absurd ‹hs < 0› (not_lt.mpr h2)
  · clear e_f hpf0 e_d hpc0 e_s
    unfold D3DResize
    simp only [Exec.bind_def]
    -- unbind, then release the three members
    refine post_seq_run (devicecontext.set_rendertarget_run Var.m_context s (by rw [hctx]; exact hctx0)) ?_
    rintro _ rfl
    refine post_seq_run (step_run _ _) ?_
    rintro _ rfl
    refine post_seq_run (step_run _ _) ?_
    rintro _ rfl
    refine post_seq_run (step_run _ _) ?_
    intro s1 e1
    have m1 : ∀ b, s1.mem b =
        if b = Var.m_rtv ∨ b = Var.m_dsv ∨ b = Var.m_dsvbuffer then nullptr else s.mem b := by
      intro b
      rw [e1]
      cases b <;> simp [release_mem, emit_mem]
    have t1 : s1.trace = pre := by
      rw [e1, hpre]
      simp [release_trace, release_mem, emit_trace, emit_mem, hctx]
    clear e1 hpre
    have hsc1 : s1.mem Var.m_swapchain = sc := by simp [m1, hsc]
    -- `ResizeBuffers`
    by_cases h0 : 0 ≤ hr0
    swap
    · have h0' : hr0 < 0 := not_le.mp h0
      refine post_seq_err (swapchain.resize_throw nat Var.m_swapchain 0 0 0 DXGI_FORMAT_UNKNOWN 0 s1
        (by rw [hsc1]; exact hsc0) (by rw [hsc1, hrb]; exact h0')) ?_
      rw [hsc1, hrb]
      refine ⟨fun _ => ?_, fun _ _ => ?_, fun _ _ _ => ?_, fun _ _ _ _ => ?_, fun _ _ _ _ _ => ?_⟩
      all_goals first | contradiction | exact absurd ‹hr0 < 0› (not_lt.mpr h0) | exact absurd ‹hr1 < 0› (not_lt.mpr h1) | exact absurd ‹hr2 < 0› (not_lt.mpr h2) | exact absurd ‹hr3 < 0› (not_lt.mpr h3) | skip
      exact ⟨rfl, by simp [emit_trace, t1], by simp [emit_mem, m1], by simp [emit_mem, m1],
        by simp [emit_mem, m1]⟩
    refine post_seq_run (swapchain.resize_run nat Var.m_swapchain 0 0 0 DXGI_FORMAT_UNKNOWN 0 s1
      (by rw [hsc1]; exact hsc0) (by rw [hsc1, hrb]; exact h0)) ?_
    rintro _ rfl
    rw [hsc1]
    -- `GetBuffer`
    by_cases h1 : 0 ≤ hr1
    swap
    · have h1' : hr1 < 0 := not_le.mp h1
      refine post_seq_err (swapchain.backbuffer_throw nat Var.backbuffer Var.r Var.m_swapchain 0 _
        (by rw [emit_mem, hsc1]; exact hsc0) (by rw [emit_mem, hsc1, hgb]; exact h1')) ?_
      rw [emit_mem, hsc1, hgb]
      refine ⟨fun _ => ?_, fun _ _ => ?_, fun _ _ _ => ?_, fun _ _ _ _ => ?_, fun _ _ _ _ _ => ?_⟩
      all_goals first | contradiction | exact absurd ‹hr0 < 0› (not_lt.mpr h0) | exact absurd ‹hr1 < 0› (not_lt.mpr h1) | exact absurd ‹hr2 < 0› (not_lt.mpr h2) | exact absurd ‹hr3 < 0› (not_lt.mpr h3) | skip
      exact ⟨rfl, by simp [emit_trace, handout_trace, t1], by simp [emit_mem, handout_mem, m1],
        by simp [emit_mem, handout_mem, m1], by simp [emit_mem, handout_mem, m1]⟩
    have hbb0 := hbb0 h1
    refine post_seq_run (swapchain.backbuffer_run nat Var.backbuffer Var.r Var.m_swapchain 0 _
      (by rw [emit_mem, hsc1]; exact hsc0) (by rw [emit_mem, hsc1, hgb]; exact h1)) ?_
    intro s2 e2
    rw [emit_mem, hsc1, hgb] at e2
    have c2 := created_world (s1.emit (Call.ResizeBuffers sc 0 0 0 DXGI_FORMAT_UNKNOWN 0))
      Var.backbuffer Var.r bb (Call.GetBuffer sc 0) hbb0
    rw [← e2] at c2
    obtain ⟨m2, t2⟩ := c2
    simp only [emit_mem, emit_trace] at m2 t2
    clear e2
    refine post_scope ?_
    have hbb0' : nullptr ≠ bb := fun e => hbb0 e.symm
    -- the render-target view
    have hdev2 : s2.mem m_device.m_device = dev := by simp [m2, m1, emit_mem, m_device, hdev]
    have hbb2 : s2.mem Var.backbuffer = bb := by simp [m2]
    by_cases h2 : 0 ≤ hr2
    swap
    · have h2' : hr2 < 0 := not_le.mp h2
      refine post_seq_err (device.create_view_rendertargetview_throw nat Var.tmp Var.r m_device
        Var.backbuffer s2 (by rw [hdev2]; exact hdev0) (by rw [hdev2, hbb2, hcr]; exact h2')) ?_
      rw [hdev2, hbb2, hcr]
      refine ⟨by simp, fun _ => ?_, fun _ _ => ?_, fun _ _ _ => ?_, fun _ _ _ _ => ?_, fun _ _ _ _ _ => ?_⟩
      all_goals first | contradiction | exact absurd ‹hr0 < 0› (not_lt.mpr h0) | exact absurd ‹hr1 < 0› (not_lt.mpr h1) | exact absurd ‹hr2 < 0› (not_lt.mpr h2) | exact absurd ‹hr3 < 0› (not_lt.mpr h3) | skip
      exact ⟨rfl, by simp [dtor_trace, dtor_mem, emit_trace, emit_mem, handout_mem, handout_trace, t2, t1, hbb2, hbb0'],
        by simp [dtor_mem, emit_mem, handout_mem, m2, m1],
        by simp [dtor_mem, emit_mem, handout_mem, m2, m1],
        by simp [dtor_mem, emit_mem, handout_mem, m2, m1]⟩
    have hrtv0 := hrtv0 h2
    refine post_seq_run (device.create_view_rendertargetview_run nat Var.tmp Var.r m_device
      Var.backbuffer s2 (by rw [hdev2]; exact hdev0) (by rw [hdev2, hbb2, hcr]; exact h2)) ?_
    intro s3 e3
    rw [hdev2, hbb2, hcr] at e3
    have c3 := created_world s2 Var.tmp Var.r rtv (Call.CreateRenderTargetView dev bb) hrtv0
    rw [← e3] at c3
    obtain ⟨m3, t3⟩ := c3
    clear e3
    refine post_seq_run (step_run _ s3) ?_
    rintro _ rfl
    refine post_seq_run (step_run _ _) ?_
    intro s4 e4
    have m4 : ∀ b, s4.mem b =
        if b = Var.m_rtv then rtv else if b = Var.tmp ∨ b = Var.r then nullptr else s2.mem b := by
      intro b
      rw [e4]
      cases b <;> simp [dtor_mem, move_assign_mem, m3]
    have t4 : s4.trace = s3.trace := by
      rw [e4]
      simp [dtor_trace, dtor_mem, move_assign_trace, move_assign_mem, m3, m2, m1, emit_mem]
    clear e4
    -- the depth buffer, of the size the back buffer reports
    have hbb4 : s4.mem Var.backbuffer = bb := by simp [m4, m2]
    refine post_seq_run (texture2d.width_run nat Var.backbuffer s4 (by rw [hbb4]; exact hbb0)) ?_
    rintro _ rfl
    refine post_seq_run (texture2d.height_run nat Var.backbuffer _ (by rw [emit_mem, hbb4]; exact hbb0)) ?_
    rintro _ rfl
    rw [emit_mem, hbb4, hW, hH, toUInt_toInt W hW32, toUInt_toInt H hH32]
    have hdev4 : s4.mem m_device.m_device = dev := by
      have := hdev2
      simp only [m_device] at this ⊢
      simp [m4, this]
    by_cases h3 : 0 ≤ hr3
    swap
    · have h3' : hr3 < 0 := not_le.mp h3
      refine post_seq_err (device.create_texture2d_throw nat Var.tmp Var.r m_device W H 1 1
        DXGI_FORMAT_D24_UNORM_S8_UINT 1 0 D3D11_USAGE_DEFAULT D3D11_BIND_DEPTH_STENCIL 0 _ _ rfl
        (by rw [emit_mem, emit_mem, hdev4]; exact hdev0)
        (by rw [emit_mem, emit_mem, hdev4, hct]; exact h3')) ?_
      rw [emit_mem, emit_mem, hdev4, hct]
      refine ⟨by simp, fun _ => ?_, fun _ _ => ?_, fun _ _ _ => ?_, fun _ _ _ _ => ?_, fun _ _ _ _ _ => ?_⟩
      all_goals first | contradiction | exact absurd ‹hr0 < 0› (not_lt.mpr h0) | exact absurd ‹hr1 < 0› (not_lt.mpr h1) | exact absurd ‹hr2 < 0› (not_lt.mpr h2) | exact absurd ‹hr3 < 0› (not_lt.mpr h3) | skip
      exact ⟨rfl, by simp [dtor_trace, dtor_mem, emit_trace, emit_mem, handout_mem, handout_trace,
          t4, t3, t2, t1, hbb4, hbb0'],
        by simp [dtor_mem, emit_mem, handout_mem, m4, m2, m1],
        by simp [dtor_mem, emit_mem, handout_mem, m4, m2, m1],
        by simp [dtor_mem, emit_mem, handout_mem, m4, m2, m1]⟩
    have htex0 := htex0 h3
    refine post_seq_run (device.create_texture2d_run nat Var.tmp Var.r m_device W H 1 1
      DXGI_FORMAT_D24_UNORM_S8_UINT 1 0 D3D11_USAGE_DEFAULT D3D11_BIND_DEPTH_STENCIL 0 _ _ rfl
      (by rw [emit_mem, emit_mem, hdev4]; exact hdev0)
      (by rw [emit_mem, emit_mem, hdev4, hct]; exact h3)) ?_
    intro s5 e5
    rw [emit_mem, emit_mem, hdev4, hct] at e5
    have c5 := created_world ((s4.emit (Call.GetDesc bb)).emit (Call.GetDesc bb)) Var.tmp Var.r tex
      (Call.CreateTexture2D dev ⟨W, H, 1, 1, DXGI_FORMAT_D24_UNORM_S8_UINT, 1, 0, D3D11_USAGE_DEFAULT,
        D3D11_BIND_DEPTH_STENCIL, 0, 0⟩) htex0
    rw [← e5] at c5
    obtain ⟨m5, t5⟩ := c5
    simp only [emit_mem, emit_trace] at m5 t5
    clear e5
    refine post_seq_run (step_run _ s5) ?_
    rintro _ rfl
    refine post_seq_run (step_run _ _) ?_
    intro s6 e6
    have m6 : ∀ b, s6.mem b =
        if b = Var.m_dsvbuffer then tex else if b = Var.tmp ∨ b = Var.r then nullptr else s4.mem b := by
      intro b
      rw [e6]
      cases b <;> simp [dtor_mem, move_assign_mem, m5]
    have t6 : s6.trace = s5.trace := by
      rw [e6]
      simp [dtor_trace, dtor_mem, move_assign_trace, move_assign_mem, m5, m4, m2, m1, emit_mem]
    clear e6
    -- the depth-stencil view
    have hdev6 : s6.mem m_device.m_device = dev := by
      have := hdev4
      simp only [m_device] at this ⊢
      simp [m6, this]
    have htex6 : s6.mem Var.m_dsvbuffer = tex := by simp [m6]
    have hbb6 : s6.mem Var.backbuffer = bb := by simp [m6, m4, m2]
    by_cases h4 : 0 ≤ hr4
    swap
    · have h4' : hr4 < 0 := not_le.mp h4
      refine post_seq_err (device.create_view_depthstencilview_throw nat Var.tmp Var.r m_device
        Var.m_dsvbuffer s6 (by rw [hdev6]; exact hdev0) (by rw [hdev6, htex6, hcd]; exact h4')) ?_
      rw [hdev6, htex6, hcd]
      refine ⟨by simp, fun _ => ?_, fun _ _ => ?_, fun _ _ _ => ?_, fun _ _ _ _ => ?_, fun _ _ _ _ _ => ?_⟩
      all_goals first | contradiction | exact absurd ‹hr0 < 0› (not_lt.mpr h0) | exact absurd ‹hr1 < 0› (not_lt.mpr h1) | exact absurd ‹hr2 < 0› (not_lt.mpr h2) | exact absurd ‹hr3 < 0› (not_lt.mpr h3) | skip
      exact ⟨rfl, by simp [dtor_trace, dtor_mem, emit_trace, emit_mem, handout_mem, handout_trace,
          t6, t5, t4, t3, t2, t1, hbb6, hbb0'],
        by simp [dtor_mem, emit_mem, handout_mem, m6, m4, m2, m1],
        by simp [dtor_mem, emit_mem, handout_mem, m6, m4, m2, m1],
        by simp [dtor_mem, emit_mem, handout_mem, m6, m4, m2, m1]⟩
    -- every call succeeded: no failure to describe
    refine post_seq_run (device.create_view_depthstencilview_run nat Var.tmp Var.r m_device
      Var.m_dsvbuffer s6 (by rw [hdev6]; exact hdev0) (by rw [hdev6, htex6, hcd]; exact h4)) ?_
    intro s7 e7
    have m7 : s7.mem Var.m_context = ctx := by
      rw [e7]
      simp [make_comobj_mem, handout_mem, emit_mem, m6, m4, m2, m1, hctx]
    clear e7
    refine post_seq_run (step_run _ s7) ?_
    rintro _ rfl
    refine post_seq_run (step_run _ _) ?_
    intro s8 e8
    have hctx8 : s8.mem Var.m_context = ctx := by
      rw [e8]
      simp [dtor_mem, move_assign_mem, m7]
    clear e8
    refine post_seq_run (devicecontext.set_rendertarget2_run Var.m_context Var.m_rtv Var.m_dsv s8
      (by rw [hctx8]; exact hctx0)) ?_
    rintro _ rfl
    refine post_of_run (devicecontext.set_viewport_run Var.m_context width height _
      (by rw [emit_mem, hctx8]; exact hctx0)) ?_
    refine ⟨by simp, fun _ => ?_, fun _ _ => ?_, fun _ _ _ => ?_, fun _ _ _ _ => ?_, fun _ _ _ _ _ => ?_⟩
    all_goals first | exact absurd ‹hr0 < 0› (not_lt.mpr h0) | exact absurd ‹hr1 < 0› (not_lt.mpr h1) | exact absurd ‹hr2 < 0› (not_lt.mpr h2) | exact absurd ‹hr3 < 0› (not_lt.mpr h3) | exact absurd ‹hr4 < 0› (not_lt.mpr h4)

/-- C13 at two failures: `CreateSwapChain` fails with `E_FAIL` during the
initialisation of a fresh widget, and `CreateTexture2D` fails with `E_FAIL`
during a resize of the widget `World.ready`. -/
theorem failure_raises_status_and_unwinds_locals_witness :
    ((D3DInit Native.failing_swapchain 99 (members (World.empty Var))).1 =
        Except.error (Abort.thrown (runtime_error.ctor Native.failing_swapchain E_FAIL)) ∧
      (D3DInit Native.failing_swapchain 99 (members (World.empty Var))).2.trace =
        [Call.CreateDXGIFactory,
         Call.D3D11CreateDevice nullptr D3D_DRIVER_TYPE_HARDWARE D3D11_CREATE_DEVICE_BGRA_SUPPORT,
         Call.AddRef 3, Call.Release 3, Call.AddRef 3,
         Call.CreateSwapChain 1 2 99,
         Call.Release 1]) ∧
    ((D3DResize Native.failing_texture 640 480 World.ready).1 =
        Except.error (Abort.thrown (runtime_error.ctor Native.failing_texture E_FAIL)) ∧
      (D3DResize Native.failing_texture 640 480 World.ready).2.mem Var.m_rtv = 6 ∧
      (D3DResize Native.failing_texture 640 480 World.ready).2.mem Var.m_dsv = nullptr) :=
  have hi := (failure_raises_status_and_unwinds_locals Native.failing_swapchain 99 640 480
    (World.empty Var) World.ready 0 0 E_FAIL 1 2 3 nullptr 3 4 2 5 6 7 8 640 480 0 0 0 0 0
    [Call.OMSetRenderTargets 3 [] nullptr, Call.Release 6, Call.Release 8, Call.Release 7]
    rfl (fun _ => by decide) rfl (fun _ => by decide) rfl
    rfl (by decide) rfl (by decide) rfl (by decide) rfl
    rfl rfl (fun _ => by decide) rfl (fun _ => by decide) rfl (by decide) rfl (by decide)
    rfl (fun _ => by decide) rfl).1.2.2 (by decide) (by decide) (by decide)
  have hr := (failure_raises_status_and_unwinds_locals Native.failing_texture 99 640 480
    (World.empty Var) World.ready 0 0 0 1 2 3 4 3 4 2 5 6 nullptr 8 640 480 0 0 0 E_FAIL 0
    [Call.OMSetRenderTargets 3 [] nullptr, Call.Release 6, Call.Release 8, Call.Release 7]
    rfl (fun _ => by decide) rfl (fun _ => by decide) rfl
    rfl (by decide) rfl (by decide) rfl (by decide) rfl
    rfl rfl (fun _ => by decide) rfl (fun _ => by decide) rfl (by decide) rfl (by decide)
    rfl (fun h => absurd h (by decide)) rfl).2.2.2.2.1 (by decide) (by decide) (by decide) (by decide)
  ⟨⟨hi.1, hi.2.1⟩, hr.1, hr.2.2.1, hr.2.2.2.1⟩

/-- C13, counterexample: on a platform where `CreateSwapChain` fails with `E_FAIL`,
`D3DInit` on a fresh widget raises the error, and the last native call it
issues comes after the failing one: the `Release` of the factory `1` by the
destructor of the local `factory`, which brings its count to zero; the
constructor then destroys the members, which releases the context `3`, the
device `2` and the context again.  On a platform where `CreateTexture2D` fails,
`D3DResize` issues the `Release` of the back buffer `5` after the failing call,
and the render-target view member is valid again. -/
theorem failed_creation_is_followed_by_releases_counterexample :
    (D3DInit Native.failing_swapchain 99 (members (World.empty Var))).1 =
        Except.error (Abort.thrown (runtime_error.ctor Native.failing_swapchain E_FAIL)) ∧
    (D3DInit Native.failing_swapchain 99 (members (World.empty Var))).2.trace =
      [Call.CreateDXGIFactory,
       Call.D3D11CreateDevice nullptr D3D_DRIVER_TYPE_HARDWARE D3D11_CREATE_DEVICE_BGRA_SUPPORT,
       Call.AddRef 3, Call.Release 3, Call.AddRef 3,
       Call.CreateSwapChain 1 2 99, Call.Release 1] ∧
    (D3DInit Native.failing_swapchain 99 (members (World.empty Var))).2.refs 1 = 0 ∧
    (DirectXWidget.ctor Native.failing_swapchain 99 (World.empty Var)).2.trace =
      [Call.CreateDXGIFactory,
       Call.D3D11CreateDevice nullptr D3D_DRIVER_TYPE_HARDWARE D3D11_CREATE_DEVICE_BGRA_SUPPORT,
       Call.AddRef 3, Call.Release 3, Call.AddRef 3,
       Call.CreateSwapChain 1 2 99, Call.Release 1, Call.Release 3, Call.Release 2, Call.Release 3] ∧
    (D3DResize Native.failing_texture 640 480 World.ready).1 =
        Except.error (Abort.thrown (runtime_error.ctor Native.failing_texture E_FAIL)) ∧
    (D3DResize Native.failing_texture 640 480 World.ready).2.trace =
      [Call.OMSetRenderTargets 3 [] nullptr, Call.Release 6, Call.Release 8, Call.Release 7,
       Call.ResizeBuffers 4 0 0 0 DXGI_FORMAT_UNKNOWN 0,
       Call.GetBuffer 4 0, Call.AddRef 5, Call.Release 5,
       Call.CreateRenderTargetView 2 5, Call.AddRef 6, Call.Release 6,
       Call.GetDesc 5, Call.GetDesc 5,
       Call.CreateTexture2D 2 ⟨640, 480, 1, 1, DXGI_FORMAT_D24_UNORM_S8_UINT, 1, 0,
         D3D11_USAGE_DEFAULT, D3D11_BIND_DEPTH_STENCIL, 0, 0⟩,
       Call.Release 5] ∧
    is_valid Var.m_rtv (D3DResize Native.failing_texture 640 480 World.ready).2 = true :=
  ⟨rfl, rfl, rfl, rfl, rfl, rfl, rfl⟩

/-! ## The second resize: C11 -/

/-- C11: a resize of a widget that holds the views `r`, `d` and the depth buffer
`t` of an earlier resize (three different objects).  There is one world `s1`,
the same on every platform, in which `D3DResize` issues the `ResizeBuffers` of
the swap chain: up to it the run has issued the unbinding and then `Release r`,
`Release d`, `Release t`, one each and nothing else; in it each of the three
counts is one lower than at the start, no other count has moved, and the three
wrappers report `is_valid()` false.  On every platform the calls of the run are
those of `s1`, then `ResizeBuffers`, then every other call, the creation of the
new views and of the depth buffer included.  A platform on which that
`ResizeBuffers` fails stops the run at the call, so that the world the run
leaves is `s1` with the call recorded: there the counts and the invalid
wrappers are those of the run of `D3DResize` itself. -/
theorem resize_releases_old_views_first (width height : Int) (s : World Var)
    (ctx sc r d t : Handle)
    (hctx : s.mem Var.m_context = ctx) (hctx0 : ctx ≠ nullptr)
    (hsc : s.mem Var.m_swapchain = sc) (hsc0 : sc ≠ nullptr)
    (hr : s.mem Var.m_rtv = r) (hr0 : r ≠ nullptr)
    (hd : s.mem Var.m_dsv = d) (hd0 : d ≠ nullptr)
    (ht : s.mem Var.m_dsvbuffer = t) (ht0 : t ≠ nullptr)
    (hrd : r ≠ d) (hrt : r ≠ t) (hdt : d ≠ t) :
    ∃ s1 : World Var,
      s1.trace = s.trace ++ [Call.OMSetRenderTargets ctx [] nullptr, Call.Release r,
        Call.Release d, Call.Release t] ∧
      s1.refs r = s.refs r - 1 ∧ s1.refs d = s.refs d - 1 ∧ s1.refs t = s.refs t - 1 ∧
      (∀ q, q ≠ r → q ≠ d → q ≠ t → s1.refs q = s.refs q) ∧
      is_valid Var.m_rtv s1 = false ∧ is_valid Var.m_dsv s1 = false ∧
      is_valid Var.m_dsvbuffer s1 = false ∧
      ∀ nat : Native,
        (∃ l, (D3DResize nat width height s).2.trace =
          s1.trace ++ Call.ResizeBuffers sc 0 0 0 DXGI_FORMAT_UNKNOWN 0 :: l) ∧
        (nat.ResizeBuffers sc 0 0 0 DXGI_FORMAT_UNKNOWN 0 < 0 →
          (D3DResize nat width height s).1 = Except.error (Abort.thrown
            (runtime_error.ctor nat (nat.ResizeBuffers sc 0 0 0 DXGI_FORMAT_UNKNOWN 0))) ∧
          (D3DResize nat width height s).2 =
            s1.emit (Call.ResizeBuffers sc 0 0 0 DXGI_FORMAT_UNKNOWN 0) ∧
          (D3DResize nat width height s).2.trace =
            s.trace ++ [Call.OMSetRenderTargets ctx [] nullptr, Call.Release r, Call.Release d,
              Call.Release t, Call.ResizeBuffers sc 0 0 0 DXGI_FORMAT_UNKNOWN 0] ∧
          (D3DResize nat width height s).2.refs r = s.refs r - 1 ∧
          (D3DResize nat width height s).2.refs d = s.refs d - 1 ∧
          (D3DResize nat width height s).2.refs t = s.refs t - 1 ∧
          is_valid Var.m_rtv (D3DResize nat width height s).2 = false ∧
          is_valid Var.m_dsv (D3DResize nat width height s).2 = false ∧
          is_valid Var.m_dsvbuffer (D3DResize nat width height s).2 = false) := by
  have hr0' : nullptr ≠ r := fun e => hr0 e.symm
  have hd0' : nullptr ≠ d := fun e => hd0 e.symm
  have ht0' : nullptr ≠ t := fun e => ht0 e.symm
  have hdr : ¬ d = r := fun e => hrd e.symm
  have htr : ¬ t = r := fun e => hrt e.symm
  have htd : ¬ t = d := fun e => hdt e.symm
  -- the world after the unbinding and the three releases
  generalize hs1 : release Var.m_dsvbuffer (release Var.m_dsv (release Var.m_rtv
    (s.emit (Call.OMSetRenderTargets ctx [] nullptr)))) = s1
  have t1 : s1.trace = s.trace ++ [Call.OMSetRenderTargets ctx [] nullptr, Call.Release r,
      Call.Release d, Call.Release t] := by
    rw [← hs1]
    simp [release_trace, release_mem, emit_trace, emit_mem, hr, hd, ht, hr0', hd0', ht0']
  have c1 : s1.refs r = s.refs r - 1 := by
    rw [← hs1]
    simp [release, World.emit, World.store, World.Release, Function.update, hr, hd, ht, hr0', hd0',
      ht0', hrd, hrt, hdt, hdr, htr, htd]
  have c2 : s1.refs d = s.refs d - 1 := by
    rw [← hs1]
    simp [release, World.emit, World.store, World.Release, Function.update, hr, hd, ht, hr0', hd0',
      ht0', hrd, hrt, hdt, hdr, htr, htd]
  have c3 : s1.refs t = s.refs t - 1 := by
    rw [← hs1]
    simp [release, World.emit, World.store, World.Release, Function.update, hr, hd, ht, hr0', hd0',
      ht0', hrd, hrt, hdt, hdr, htr, htd]
  have c4 : ∀ q, q ≠ r → q ≠ d → q ≠ t → s1.refs q = s.refs q := by
    intro q h1 h2 h3
    rw [← hs1]
    simp [release, World.emit, World.store, World.Release, Function.update, hr, hd, ht, hr0', hd0',
      ht0', hrd, hrt, hdt, hdr, htr, htd, h1, h2, h3]
  have v1 : is_valid Var.m_rtv s1 = false := by rw [← hs1]; simp [is_valid, release_mem]
  have v2 : is_valid Var.m_dsv s1 = false := by rw [← hs1]; simp [is_valid, release_mem]
  have v3 : is_valid Var.m_dsvbuffer s1 = false := by rw [← hs1]; simp [is_valid, release_mem]
  have hsc1 : s1.mem Var.m_swapchain = sc := by
    rw [← hs1]
    simp [release_mem, emit_mem, hsc]
  refine ⟨s1, t1, c1, c2, c3, c4, v1, v2, v3, fun nat => ?_⟩
  have hrun : D3DResize nat width height s =
      Exec.seq (swapchain.resize nat Var.m_swapchain 0 0 0 DXGI_FORMAT_UNKNOWN 0) (fun _ => do
        swapchain.backbuffer nat Var.backbuffer Var.r Var.m_swapchain 0
        Exec.scope (dtor Var.backbuffer) (do
          device.create_view_rendertargetview nat Var.tmp Var.r m_device Var.backbuffer
          Exec.step (move_assign Var.m_rtv Var.tmp)
          Exec.step (dtor Var.tmp)
          let w ← texture2d.width nat Var.backbuffer
          let h ← texture2d.height nat Var.backbuffer
          device.create_texture2d nat Var.tmp Var.r m_device (toUInt w) (toUInt h) 1 1
            DXGI_FORMAT_D24_UNORM_S8_UINT 1 0 D3D11_USAGE_DEFAULT D3D11_BIND_DEPTH_STENCIL 0
          Exec.step (move_assign Var.m_dsvbuffer Var.tmp)
          Exec.step (dtor Var.tmp)
          device.create_view_depthstencilview nat Var.tmp Var.r m_device Var.m_dsvbuffer
          Exec.step (move_assign Var.m_dsv Var.tmp)
          Exec.step (dtor Var.tmp)
          devicecontext.set_rendertarget2 Var.m_context Var.m_rtv Var.m_dsv
          devicecontext.set_viewport Var.m_context width height)) s1 := by
    unfold D3DResize
    simp only [Exec.bind_def]
    rw [seq_eq_of_run (devicecontext.set_rendertarget_run Var.m_context s (by rw [hctx]; exact hctx0)),
      seq_step, seq_step, seq_step, hctx, hs1]
  clear hs1
  refine ⟨?_, fun hfail => ?_⟩
  · rw [hrun]
    have hst := swapchain.resize_state nat Var.m_swapchain 0 0 0 DXGI_FORMAT_UNKNOWN 0 s1
      (by rw [hsc1]; exact hsc0)
    rw [hsc1] at hst
    refine seq_trace_after_call _ _ _ _ hst ?_
    intro _
    simp only [swapchain.backbuffer, device.create_view_rendertargetview,
      texture2d.width, texture2d.height, device.create_texture2d,
      device.create_view_depthstencilview, devicecontext.set_rendertarget2,
      devicecontext.set_viewport, Exec.bind_def, Exec.pure_def]
    repeat with_reducible first
      | refine extends_seq ?_ (fun _ => ?_)
      | refine extends_scope ?_ ?_
      | refine extends_step ?_
      | exact extends_call _
      | exact extends_deref _
      | exact extends_read _
      | exact extends_check _ _
      | exact extends_ret _
      | exact grows_release _
      | exact grows_dtor _
      | exact grows_move_assign _ _
      | exact grows_make_comobj _ _ _
      | exact grows_handout _
  · have hthrow := swapchain.resize_throw nat Var.m_swapchain 0 0 0 DXGI_FORMAT_UNKNOWN 0 s1
      (by rw [hsc1]; exact hsc0) (by rw [hsc1]; exact hfail)
    rw [hsc1] at hthrow
    have hfin : D3DResize nat width height s =
        (Except.error (Abort.thrown
          (runtime_error.ctor nat (nat.ResizeBuffers sc 0 0 0 DXGI_FORMAT_UNKNOWN 0))),
          s1.emit (Call.ResizeBuffers sc 0 0 0 DXGI_FORMAT_UNKNOWN 0)) := by
      rw [hrun]
      simp only [Exec.seq, hthrow]
    rw [hfin]
    refine ⟨rfl, rfl, ?_, c1, c2, c3, v1, v2, v3⟩
    simp [emit_trace, t1]

/-- Witness of C11: the widget `World.ready`, which holds the views `6` and `8` and
the depth buffer `7` of an earlier resize. -/
theorem resize_releases_old_views_first_witness :
    ∃ s1 : World Var,
      s1.trace = World.ready.trace ++ [Call.OMSetRenderTargets 3 [] nullptr, Call.Release 6,
        Call.Release 8, Call.Release 7] ∧
      s1.refs 6 = World.ready.refs 6 - 1 ∧ s1.refs 8 = World.ready.refs 8 - 1 ∧
      s1.refs 7 = World.ready.refs 7 - 1 ∧
      (∀ q, q ≠ 6 → q ≠ 8 → q ≠ 7 → s1.refs q = World.ready.refs q) ∧
      is_valid Var.m_rtv s1 = false ∧ is_valid Var.m_dsv s1 = false ∧
      is_valid Var.m_dsvbuffer s1 = false ∧
      ∀ nat : Native,
        (∃ l, (D3DResize nat 800 600 World.ready).2.trace =
          s1.trace ++ Call.ResizeBuffers 4 0 0 0 DXGI_FORMAT_UNKNOWN 0 :: l) ∧
        (nat.ResizeBuffers 4 0 0 0 DXGI_FORMAT_UNKNOWN 0 < 0 →
          (D3DResize nat 800 600 World.ready).1 = Except.error (Abort.thrown
            (runtime_error.ctor nat (nat.ResizeBuffers 4 0 0 0 DXGI_FORMAT_UNKNOWN 0))) ∧
          (D3DResize nat 800 600 World.ready).2 =
            s1.emit (Call.ResizeBuffers 4 0 0 0 DXGI_FORMAT_UNKNOWN 0) ∧
          (D3DResize nat 800 600 World.ready).2.trace =
            World.ready.trace ++ [Call.OMSetRenderTargets 3 [] nullptr, Call.Release 6,
              Call.Release 8, Call.Release 7, Call.ResizeBuffers 4 0 0 0 DXGI_FORMAT_UNKNOWN 0] ∧
          (D3DResize nat 800 600 World.ready).2.refs 6 = World.ready.refs 6 - 1 ∧
          (D3DResize nat 800 600 World.ready).2.refs 8 = World.ready.refs 8 - 1 ∧
          (D3DResize nat 800 600 World.ready).2.refs 7 = World.ready.refs 7 - 1 ∧
          is_valid Var.m_rtv (D3DResize nat 800 600 World.ready).2 = false ∧
          is_valid Var.m_dsv (D3DResize nat 800 600 World.ready).2 = false ∧
          is_valid Var.m_dsvbuffer (D3DResize nat 800 600 World.ready).2 = false) :=
  resize_releases_old_views_first 800 600 World.ready 3 4 6 8 7
    (by decide) (by decide) (by decide) (by decide) (by decide) (by decide) (by decide) (by decide)
    (by decide) (by decide) (by decide) (by decide) (by decide)

end dx
